import Mathlib

/-!
# Fluid simulation (`fluid-simulation/src/simulation.cpp`)

A shallow embedding of the particle engine, in two readings of the C++ `float`.

* Exact arithmetic: `float` is a scalar type `α` that is a linearly ordered field; the
  calls into `<cmath>` (`sqrt`, `cos`, `sin`, the constant `M_PI`) are the operations of
  the class `CMath α`.  The theorems about square roots and trigonometry are stated at
  `α = ℝ`, where `CMath` is interpreted by the real functions.
* IEEE 754 binary32: `float` is the type `F32` (NaN, the two infinities, the finite
  numbers), every operation rounds its exact result to nearest, ties to even, and the
  functions of the program are translated once more in the namespace `Float32`.  This is
  the reading in which overflow, NaN and rounding show.
-/

namespace FluidSim

/-- The `<cmath>` entry points the simulation calls: `sqrt`, `cos`, `sin`, `M_PI`. -/
class CMath (α : Type) where
  /-- C `sqrt` -/
  sqrt : α → α
  /-- C `cos` -/
  cos : α → α
  /-- C `sin` -/
  sin : α → α
  /-- C `M_PI` -/
  M_PI : α

/-- Exact interpretation of `<cmath>` over the real numbers. -/
noncomputable instance instCMathReal : CMath ℝ where
  sqrt := Real.sqrt
  cos := Real.cos
  sin := Real.sin
  M_PI := Real.pi

/-! ## Simulation settings (lines 5-17) -/

/-- Screen width: `const int WIDTH = 128;` -/
def WIDTH : Int := 128

/-- Screen height: `const int HEIGHT = 64;` -/
def HEIGHT : Int := 64

/-- Number of particles: `const int NUM_PARTICLES = 30;` -/
def NUM_PARTICLES : Nat := 30

/-- Particle radius: `const int PARTICLE_RADIUS = 3;` -/
def PARTICLE_RADIUS : Int := 3

section Scalars

variable {α : Type} [LinearOrderedField α]

/-- Maximal speed: `const float MAX_SPEED = 3.0f;` -/
def MAX_SPEED : α := 3.0

/-- Damping factor: `const float FRICTION = 0.90f;` -/
def FRICTION : α := 0.90

/-- Force magnitude: `const float GRAVITY_FORCE = 1.5f;` -/
def GRAVITY_FORCE : α := 1.5

/-- Viscosity coefficient: `const float VISCOSITY = 0.05f;` -/
def VISCOSITY : α := 0.05

/-- Interaction radius factor: `const float VISCOSITY_RADIUS_FACTOR = 1.5f;` -/
def VISCOSITY_RADIUS_FACTOR : α := 1.5

end Scalars

/-- The `class Particle`: position `x, y` and velocity `vx, vy`. -/
structure Particle (α : Type) where
  /-- horizontal position -/
  x : α
  /-- vertical position -/
  y : α
  /-- horizontal velocity -/
  vx : α
  /-- vertical velocity -/
  vy : α
deriving DecidableEq, Repr

/-- The `class Simulation` together with the file-level `static float GRAVITY_DIRECTION`
that its methods read and write. -/
structure Simulation (α : Type) where
  /-- The vector `std::vector<Particle> particles` -/
  particles : List (Particle α)
  /-- The global `static float GRAVITY_DIRECTION` -/
  GRAVITY_DIRECTION : α

section Model

variable {α : Type} [LinearOrderedField α] [CMath α]

/-- Initial value of the global: `GRAVITY_DIRECTION = 0.5f * M_PI`. -/
def GRAVITY_DIRECTION_INIT : α := 0.5 * CMath.M_PI

/-- Body of `Particle::applyForces` with the force magnitude `force` in the place
of the constant `GRAVITY_FORCE` and `dir` the current `GRAVITY_DIRECTION`. -/
def Particle.applyForcesWith (force dir : α) (p : Particle α) : Particle α :=
  { p with
    vx := p.vx + force * CMath.cos dir
    vy := p.vy + force * CMath.sin dir }

/-- Method `Particle::applyForces` (lines 34-38); `dir` is the global `GRAVITY_DIRECTION`. -/
def Particle.applyForces (dir : α) (p : Particle α) : Particle α :=
  p.applyForcesWith GRAVITY_FORCE dir

/-- Method `Particle::updatePosition` (lines 41-45). -/
def Particle.updatePosition (p : Particle α) : Particle α :=
  { p with x := p.x + p.vx, y := p.y + p.vy }

/-- Method `Particle::applyFrictionAndLimitSpeed` (lines 48-67). -/
def Particle.applyFrictionAndLimitSpeed (p : Particle α) : Particle α :=
  let speed := CMath.sqrt (p.vx * p.vx + p.vy * p.vy)
  let scale := MAX_SPEED / speed
  let vx1 := if speed > MAX_SPEED then p.vx * scale else p.vx
  let vy1 := if speed > MAX_SPEED then p.vy * scale else p.vy
  let vx2 := vx1 * FRICTION
  let vy2 := vy1 * FRICTION
  let vx3 := if |vx2| < 0.1 then 0 else vx2
  let vy3 := if |vy2| < 0.1 then 0 else vy2
  { p with vx := vx3, vy := vy3 }

/-- The x-axis branch of `Particle::handleWallCollision` (lines 73-82). -/
def Particle.handleWallX (p : Particle α) : Particle α :=
  if p.x < (PARTICLE_RADIUS : α) then
    { p with x := (PARTICLE_RADIUS : α), vx := -p.vx * 0.8 }
  else if p.x > ((WIDTH - PARTICLE_RADIUS : Int) : α) then
    { p with x := ((WIDTH - PARTICLE_RADIUS : Int) : α), vx := -p.vx * 0.8 }
  else p

/-- The y-axis branch of `Particle::handleWallCollision` (lines 85-94). -/
def Particle.handleWallY (p : Particle α) : Particle α :=
  if p.y < (PARTICLE_RADIUS : α) then
    { p with y := (PARTICLE_RADIUS : α), vy := -p.vy * 0.8 }
  else if p.y > ((HEIGHT - PARTICLE_RADIUS : Int) : α) then
    { p with y := ((HEIGHT - PARTICLE_RADIUS : Int) : α), vy := -p.vy * 0.5 }
  else p

/-- Method `Particle::handleWallCollision` (lines 70-95): the x-axis test, then the y-axis test. -/
def Particle.handleWallCollision (p : Particle α) : Particle α :=
  p.handleWallX.handleWallY

/-- One execution of the body of a pair loop on `particles[i]` and `particles[j]`:
`f` computes the new values of the two referenced particles, which are written
back in place. -/
def updatePair (f : Particle α → Particle α → Particle α × Particle α)
    (i j : Nat) (ps : List (Particle α)) : List (Particle α) :=
  match ps[i]?, ps[j]? with
  | some p1, some p2 => (ps.set i (f p1 p2).1).set j (f p1 p2).2
  | _, _ => ps

/-- The double loop `for (i = 0; i < size; ++i) for (j = i + 1; j < size; ++j)`
shared by `applyViscosity` and the collision stage, in ascending index order. -/
def forEachPair (f : Particle α → Particle α → Particle α × Particle α)
    (ps : List (Particle α)) : List (Particle α) :=
  (List.range ps.length).foldl
    (fun acc i =>
      (List.range' (i + 1) (ps.length - (i + 1))).foldl (fun acc2 j => updatePair f i j acc2) acc)
    ps

/-- Local `interactionRadius = (2.0f * PARTICLE_RADIUS) * VISCOSITY_RADIUS_FACTOR` (line 123). -/
def interactionRadius : α := (2.0 * (PARTICLE_RADIUS : α)) * VISCOSITY_RADIUS_FACTOR

/-- Local `interactionRadiusSq = interactionRadius * interactionRadius` (line 124). -/
def interactionRadiusSq : α := interactionRadius * interactionRadius

/-- Loop body of `Simulation::applyViscosity` (lines 130-151) on the pair `p1, p2`. -/
def viscosityPair (p1 p2 : Particle α) : Particle α × Particle α :=
  let dx := p2.x - p1.x
  let dy := p2.y - p1.y
  let distSq := dx * dx + dy * dy
  if distSq < interactionRadiusSq ∧ distSq > 0.0001 then
    let dvx := p2.vx - p1.vx
    let dvy := p2.vy - p1.vy
    let factor : α := VISCOSITY
    ({ p1 with vx := p1.vx + factor * dvx, vy := p1.vy + factor * dvy },
     { p2 with vx := p2.vx - factor * dvx, vy := p2.vy - factor * dvy })
  else (p1, p2)

/-- Method `Simulation::applyViscosity` (lines 120-154). -/
def Simulation.applyViscosity (s : Simulation α) : Simulation α :=
  { s with particles := forEachPair viscosityPair s.particles }

/-- The distance `dist = sqrt(dx * dx + dy * dy)` of lines 184-187. -/
def dist (p1 p2 : Particle α) : α :=
  let dx := p2.x - p1.x
  let dy := p2.y - p1.y
  let distSq := dx * dx + dy * dy
  CMath.sqrt distSq

/-- Local `minDist = 2.0f * PARTICLE_RADIUS` (line 188). -/
def minDist : α := 2.0 * (PARTICLE_RADIUS : α)

/-- Loop body of the collision stage of `nextFrame` (lines 181-221) on the pair `p1, p2`. -/
def collidePair (p1 p2 : Particle α) : Particle α × Particle α :=
  let dx := p2.x - p1.x
  let dy := p2.y - p1.y
  let d := dist p1 p2
  if d < minDist ∧ d > 0 then
    let overlap := minDist - d
    let nx := dx / d
    let ny := dy / d
    let q1 : Particle α := { p1 with x := p1.x - (overlap / 2.0) * nx, y := p1.y - (overlap / 2.0) * ny }
    let q2 : Particle α := { p2 with x := p2.x + (overlap / 2.0) * nx, y := p2.y + (overlap / 2.0) * ny }
    let rvx := q2.vx - q1.vx
    let rvy := q2.vy - q1.vy
    let velAlongNormal := rvx * nx + rvy * ny
    if velAlongNormal < 0 then
      let restitution : α := 0.8
      let impulse := -(1.0 + restitution) * velAlongNormal / 2.0
      let impX := impulse * nx
      let impY := impulse * ny
      ({ q1 with vx := q1.vx - impX, vy := q1.vy - impY },
       { q2 with vx := q2.vx + impX, vy := q2.vy + impY })
    else (q1, q2)
  else (p1, p2)

/-- One iteration of the collision-resolution loop (lines 177-223): every pair once. -/
def collisionIteration (ps : List (Particle α)) : List (Particle α) :=
  forEachPair collidePair ps

/-- Iteration count `const int COLLISION_ITERATIONS = 2;` (line 174). -/
def COLLISION_ITERATIONS : Nat := 2

/-- Stage 4 of `nextFrame` (lines 174-224): `COLLISION_ITERATIONS` iterations. -/
def resolveCollisions (ps : List (Particle α)) : List (Particle α) :=
  (collisionIteration^[COLLISION_ITERATIONS]) ps

/-- Method `Simulation::nextFrame` (lines 156-232) with the force magnitude `force` in the
place of the constant `GRAVITY_FORCE`. -/
def Simulation.nextFrameWith (force : α) (s : Simulation α) : Simulation α :=
  let s1 : Simulation α :=
    { s with particles := s.particles.map (Particle.applyForcesWith force s.GRAVITY_DIRECTION) }
  let s2 := s1.applyViscosity
  let ps3 := s2.particles.map Particle.updatePosition
  let ps4 := resolveCollisions ps3
  let ps5 := ps4.map (fun p => p.handleWallCollision.applyFrictionAndLimitSpeed)
  { s2 with particles := ps5 }

/-- Method `Simulation::nextFrame` (lines 156-232). -/
def Simulation.nextFrame (s : Simulation α) : Simulation α :=
  s.nextFrameWith GRAVITY_FORCE

/-- Method `Simulation::setGravityDirection` (lines 114-117). -/
def Simulation.setGravityDirection (direction : α) (s : Simulation α) : Simulation α :=
  { s with GRAVITY_DIRECTION := direction + CMath.M_PI / 2 }

/-- The state after `n` successive calls of `nextFrame`. -/
def Simulation.frames (n : Nat) (s : Simulation α) : Simulation α :=
  (Simulation.nextFrame^[n]) s

/-- The one-particle world of the resting scenario: a particle at the centre
`(64, 32)` of the screen with zero velocity, after `setGravityDirection(0)`. -/
def restWorld : Simulation α :=
  Simulation.setGravityDirection 0 ⟨[⟨64, 32, 0, 0⟩], GRAVITY_DIRECTION_INIT⟩

/-- The results of the successive calls of the C library `rand()`: entry `k` is the
value returned by the `k`-th call from now on. -/
abbrev RandStream := Nat → Nat

/-- One call of `rand()`: the value returned and the remaining stream. -/
def rand (g : RandStream) : Nat × RandStream := (g 0, fun k => g (k + 1))

/-- Constructor `Particle::Particle(float _x, float _y)` (lines 25-31): two calls of
`rand()`, first for `vx`, then for `vy`.  `RAND_MAX` is the constant of the C library. -/
def Particle.new (RAND_MAX : Nat) (g : RandStream) (_x _y : α) : Particle α × RandStream :=
  let r1 := rand g
  let vx := ((r1.1 : α) / (RAND_MAX : α)) * 4.0 - 2.0
  let r2 := rand r1.2
  let vy := ((r2.1 : α) / (RAND_MAX : α)) * 4.0 - 2.0
  (⟨_x, _y, vx, vy⟩, r2.2)

/-- Loop body of `Simulation::init` (lines 108-110): `rand()` for `px`, `rand()` for
`py`, then `emplace_back(px, py)`, which runs the constructor. -/
def initStep (RAND_MAX : Nat) (st : List (Particle α) × RandStream) :
    List (Particle α) × RandStream :=
  let r1 := rand st.2
  let px : α := (PARTICLE_RADIUS : α) +
    ((r1.1 : α) / (RAND_MAX : α)) * ((WIDTH - 2 * PARTICLE_RADIUS : Int) : α)
  let r2 := rand r1.2
  let py : α := (PARTICLE_RADIUS : α) +
    ((r2.1 : α) / (RAND_MAX : α)) * ((HEIGHT - 2 * PARTICLE_RADIUS : Int) : α)
  let c := Particle.new RAND_MAX r2.2 px py
  (st.1 ++ [c.1], c.2)

/-- Method `Simulation::init` (lines 103-112): `NUM_PARTICLES` executions of the loop body. -/
def Simulation.init (RAND_MAX : Nat) (g : RandStream) (s : Simulation α) : Simulation α :=
  { s with particles := (((initStep RAND_MAX)^[NUM_PARTICLES]) (s.particles, g)).1 }

/-- A particle lies inside the box `[3, 125] x [3, 61]`, that is
`[PARTICLE_RADIUS, WIDTH - PARTICLE_RADIUS] x [PARTICLE_RADIUS, HEIGHT - PARTICLE_RADIUS]`. -/
def Particle.InBounds (p : Particle α) : Prop :=
  (PARTICLE_RADIUS : α) ≤ p.x ∧ p.x ≤ ((WIDTH - PARTICLE_RADIUS : Int) : α) ∧
  (PARTICLE_RADIUS : α) ≤ p.y ∧ p.y ≤ ((HEIGHT - PARTICLE_RADIUS : Int) : α)

end Model

/-! ## Stages of `applyFrictionAndLimitSpeed` and the frame with checked divisions -/

section Checked

variable {α : Type} [LinearOrderedField α] [CMath α]

/-- The speed limit of `applyFrictionAndLimitSpeed` (lines 51-57). -/
def Particle.limitSpeed (p : Particle α) : Particle α :=
  let speed := CMath.sqrt (p.vx * p.vx + p.vy * p.vy)
  if speed > MAX_SPEED then
    let scale := MAX_SPEED / speed
    { p with vx := p.vx * scale, vy := p.vy * scale }
  else p

/-- The friction of `applyFrictionAndLimitSpeed` (lines 59-60). -/
def Particle.applyFriction (p : Particle α) : Particle α :=
  { p with vx := p.vx * FRICTION, vy := p.vy * FRICTION }

/-- The velocity deadzone of `applyFrictionAndLimitSpeed` (lines 63-66). -/
def Particle.applyDeadzone (p : Particle α) : Particle α :=
  { p with
    vx := if |p.vx| < 0.1 then 0 else p.vx
    vy := if |p.vy| < 0.1 then 0 else p.vy }

/-- A division that fails on a zero divisor. -/
def checkedDiv (a b : α) : Option α :=
  if b = 0 then none else some (a / b)

/-- Method `Particle::applyFrictionAndLimitSpeed` (lines 48-67) with every division
checked: `none` when a division with a zero divisor is executed. -/
def Particle.applyFrictionAndLimitSpeedChecked (p : Particle α) : Option (Particle α) :=
  let speed := CMath.sqrt (p.vx * p.vx + p.vy * p.vy)
  let limited : Option (Particle α) :=
    if speed > MAX_SPEED then
      (checkedDiv MAX_SPEED speed).bind fun scale =>
        some { p with vx := p.vx * scale, vy := p.vy * scale }
    else some p
  limited.bind fun p1 => some p1.applyFriction.applyDeadzone

/-- Loop body of the collision stage (lines 181-221) with every division checked:
`dx / dist`, `dy / dist`, `overlap / 2.0f` and `impulse /= 2.0f`. -/
def collidePairChecked (p1 p2 : Particle α) : Option (Particle α × Particle α) :=
  let dx := p2.x - p1.x
  let dy := p2.y - p1.y
  let d := dist p1 p2
  if d < minDist ∧ d > 0 then
    let overlap := minDist - d
    (checkedDiv dx d).bind fun nx =>
    (checkedDiv dy d).bind fun ny =>
    (checkedDiv overlap 2.0).bind fun half =>
    let q1 : Particle α := { p1 with x := p1.x - half * nx, y := p1.y - half * ny }
    let q2 : Particle α := { p2 with x := p2.x + half * nx, y := p2.y + half * ny }
    let rvx := q2.vx - q1.vx
    let rvy := q2.vy - q1.vy
    let velAlongNormal := rvx * nx + rvy * ny
    if velAlongNormal < 0 then
      let restitution : α := 0.8
      (checkedDiv (-(1.0 + restitution) * velAlongNormal) 2.0).bind fun impulse =>
      let impX := impulse * nx
      let impY := impulse * ny
      some ({ q1 with vx := q1.vx - impX, vy := q1.vy - impY },
            { q2 with vx := q2.vx + impX, vy := q2.vy + impY })
    else some (q1, q2)
  else some (p1, p2)

/-- One execution of a fallible pair-loop body on `particles[i]` and `particles[j]`. -/
def updatePairChecked (f : Particle α → Particle α → Option (Particle α × Particle α))
    (i j : Nat) (ps : List (Particle α)) : Option (List (Particle α)) :=
  match ps[i]?, ps[j]? with
  | some p1, some p2 => (f p1 p2).bind fun r => some ((ps.set i r.1).set j r.2)
  | _, _ => some ps

/-- The double loop over all pairs `i < j` with a fallible body. -/
def forEachPairChecked (f : Particle α → Particle α → Option (Particle α × Particle α))
    (ps : List (Particle α)) : Option (List (Particle α)) :=
  (List.range ps.length).foldlM
    (fun acc i =>
      (List.range' (i + 1) (ps.length - (i + 1))).foldlM
        (fun acc2 j => updatePairChecked f i j acc2) acc)
    ps

/-- A loop `for (auto &p : particles)` with a fallible body. -/
def forEachChecked (f : Particle α → Option (Particle α)) :
    List (Particle α) → Option (List (Particle α))
  | [] => some []
  | p :: ps => (f p).bind fun q => (forEachChecked f ps).bind fun qs => some (q :: qs)

/-- Method `Simulation::nextFrame` (lines 156-232) with every division checked: `none`
when some division executed during the frame has a zero divisor.  The force and viscosity
stages and the wall handling contain no division. -/
def Simulation.nextFrameChecked (s : Simulation α) : Option (Simulation α) :=
  let s1 : Simulation α :=
    { s with particles := s.particles.map (Particle.applyForces s.GRAVITY_DIRECTION) }
  let s2 := s1.applyViscosity
  let ps3 := s2.particles.map Particle.updatePosition
  (forEachPairChecked collidePairChecked ps3).bind fun ps4a =>
  (forEachPairChecked collidePairChecked ps4a).bind fun ps4 =>
  (forEachChecked (fun p => p.handleWallCollision.applyFrictionAndLimitSpeedChecked) ps4).bind
    fun ps5 => some { s2 with particles := ps5 }

end Checked

/-! ## IEEE 754 arithmetic

The `float` of the program as binary32: every operation computes the exact result of its
finite operands and rounds it once, to nearest, ties to even (no excess precision, no fused
multiply-add); the operations on NaN and on the infinities follow IEEE 754. -/

/-- A floating-point datum: NaN, one of the two infinities, or a finite number, kept as
the rational it denotes.  The two zeros of IEEE 754 are identified (they compare equal and
the program never divides by zero). -/
inductive F32 : Type
  | nan : F32
  | pinf : F32
  | ninf : F32
  | fin (q : ℚ) : F32
deriving DecidableEq

section Rounding

variable {K : Type} [LinearOrderedField K] [FloorRing K]

/-- Rounding to the nearest integer, ties to the even one. -/
def roundHalfEven (y : K) : ℤ :=
  if Int.fract y < 1 / 2 then ⌊y⌋
  else if 1 / 2 < Int.fract y then ⌊y⌋ + 1
  else if ⌊y⌋ % 2 = 0 then ⌊y⌋
  else ⌊y⌋ + 1

/-- IEEE 754 rounding (to nearest, ties to even) of the exact result `x` into the binary
format with `prec` significand bits and least normal exponent `emin`: the unit in the last
place is `2 ^ (e - (prec - 1))` for the exponent `e` of `x`, not below `emin` (subnormal
range); a rounded magnitude of `2 ^ emax` or more overflows to an infinity. -/
def roundTo (prec : ℕ) (emin emax : ℤ) (x : K) : F32 :=
  if x = 0 then F32.fin 0
  else
    let e : ℤ := max (Int.log 2 |x|) emin
    let k : ℤ := roundHalfEven (x / (2 : K) ^ (e - ((prec : ℤ) - 1)))
    let r : ℚ := (k : ℚ) * (2 : ℚ) ^ (e - ((prec : ℤ) - 1))
    if (2 : ℚ) ^ emax ≤ |r| then (if 0 < x then F32.pinf else F32.ninf)
    else F32.fin r

/-- Rounding into binary32 (`float`): 24 significand bits, exponents `-126 .. 127`. -/
def rnd32 (x : K) : F32 := roundTo 24 (-126) 128 x

/-- Rounding into binary64 (`double`): 53 significand bits, exponents `-1022 .. 1023`. -/
def rnd64 (x : K) : F32 := roundTo 53 (-1022) 1024 x

end Rounding

namespace F32

/-- Negation. -/
def neg : F32 → F32
  | nan => nan
  | pinf => ninf
  | ninf => pinf
  | fin q => fin (-q)

/-- Addition, the exact sum of two finite numbers rounded by `r`. -/
def addWith (r : ℚ → F32) : F32 → F32 → F32
  | fin a, fin b => r (a + b)
  | nan, _ => nan
  | _, nan => nan
  | pinf, ninf => nan
  | ninf, pinf => nan
  | pinf, _ => pinf
  | ninf, _ => ninf
  | fin _, pinf => pinf
  | fin _, ninf => ninf

/-- The sign of a datum other than NaN: `1`, `0` or `-1`. -/
def sign : F32 → ℤ
  | nan => 0
  | pinf => 1
  | ninf => -1
  | fin q => if 0 < q then 1 else if q < 0 then -1 else 0

/-- Multiplication, the exact product of two finite numbers rounded by `r`; an infinity
times zero is NaN. -/
def mulWith (r : ℚ → F32) : F32 → F32 → F32
  | fin a, fin b => r (a * b)
  | nan, _ => nan
  | _, nan => nan
  | a, b =>
    if sign a * sign b = 0 then nan
    else if 0 < sign a * sign b then pinf
    else ninf

/-- Division, the exact quotient of two finite numbers rounded by `r`; `0 / 0` and
`inf / inf` are NaN, a non-zero number over zero is an infinity. -/
def divWith (r : ℚ → F32) : F32 → F32 → F32
  | fin a, fin b =>
    if b = 0 then (if a = 0 then nan else if 0 < a then pinf else ninf)
    else r (a / b)
  | nan, _ => nan
  | _, nan => nan
  | fin _, _ => fin 0
  | pinf, fin b => if 0 ≤ b then pinf else ninf
  | ninf, fin b => if 0 ≤ b then ninf else pinf
  | _, _ => nan

/-- The comparison `<`: false as soon as one side is NaN. -/
def ltb : F32 → F32 → Bool
  | fin a, fin b => decide (a < b)
  | ninf, fin _ => true
  | ninf, pinf => true
  | fin _, pinf => true
  | _, _ => false

/-- The comparison `<=`: false as soon as one side is NaN. -/
def leb : F32 → F32 → Bool
  | fin a, fin b => decide (a ≤ b)
  | nan, _ => false
  | _, nan => false
  | ninf, _ => true
  | _, pinf => true
  | _, _ => false

/-- The C function `fabs`. -/
def fabs : F32 → F32
  | nan => nan
  | pinf => pinf
  | ninf => pinf
  | fin q => fin |q|

/-- Conversion of a `double` to `float`: the finite value is rounded into binary32. -/
def toFloat : F32 → F32
  | fin q => rnd32 q
  | x => x

instance : Neg F32 := ⟨neg⟩

instance : Add F32 := ⟨addWith rnd32⟩

instance : Sub F32 := ⟨fun a b => addWith rnd32 a (neg b)⟩

instance : Mul F32 := ⟨mulWith rnd32⟩

instance : Div F32 := ⟨divWith rnd32⟩

instance : LT F32 := ⟨fun a b => ltb a b = true⟩

instance : LE F32 := ⟨fun a b => leb a b = true⟩

instance (a b : F32) : Decidable (a < b) := inferInstanceAs (Decidable (ltb a b = true))

instance (a b : F32) : Decidable (a ≤ b) := inferInstanceAs (Decidable (leb a b = true))

/-- A decimal `float` literal such as `0.8f`: the decimal rounded into binary32. -/
instance : OfScientific F32 := ⟨fun m s e => rnd32 (OfScientific.ofScientific m s e : ℚ)⟩

/-- An integer literal used as a `float`. -/
instance (n : ℕ) : OfNat F32 n := ⟨rnd32 (n : ℚ)⟩

/-- Conversion of an `int` to `float`. -/
instance : IntCast F32 := ⟨fun n => rnd32 (n : ℚ)⟩

/-- The macro `M_PI` of `math.h`, a `double`: the binary64 number nearest to π,
`3.141592653589793115997963...`. -/
def M_PI_double : F32 := fin (884279719003555 / 281474976710656)

end F32

/-! ## The simulation on `float` -/

namespace Float32

section Program

variable [CMath F32]

/-- Maximal speed: `const float MAX_SPEED = 3.0f;` -/
def MAX_SPEED : F32 := 3.0

/-- Damping factor: `const float FRICTION = 0.90f;` -/
def FRICTION : F32 := 0.90

/-- Force magnitude: `const float GRAVITY_FORCE = 1.5f;` -/
def GRAVITY_FORCE : F32 := 1.5

/-- Viscosity coefficient: `const float VISCOSITY = 0.05f;` -/
def VISCOSITY : F32 := 0.05

/-- Interaction radius factor: `const float VISCOSITY_RADIUS_FACTOR = 1.5f;` -/
def VISCOSITY_RADIUS_FACTOR : F32 := 1.5

/-- Method `Particle::applyForces` (lines 34-38) on `float`; `dir` is the global
`GRAVITY_DIRECTION`, a `float`, and `cos`, `sin` are the `float` functions of `<cmath>`. -/
def applyForces (dir : F32) (p : Particle F32) : Particle F32 :=
  { p with
    vx := p.vx + GRAVITY_FORCE * CMath.cos dir
    vy := p.vy + GRAVITY_FORCE * CMath.sin dir }

/-- Method `Particle::updatePosition` (lines 41-45) on `float`. -/
def updatePosition (p : Particle F32) : Particle F32 :=
  { p with x := p.x + p.vx, y := p.y + p.vy }

/-- Method `Particle::applyFrictionAndLimitSpeed` (lines 48-67) on `float`. -/
def applyFrictionAndLimitSpeed (p : Particle F32) : Particle F32 :=
  let speed := CMath.sqrt (p.vx * p.vx + p.vy * p.vy)
  let p1 : Particle F32 :=
    if speed > MAX_SPEED then
      let scale := MAX_SPEED / speed
      { p with vx := p.vx * scale, vy := p.vy * scale }
    else p
  let p2 : Particle F32 := { p1 with vx := p1.vx * FRICTION, vy := p1.vy * FRICTION }
  let p3 : Particle F32 := if F32.fabs p2.vx < 0.1 then { p2 with vx := 0 } else p2
  if F32.fabs p3.vy < 0.1 then { p3 with vy := 0 } else p3

/-- The x-axis branch of `Particle::handleWallCollision` (lines 73-82) on `float`. -/
def handleWallX (p : Particle F32) : Particle F32 :=
  if p.x < ((PARTICLE_RADIUS : Int) : F32) then
    { p with x := ((PARTICLE_RADIUS : Int) : F32), vx := -p.vx * 0.8 }
  else if p.x > ((WIDTH - PARTICLE_RADIUS : Int) : F32) then
    { p with x := ((WIDTH - PARTICLE_RADIUS : Int) : F32), vx := -p.vx * 0.8 }
  else p

/-- The y-axis branch of `Particle::handleWallCollision` (lines 85-94) on `float`. -/
def handleWallY (p : Particle F32) : Particle F32 :=
  if p.y < ((PARTICLE_RADIUS : Int) : F32) then
    { p with y := ((PARTICLE_RADIUS : Int) : F32), vy := -p.vy * 0.8 }
  else if p.y > ((HEIGHT - PARTICLE_RADIUS : Int) : F32) then
    { p with y := ((HEIGHT - PARTICLE_RADIUS : Int) : F32), vy := -p.vy * 0.5 }
  else p

/-- Method `Particle::handleWallCollision` (lines 70-95) on `float`. -/
def handleWallCollision (p : Particle F32) : Particle F32 :=
  handleWallY (handleWallX p)

/-- Local `interactionRadius = (2.0f * PARTICLE_RADIUS) * VISCOSITY_RADIUS_FACTOR` on
`float` (line 123). -/
def interactionRadius : F32 :=
  ((2.0 : F32) * ((PARTICLE_RADIUS : Int) : F32)) * VISCOSITY_RADIUS_FACTOR

/-- Local `interactionRadiusSq = interactionRadius * interactionRadius` on `float`
(line 124). -/
def interactionRadiusSq : F32 := interactionRadius * interactionRadius

/-- Loop body of `Simulation::applyViscosity` (lines 130-151) on `float`. -/
def viscosityPair (p1 p2 : Particle F32) : Particle F32 × Particle F32 :=
  let dx := p2.x - p1.x
  let dy := p2.y - p1.y
  let distSq := dx * dx + dy * dy
  if distSq < interactionRadiusSq ∧ distSq > 0.0001 then
    let dvx := p2.vx - p1.vx
    let dvy := p2.vy - p1.vy
    let factor : F32 := VISCOSITY
    ({ p1 with vx := p1.vx + factor * dvx, vy := p1.vy + factor * dvy },
     { p2 with vx := p2.vx - factor * dvx, vy := p2.vy - factor * dvy })
  else (p1, p2)

/-- Method `Simulation::applyViscosity` (lines 120-154) on `float`. -/
def applyViscosity (s : Simulation F32) : Simulation F32 :=
  { s with particles := forEachPair viscosityPair s.particles }

/-- The distance `dist = sqrt(dx * dx + dy * dy)` of lines 184-187 on `float`. -/
def dist (p1 p2 : Particle F32) : F32 :=
  let dx := p2.x - p1.x
  let dy := p2.y - p1.y
  let distSq := dx * dx + dy * dy
  CMath.sqrt distSq

/-- Local `minDist = 2.0f * PARTICLE_RADIUS` on `float` (line 188). -/
def minDist : F32 := (2.0 : F32) * ((PARTICLE_RADIUS : Int) : F32)

/-- Loop body of the collision stage of `nextFrame` (lines 181-221) on `float`. -/
def collidePair (p1 p2 : Particle F32) : Particle F32 × Particle F32 :=
  let dx := p2.x - p1.x
  let dy := p2.y - p1.y
  let d := dist p1 p2
  if d < minDist ∧ d > 0 then
    let overlap := minDist - d
    let nx := dx / d
    let ny := dy / d
    let q1 : Particle F32 :=
      { p1 with x := p1.x - (overlap / 2.0) * nx, y := p1.y - (overlap / 2.0) * ny }
    let q2 : Particle F32 :=
      { p2 with x := p2.x + (overlap / 2.0) * nx, y := p2.y + (overlap / 2.0) * ny }
    let rvx := q2.vx - q1.vx
    let rvy := q2.vy - q1.vy
    let velAlongNormal := rvx * nx + rvy * ny
    if velAlongNormal < 0 then
      let restitution : F32 := 0.8
      let impulse := -(1.0 + restitution) * velAlongNormal / 2.0
      let impX := impulse * nx
      let impY := impulse * ny
      ({ q1 with vx := q1.vx - impX, vy := q1.vy - impY },
       { q2 with vx := q2.vx + impX, vy := q2.vy + impY })
    else (q1, q2)
  else (p1, p2)

/-- One iteration of the collision-resolution loop (lines 177-223) on `float`. -/
def collisionIteration (ps : List (Particle F32)) : List (Particle F32) :=
  forEachPair collidePair ps

/-- Stage 4 of `nextFrame` (lines 174-224) on `float`: `COLLISION_ITERATIONS` iterations. -/
def resolveCollisions (ps : List (Particle F32)) : List (Particle F32) :=
  (collisionIteration^[COLLISION_ITERATIONS]) ps

/-- Method `Simulation::nextFrame` (lines 156-232) on `float`. -/
def nextFrame (s : Simulation F32) : Simulation F32 :=
  let s1 : Simulation F32 :=
    { s with particles := s.particles.map (applyForces s.GRAVITY_DIRECTION) }
  let s2 := applyViscosity s1
  let ps3 := s2.particles.map updatePosition
  let ps4 := resolveCollisions ps3
  let ps5 := ps4.map (fun p => applyFrictionAndLimitSpeed (handleWallCollision p))
  { s2 with particles := ps5 }

/-- Method `Simulation::setGravityDirection` (lines 114-117) on `float`: the sum
`direction + M_PI / 2` is computed in `double`, `M_PI` being a `double`, and stored into
the `float` global. -/
def setGravityDirection (direction : F32) (s : Simulation F32) : Simulation F32 :=
  { s with GRAVITY_DIRECTION :=
      F32.toFloat (F32.addWith rnd64 direction (F32.divWith rnd64 CMath.M_PI (F32.fin 2))) }

/-- The speed limit of `applyFrictionAndLimitSpeed` (lines 51-57) on `float`. -/
def limitSpeed (p : Particle F32) : Particle F32 :=
  let speed := CMath.sqrt (p.vx * p.vx + p.vy * p.vy)
  if speed > MAX_SPEED then
    let scale := MAX_SPEED / speed
    { p with vx := p.vx * scale, vy := p.vy * scale }
  else p

/-- The friction of `applyFrictionAndLimitSpeed` (lines 59-60) on `float`. -/
def applyFriction (p : Particle F32) : Particle F32 :=
  { p with vx := p.vx * FRICTION, vy := p.vy * FRICTION }

/-- The velocity deadzone of `applyFrictionAndLimitSpeed` (lines 63-66) on `float`. -/
def applyDeadzone (p : Particle F32) : Particle F32 :=
  { p with
    vx := if F32.fabs p.vx < 0.1 then 0 else p.vx
    vy := if F32.fabs p.vy < 0.1 then 0 else p.vy }

end Program

end Float32

/-- The `<cmath>` functions on `float`: `sqrt`, `cos` and `sin` of a `float` argument
return the real value rounded into binary32 (IEEE 754 requires it of `sqrt`; for `cos` and
`sin` it is the behaviour of a correctly rounded library); `sqrt` of a negative number and
every function of NaN is NaN, `sqrt(+inf) = +inf`, `cos` and `sin` of an infinity are NaN.
`M_PI` is the `double` constant. -/
noncomputable instance instCMathF32 : CMath F32 where
  sqrt := fun x =>
    match x with
    | F32.fin q => if q < 0 then F32.nan else rnd32 (Real.sqrt (q : ℝ))
    | F32.pinf => F32.pinf
    | _ => F32.nan
  cos := fun x =>
    match x with
    | F32.fin q => rnd32 (Real.cos (q : ℝ))
    | _ => F32.nan
  sin := fun x =>
    match x with
    | F32.fin q => rnd32 (Real.sin (q : ℝ))
    | _ => F32.nan
  M_PI := F32.M_PI_double

/-! ## The pair loops -/

section PairLoops

variable {α : Type}

/-- A property kept by every step of a left fold holds of its result. -/
theorem foldl_preserves {β γ : Type} (P : β → Prop) (step : β → γ → β) (l : List γ)
    (hstep : ∀ acc c, c ∈ l → P acc → P (step acc c)) (init : β) (h0 : P init) :
    P (l.foldl step init) := by
  induction l generalizing init with
  | nil => exact h0
  | cons c cs ih =>
    rw [List.foldl_cons]
    apply ih
    · intro acc d hd hacc
      exact hstep acc d (List.mem_cons_of_mem _ hd) hacc
    · exact hstep init c (List.mem_cons_self _ _) h0

/-- A property of the particle list kept by the update of any pair `i < j` is kept
by the whole double loop. -/
theorem forEachPair_preserves (f : Particle α → Particle α → Particle α × Particle α)
    (P : List (Particle α) → Prop)
    (hP : ∀ i j ps, i < j → P ps → P (updatePair f i j ps))
    (ps : List (Particle α)) (h0 : P ps) : P (forEachPair f ps) := by
  unfold forEachPair
  apply foldl_preserves P _ _ _ _ h0
  intro acc i _ hacc
  apply foldl_preserves P _ _ _ _ hacc
  intro acc2 j hj hacc2
  have hij : i < j := by
    rw [List.mem_range'_1] at hj
    omega
  exact hP i j acc2 hij hacc2

theorem updatePair_length (f : Particle α → Particle α → Particle α × Particle α)
    (i j : Nat) (ps : List (Particle α)) : (updatePair f i j ps).length = ps.length := by
  unfold updatePair
  split <;> simp

theorem forEachPair_length (f : Particle α → Particle α → Particle α × Particle α)
    (ps : List (Particle α)) : (forEachPair f ps).length = ps.length := by
  apply forEachPair_preserves f (fun l => l.length = ps.length) _ ps rfl
  intro i j l _ hl
  rw [updatePair_length, hl]

theorem forEachPair_nil (f : Particle α → Particle α → Particle α × Particle α) :
    forEachPair f [] = [] := by
  simp [forEachPair]

theorem forEachPair_single (f : Particle α → Particle α → Particle α × Particle α)
    (p : Particle α) : forEachPair f [p] = [p] := by
  simp [forEachPair]

theorem forEachPair_two (f : Particle α → Particle α → Particle α × Particle α)
    (p1 p2 : Particle α) : forEachPair f [p1, p2] = [(f p1 p2).1, (f p1 p2).2] := by
  simp [forEachPair, List.range_succ, List.range', updatePair]

theorem forEachPair_three (f : Particle α → Particle α → Particle α × Particle α)
    (a b c : Particle α) :
    forEachPair f [a, b, c] =
      [(f (f a b).1 c).1, (f (f a b).2 (f (f a b).1 c).2).1,
        (f (f a b).2 (f (f a b).1 c).2).2] := by
  simp [forEachPair, List.range_succ, List.range', updatePair]

end PairLoops

section Sums

variable {α : Type} [LinearOrderedField α]

/-- Replacing entry `i` of a list changes the sum of `g` by `g a - g l[i]`. -/
theorem sum_map_set (g : Particle α → α) (l : List (Particle α)) (i : Nat)
    (a p : Particle α) (hp : l[i]? = some p) :
    ((l.set i a).map g).sum + g p = (l.map g).sum + g a := by
  induction l generalizing i with
  | nil => simp at hp
  | cons c cs ih =>
    cases i with
    | zero =>
      simp only [List.getElem?_cons_zero, Option.some.injEq] at hp
      subst hp
      simp only [List.set_cons_zero, List.map_cons, List.sum_cons]
      ring
    | succ k =>
      simp only [List.getElem?_cons_succ] at hp
      simp only [List.set_cons_succ, List.map_cons, List.sum_cons]
      have := ih k hp
      linarith

/-- A pair update that keeps `g p1 + g p2` keeps the sum of `g` over the list. -/
theorem updatePair_sum (f : Particle α → Particle α → Particle α × Particle α)
    (g : Particle α → α)
    (hf : ∀ p1 p2, g (f p1 p2).1 + g (f p1 p2).2 = g p1 + g p2)
    (i j : Nat) (hij : i < j) (ps : List (Particle α)) :
    ((updatePair f i j ps).map g).sum = (ps.map g).sum := by
  unfold updatePair
  split
  · rename_i p1 p2 h1 h2
    have e1 := sum_map_set g ps i (f p1 p2).1 p1 h1
    have h2' : (ps.set i (f p1 p2).1)[j]? = some p2 := by
      rw [List.getElem?_set_ne (by omega)]
      exact h2
    have e2 := sum_map_set g (ps.set i (f p1 p2).1) j (f p1 p2).2 p2 h2'
    have := hf p1 p2
    linarith
  · rfl

theorem forEachPair_sum (f : Particle α → Particle α → Particle α × Particle α)
    (g : Particle α → α)
    (hf : ∀ p1 p2, g (f p1 p2).1 + g (f p1 p2).2 = g p1 + g p2)
    (ps : List (Particle α)) :
    ((forEachPair f ps).map g).sum = (ps.map g).sum := by
  apply forEachPair_preserves f (fun l => (l.map g).sum = (ps.map g).sum) _ ps rfl
  intro i j l hij hl
  rw [updatePair_sum f g hf i j hij, hl]

theorem viscosityPair_vx (p1 p2 : Particle α) :
    (viscosityPair p1 p2).1.vx + (viscosityPair p1 p2).2.vx = p1.vx + p2.vx := by
  unfold viscosityPair
  simp only
  split_ifs
  · simp only
    ring
  · rfl

theorem viscosityPair_vy (p1 p2 : Particle α) :
    (viscosityPair p1 p2).1.vy + (viscosityPair p1 p2).2.vy = p1.vy + p2.vy := by
  unfold viscosityPair
  simp only
  split_ifs
  · simp only
    ring
  · rfl

/-- C3. Momentum conservation of the viscosity pass: the sum of `vx` and the sum of
`vy` over all particles are the same after `applyViscosity` as before it. -/
theorem applyViscosity_momentum (s : Simulation α) :
    (s.applyViscosity.particles.map Particle.vx).sum = (s.particles.map Particle.vx).sum ∧
    (s.applyViscosity.particles.map Particle.vy).sum = (s.particles.map Particle.vy).sum := by
  unfold Simulation.applyViscosity
  exact ⟨forEachPair_sum viscosityPair Particle.vx viscosityPair_vx s.particles,
    forEachPair_sum viscosityPair Particle.vy viscosityPair_vy s.particles⟩

end Sums

/-! ## Walls and containment -/

section Walls

variable {α : Type} [LinearOrderedField α]

theorem handleWallX_y (p : Particle α) : p.handleWallX.y = p.y := by
  unfold Particle.handleWallX
  split_ifs <;> rfl

theorem handleWallY_x (p : Particle α) : p.handleWallY.x = p.x := by
  unfold Particle.handleWallY
  split_ifs <;> rfl

theorem handleWallX_bounds (p : Particle α) :
    (PARTICLE_RADIUS : α) ≤ p.handleWallX.x ∧
      p.handleWallX.x ≤ ((WIDTH - PARTICLE_RADIUS : Int) : α) := by
  unfold Particle.handleWallX
  split_ifs with h1 h2
  · simp [WIDTH, PARTICLE_RADIUS]; norm_num
  · simp [WIDTH, PARTICLE_RADIUS]; norm_num
  · exact ⟨not_lt.mp h1, not_lt.mp h2⟩

theorem handleWallY_bounds (p : Particle α) :
    (PARTICLE_RADIUS : α) ≤ p.handleWallY.y ∧
      p.handleWallY.y ≤ ((HEIGHT - PARTICLE_RADIUS : Int) : α) := by
  unfold Particle.handleWallY
  split_ifs with h1 h2
  · simp [HEIGHT, PARTICLE_RADIUS]; norm_num
  · simp [HEIGHT, PARTICLE_RADIUS]; norm_num
  · exact ⟨not_lt.mp h1, not_lt.mp h2⟩

theorem handleWallCollision_inBounds (p : Particle α) :
    p.handleWallCollision.InBounds := by
  unfold Particle.InBounds Particle.handleWallCollision
  rw [handleWallY_x]
  exact ⟨(handleWallX_bounds p).1, (handleWallX_bounds p).2,
    (handleWallY_bounds _).1, (handleWallY_bounds _).2⟩

/-- The box of `InBounds` in numbers. -/
theorem inBounds_iff (p : Particle α) :
    p.InBounds ↔ (3 ≤ p.x ∧ p.x ≤ 125) ∧ (3 ≤ p.y ∧ p.y ≤ 61) := by
  unfold Particle.InBounds
  simp only [WIDTH, HEIGHT, PARTICLE_RADIUS]
  norm_num
  tauto

end Walls

section Init

variable {α : Type} [LinearOrderedField α]

/-- The quotient `(float)rand() / RAND_MAX` lies in `[0, 1]`. -/
theorem rand_unit (RAND_MAX : Nat) (hR : 0 < RAND_MAX) (r : Nat) (hr : r ≤ RAND_MAX) :
    (0 : α) ≤ (r : α) / (RAND_MAX : α) ∧ (r : α) / (RAND_MAX : α) ≤ 1 := by
  have hpos : (0 : α) < (RAND_MAX : α) := by exact_mod_cast hR
  have hle : (r : α) ≤ (RAND_MAX : α) := by exact_mod_cast hr
  exact ⟨div_nonneg (Nat.cast_nonneg r) hpos.le, (div_le_one hpos).mpr hle⟩

/-- What `init` promises of each particle it creates. -/
theorem initStep_spec (RAND_MAX : Nat) (hR : 0 < RAND_MAX)
    (st : List (Particle α) × RandStream) (hg : ∀ k, st.2 k ≤ RAND_MAX) :
    ∃ p : Particle α, (initStep RAND_MAX st).1 = st.1 ++ [p] ∧
      (∀ k, (initStep RAND_MAX st).2 k ≤ RAND_MAX) ∧
      ((3 ≤ p.x ∧ p.x ≤ 125) ∧ (3 ≤ p.y ∧ p.y ≤ 61) ∧
        (-2 ≤ p.vx ∧ p.vx ≤ 2) ∧ (-2 ≤ p.vy ∧ p.vy ≤ 2)) := by
  refine ⟨_, rfl, ?_, ?_⟩
  · intro k
    simp only [initStep, Particle.new, rand]
    exact hg _
  · have u0 := @rand_unit α _ RAND_MAX hR (st.2 0) (hg 0)
    have u1 := @rand_unit α _ RAND_MAX hR (st.2 (0 + 1)) (hg _)
    have u2 := @rand_unit α _ RAND_MAX hR (st.2 (0 + 1 + 1)) (hg _)
    have u3 := @rand_unit α _ RAND_MAX hR (st.2 (0 + 1 + 1 + 1)) (hg _)
    simp only [initStep, Particle.new, rand, WIDTH, HEIGHT, PARTICLE_RADIUS]
    norm_num
    norm_num at u1 u2 u3
    refine ⟨⟨?_, ?_⟩, ⟨?_, ?_⟩, ⟨?_, ?_⟩, ?_, ?_⟩ <;> linarith [u0.1, u0.2, u1.1, u1.2, u2.1, u2.2, u3.1, u3.2]

theorem initStep_iterate (RAND_MAX : Nat) (hR : 0 < RAND_MAX) (g : RandStream)
    (hg : ∀ k, g k ≤ RAND_MAX) (n : Nat) :
    (((initStep RAND_MAX)^[n]) (([] : List (Particle α)), g)).1.length = n ∧
    (∀ k, (((initStep RAND_MAX)^[n]) (([] : List (Particle α)), g)).2 k ≤ RAND_MAX) ∧
    ∀ p ∈ (((initStep RAND_MAX)^[n]) (([] : List (Particle α)), g)).1,
      (3 ≤ p.x ∧ p.x ≤ 125) ∧ (3 ≤ p.y ∧ p.y ≤ 61) ∧
        (-2 ≤ p.vx ∧ p.vx ≤ 2) ∧ (-2 ≤ p.vy ∧ p.vy ≤ 2) := by
  induction n with
  | zero => simp [hg]
  | succ n ih =>
    rw [Function.iterate_succ_apply']
    obtain ⟨hlen, hstream, hall⟩ := ih
    obtain ⟨p, hp, hs, hgood⟩ := initStep_spec RAND_MAX hR _ hstream
    refine ⟨?_, hs, ?_⟩
    · rw [hp, List.length_append, hlen]
      rfl
    · intro q hq
      rw [hp, List.mem_append, List.mem_singleton] at hq
      rcases hq with hq | rfl
      · exact hall q hq
      · exact hgood

/-- C10. For every sequence of `rand()` results in `[0, RAND_MAX]`, `init` on an empty
world produces exactly 30 particles, each with `3 ≤ x ≤ 125`, `3 ≤ y ≤ 61` and both
velocity components in `[-2, 2]`. -/
theorem init_particles (RAND_MAX : Nat) (hR : 0 < RAND_MAX) (g : RandStream)
    (hg : ∀ k, g k ≤ RAND_MAX) (dir : α) :
    (Simulation.init RAND_MAX g ⟨[], dir⟩).particles.length = 30 ∧
    ∀ p ∈ (Simulation.init RAND_MAX g ⟨[], dir⟩).particles,
      (3 ≤ p.x ∧ p.x ≤ 125) ∧ (3 ≤ p.y ∧ p.y ≤ 61) ∧
        (-2 ≤ p.vx ∧ p.vx ≤ 2) ∧ (-2 ≤ p.vy ∧ p.vy ≤ 2) := by
  have h := @initStep_iterate α _ RAND_MAX hR g hg NUM_PARTICLES
  exact ⟨h.1, h.2.2⟩

/-- Witness of C10: `RAND_MAX = 32767` and a generator that always returns `0`. -/
theorem init_particles_witness :
    (0 < 32767 ∧ ∀ k : Nat, (fun _ => 0 : RandStream) k ≤ 32767) ∧
    ((Simulation.init 32767 (fun _ => 0) (⟨[], 0⟩ : Simulation ℚ)).particles.length = 30 ∧
    ∀ p ∈ (Simulation.init 32767 (fun _ => 0) (⟨[], 0⟩ : Simulation ℚ)).particles,
      (3 ≤ p.x ∧ p.x ≤ 125) ∧ (3 ≤ p.y ∧ p.y ≤ 61) ∧
        (-2 ≤ p.vx ∧ p.vx ≤ 2) ∧ (-2 ≤ p.vy ∧ p.vy ≤ 2)) :=
  ⟨⟨by decide, fun _ => Nat.zero_le _⟩,
    init_particles 32767 (by decide) (fun _ => 0) (fun _ => Nat.zero_le _) 0⟩

end Init

section Frame

variable {α : Type} [LinearOrderedField α] [CMath α]

theorem applyFrictionAndLimitSpeed_x (p : Particle α) :
    p.applyFrictionAndLimitSpeed.x = p.x := rfl

theorem applyFrictionAndLimitSpeed_y (p : Particle α) :
    p.applyFrictionAndLimitSpeed.y = p.y := rfl

/-- Every particle of the list returned by a frame comes out of the last stage:
wall handling followed by friction. -/
theorem mem_nextFrameWith (force : α) (s : Simulation α) (p : Particle α)
    (hp : p ∈ (s.nextFrameWith force).particles) :
    ∃ q : Particle α, p = q.handleWallCollision.applyFrictionAndLimitSpeed := by
  unfold Simulation.nextFrameWith at hp
  simp only [List.mem_map] at hp
  obtain ⟨q, -, hq⟩ := hp
  exact ⟨q, hq.symm⟩

/-- In a world of one particle both pair loops are empty. -/
theorem nextFrameWith_single (force dir : α) (p : Particle α) :
    (Simulation.nextFrameWith force ⟨[p], dir⟩) =
      ⟨[((p.applyForcesWith force dir).updatePosition).handleWallCollision.applyFrictionAndLimitSpeed],
        dir⟩ := by
  simp [Simulation.nextFrameWith, Simulation.applyViscosity, forEachPair,
    resolveCollisions, COLLISION_ITERATIONS, collisionIteration]

theorem frames_succ (n : ℕ) (s : Simulation α) :
    s.frames (n + 1) = (s.frames n).nextFrame := by
  unfold Simulation.frames
  exact Function.iterate_succ_apply' _ _ _

/-- Containment in exact arithmetic: after one `nextFrame`, whatever the particle list
and the gravity direction, every particle has `3 ≤ x ≤ 125` and `3 ≤ y ≤ 61`. -/
theorem nextFrame_containment (s : Simulation α) (p : Particle α)
    (hp : p ∈ s.nextFrame.particles) :
    (3 ≤ p.x ∧ p.x ≤ 125) ∧ (3 ≤ p.y ∧ p.y ≤ 61) := by
  obtain ⟨q, rfl⟩ := mem_nextFrameWith _ s p hp
  rw [← inBounds_iff]
  exact handleWallCollision_inBounds q

end Frame

/-! ## Exact arithmetic over the reals -/

section Reals

@[simp] theorem cmath_sqrt_real (x : ℝ) : CMath.sqrt x = Real.sqrt x := rfl

@[simp] theorem cmath_cos_real (x : ℝ) : CMath.cos x = Real.cos x := rfl

@[simp] theorem cmath_sin_real (x : ℝ) : CMath.sin x = Real.sin x := rfl

@[simp] theorem cmath_pi_real : (CMath.M_PI : ℝ) = Real.pi := rfl

/-- Squared speed after the speed limit (before friction) is at most `MAX_SPEED²`. -/
theorem limit_sq_le (vx vy : ℝ) :
    (if Real.sqrt (vx * vx + vy * vy) > 3 then vx * (3 / Real.sqrt (vx * vx + vy * vy))
      else vx) ^ 2 +
    (if Real.sqrt (vx * vx + vy * vy) > 3 then vy * (3 / Real.sqrt (vx * vx + vy * vy))
      else vy) ^ 2 ≤ 9 := by
  have hnn : 0 ≤ vx * vx + vy * vy := add_nonneg (mul_self_nonneg vx) (mul_self_nonneg vy)
  have hs0 : 0 ≤ Real.sqrt (vx * vx + vy * vy) := Real.sqrt_nonneg _
  have hss : Real.sqrt (vx * vx + vy * vy) * Real.sqrt (vx * vx + vy * vy)
      = vx * vx + vy * vy := Real.mul_self_sqrt hnn
  generalize Real.sqrt (vx * vx + vy * vy) = speed at hs0 hss
  by_cases h : speed > 3
  · simp only [h, if_true]
    have hpos : 0 < speed := by linarith
    have hne : speed ≠ 0 := ne_of_gt hpos
    have hsum : (vx * (3 / speed)) ^ 2 + (vy * (3 / speed)) ^ 2
        = 9 * (vx * vx + vy * vy) / (speed * speed) := by
      field_simp
      ring
    rw [hsum, ← hss]
    field_simp
  · simp only [h, if_false]
    have h3 : speed ≤ 3 := not_lt.mp h
    nlinarith

theorem deadzone_sq_le (v : ℝ) : (if |v| < 0.1 then 0 else v) ^ 2 ≤ v ^ 2 := by
  split_ifs
  · nlinarith [sq_nonneg v]
  · exact le_refl _

/-- Squared speed after `applyFrictionAndLimitSpeed` is at most `(0.9 * 3)²`. -/
theorem applyFrictionAndLimitSpeed_sq_le (p : Particle ℝ) :
    p.applyFrictionAndLimitSpeed.vx ^ 2 + p.applyFrictionAndLimitSpeed.vy ^ 2 ≤ 2.7 ^ 2 := by
  have h := limit_sq_le p.vx p.vy
  unfold Particle.applyFrictionAndLimitSpeed
  simp only [cmath_sqrt_real, MAX_SPEED, FRICTION]
  have e3 : (3.0 : ℝ) = 3 := by norm_num
  rw [e3]
  generalize (if Real.sqrt (p.vx * p.vx + p.vy * p.vy) > 3
    then p.vx * (3 / Real.sqrt (p.vx * p.vx + p.vy * p.vy)) else p.vx) = a at h
  generalize (if Real.sqrt (p.vx * p.vx + p.vy * p.vy) > 3
    then p.vy * (3 / Real.sqrt (p.vx * p.vx + p.vy * p.vy)) else p.vy) = b at h
  have h1 := deadzone_sq_le (a * 0.90)
  have h2 := deadzone_sq_le (b * 0.90)
  nlinarith

/-- The speed after `applyFrictionAndLimitSpeed` is at most `FRICTION * MAX_SPEED = 2.7`. -/
theorem applyFrictionAndLimitSpeed_speed_le (p : Particle ℝ) :
    Real.sqrt (p.applyFrictionAndLimitSpeed.vx * p.applyFrictionAndLimitSpeed.vx
      + p.applyFrictionAndLimitSpeed.vy * p.applyFrictionAndLimitSpeed.vy) ≤ 2.7 := by
  rw [Real.sqrt_le_iff]
  refine ⟨by norm_num, ?_⟩
  have h := applyFrictionAndLimitSpeed_sq_le p
  nlinarith

/-- Speed bound in exact arithmetic (`float` read as the real numbers, `sqrt` as the real
square root): after one `nextFrame`, whatever the particle list and the gravity direction,
every particle has `sqrt(vx² + vy²) ≤ MAX_SPEED = 3`. -/
theorem nextFrame_speed_bound (s : Simulation ℝ) (p : Particle ℝ)
    (hp : p ∈ s.nextFrame.particles) :
    CMath.sqrt (p.vx * p.vx + p.vy * p.vy) ≤ MAX_SPEED ∧ (MAX_SPEED : ℝ) = 3 := by
  obtain ⟨q, rfl⟩ := mem_nextFrameWith _ s p hp
  have h := applyFrictionAndLimitSpeed_speed_le q.handleWallCollision
  simp only [cmath_sqrt_real, MAX_SPEED]
  norm_num at h ⊢
  linarith

/-- C9, as amended. External heading 0 means downward force, in exact arithmetic (`float`
and `double` read as the real numbers, `M_PI` as π, `cos` and `sin` as the real functions):
after `setGravityDirection(0)`, `applyForces` leaves `x`, `y` and `vx` of every particle as
they were and adds exactly `GRAVITY_FORCE = 1.5` to `vy`; the velocity increment
`(GRAVITY_FORCE * cos(pi/2), GRAVITY_FORCE * sin(pi/2))` is `(0, 1.5)`. -/
theorem applyForces_heading_zero (s : Simulation ℝ) (p : Particle ℝ) :
    (p.applyForces (s.setGravityDirection 0).GRAVITY_DIRECTION).x = p.x ∧
    (p.applyForces (s.setGravityDirection 0).GRAVITY_DIRECTION).y = p.y ∧
    (p.applyForces (s.setGravityDirection 0).GRAVITY_DIRECTION).vx = p.vx ∧
    (p.applyForces (s.setGravityDirection 0).GRAVITY_DIRECTION).vy = p.vy + GRAVITY_FORCE ∧
    (GRAVITY_FORCE : ℝ) = 1.5 ∧
    (s.setGravityDirection 0).GRAVITY_DIRECTION = Real.pi / 2 ∧
    (GRAVITY_FORCE * CMath.cos (Real.pi / 2) : ℝ) = 0 ∧
    (GRAVITY_FORCE * CMath.sin (Real.pi / 2) : ℝ) = 1.5 := by
  simp [Particle.applyForces, Particle.applyForcesWith, Simulation.setGravityDirection,
    GRAVITY_FORCE]

end Reals

section Collisions

theorem sqrt_four : Real.sqrt 4 = 2 := by
  rw [show (4 : ℝ) = 2 * 2 by norm_num]
  exact Real.sqrt_mul_self (by norm_num)

theorem sqrt_thirtysix : Real.sqrt 36 = 6 := by
  rw [show (36 : ℝ) = 6 * 6 by norm_num]
  exact Real.sqrt_mul_self (by norm_num)

theorem minDist_eq : (minDist : ℝ) = 6 := by
  simp only [minDist, PARTICLE_RADIUS]
  norm_num

/-- A pair whose distance is not inside `(0, minDist)` is skipped by the collision body. -/
theorem collidePair_skip (p1 p2 : Particle ℝ) (h : ¬ (dist p1 p2 < minDist ∧ dist p1 p2 > 0)) :
    collidePair p1 p2 = (p1, p2) := by
  unfold collidePair
  simp only
  rw [if_neg h]

/-- After the position correction of an overlapping pair the two particles are at
distance exactly `minDist`. -/
theorem collidePair_dist (p1 p2 : Particle ℝ) (h0 : 0 < dist p1 p2)
    (h1 : dist p1 p2 < minDist) :
    dist (collidePair p1 p2).1 (collidePair p1 p2).2 = minDist := by
  have hnn : 0 ≤ (p2.x - p1.x) * (p2.x - p1.x) + (p2.y - p1.y) * (p2.y - p1.y) :=
    add_nonneg (mul_self_nonneg _) (mul_self_nonneg _)
  have hss : dist p1 p2 * dist p1 p2
      = (p2.x - p1.x) * (p2.x - p1.x) + (p2.y - p1.y) * (p2.y - p1.y) := by
    simp only [dist, cmath_sqrt_real]
    exact Real.mul_self_sqrt hnn
  have hne : dist p1 p2 ≠ 0 := ne_of_gt h0
  have hx : (collidePair p1 p2).2.x - (collidePair p1 p2).1.x
      = (p2.x - p1.x) * (minDist / dist p1 p2) := by
    unfold collidePair
    simp only
    rw [if_pos ⟨h1, h0⟩]
    split_ifs <;> (simp only; field_simp; ring)
  have hy : (collidePair p1 p2).2.y - (collidePair p1 p2).1.y
      = (p2.y - p1.y) * (minDist / dist p1 p2) := by
    unfold collidePair
    simp only
    rw [if_pos ⟨h1, h0⟩]
    split_ifs <;> (simp only; field_simp; ring)
  have hmd : (0 : ℝ) ≤ minDist := by rw [minDist_eq]; norm_num
  have key : ((collidePair p1 p2).2.x - (collidePair p1 p2).1.x) *
        ((collidePair p1 p2).2.x - (collidePair p1 p2).1.x) +
      ((collidePair p1 p2).2.y - (collidePair p1 p2).1.y) *
        ((collidePair p1 p2).2.y - (collidePair p1 p2).1.y) = minDist * minDist := by
    rw [hx, hy]
    have : (p2.x - p1.x) * (minDist / dist p1 p2) * ((p2.x - p1.x) * (minDist / dist p1 p2)) +
        (p2.y - p1.y) * (minDist / dist p1 p2) * ((p2.y - p1.y) * (minDist / dist p1 p2))
        = ((p2.x - p1.x) * (p2.x - p1.x) + (p2.y - p1.y) * (p2.y - p1.y)) *
          (minDist * minDist) / (dist p1 p2 * dist p1 p2) := by
      field_simp
      ring
    rw [this, ← hss]
    field_simp
  show CMath.sqrt (((collidePair p1 p2).2.x - (collidePair p1 p2).1.x) *
        ((collidePair p1 p2).2.x - (collidePair p1 p2).1.x) +
      ((collidePair p1 p2).2.y - (collidePair p1 p2).1.y) *
        ((collidePair p1 p2).2.y - (collidePair p1 p2).1.y)) = minDist
  rw [key, cmath_sqrt_real]
  exact Real.sqrt_mul_self hmd

/-- C4, as amended. No-overlap tendency in exact arithmetic (`float` read as the real
numbers, `sqrt` as the real square root), in a world of exactly two particles with zero
velocity at distance `d`: if `0 < d < minDist = 6`, one iteration of the
collision-resolution loop strictly increases the distance between them, the resulting
distance is not greater than `minDist` (it is exactly `minDist`) and the velocities are
still zero; if `d = 0`, the pair is skipped by the guard `dist > 0` and both particles are
left as they are. -/
theorem collisionIteration_separates (p1 p2 : Particle ℝ)
    (hv1 : p1.vx = 0 ∧ p1.vy = 0) (hv2 : p2.vx = 0 ∧ p2.vy = 0) :
    (0 < dist p1 p2 → dist p1 p2 < minDist →
      ∃ q1 q2 : Particle ℝ, collisionIteration [p1, p2] = [q1, q2] ∧
        dist p1 p2 < dist q1 q2 ∧ dist q1 q2 ≤ minDist ∧ dist q1 q2 = 6 ∧
        (q1.vx = 0 ∧ q1.vy = 0) ∧ (q2.vx = 0 ∧ q2.vy = 0)) ∧
    (dist p1 p2 = 0 → collisionIteration [p1, p2] = [p1, p2]) ∧
    (minDist : ℝ) = 6 := by
  refine ⟨?_, ?_, minDist_eq⟩
  · intro h0 h1
    refine ⟨(collidePair p1 p2).1, (collidePair p1 p2).2, ?_, ?_, ?_, ?_, ?_⟩
    · exact forEachPair_two collidePair p1 p2
    · rw [collidePair_dist p1 p2 h0 h1]
      exact h1
    · rw [collidePair_dist p1 p2 h0 h1]
    · rw [collidePair_dist p1 p2 h0 h1, minDist_eq]
    · unfold collidePair
      simp only
      rw [if_pos ⟨h1, h0⟩]
      simp [hv1.1, hv1.2, hv2.1, hv2.2]
  · intro hd
    have hskip : collidePair p1 p2 = (p1, p2) := by
      apply collidePair_skip
      rw [hd]
      intro hc
      exact lt_irrefl _ hc.2
    unfold collisionIteration
    rw [forEachPair_two, hskip]

theorem dist_ten_twelve :
    dist (⟨10, 10, 0, 0⟩ : Particle ℝ) ⟨12, 10, 0, 0⟩ = 2 := by
  simp only [dist, cmath_sqrt_real]
  norm_num
  exact sqrt_four

theorem dist_ten_ten :
    dist (⟨10, 10, 0, 0⟩ : Particle ℝ) ⟨10, 10, 0, 0⟩ = 0 := by
  simp [dist]

/-- Witness of C4 as amended: the particles at `(10, 10)` and `(12, 10)` go from distance 2
to distance 6; two particles at `(10, 10)`, at distance 0, stay where they are. -/
theorem collisionIteration_separates_witness :
    ((0 < dist (⟨10, 10, 0, 0⟩ : Particle ℝ) ⟨12, 10, 0, 0⟩ ∧
        dist (⟨10, 10, 0, 0⟩ : Particle ℝ) ⟨12, 10, 0, 0⟩ < minDist) ∧
      ∃ q1 q2 : Particle ℝ, collisionIteration [⟨10, 10, 0, 0⟩, ⟨12, 10, 0, 0⟩] = [q1, q2] ∧
        dist (⟨10, 10, 0, 0⟩ : Particle ℝ) ⟨12, 10, 0, 0⟩ < dist q1 q2 ∧
        dist q1 q2 ≤ minDist ∧ dist q1 q2 = 6 ∧
        (q1.vx = 0 ∧ q1.vy = 0) ∧ (q2.vx = 0 ∧ q2.vy = 0)) ∧
    (dist (⟨10, 10, 0, 0⟩ : Particle ℝ) ⟨10, 10, 0, 0⟩ = 0 ∧
      collisionIteration [(⟨10, 10, 0, 0⟩ : Particle ℝ), ⟨10, 10, 0, 0⟩]
        = [⟨10, 10, 0, 0⟩, ⟨10, 10, 0, 0⟩]) :=
  have h0 : 0 < dist (⟨10, 10, 0, 0⟩ : Particle ℝ) ⟨12, 10, 0, 0⟩ := by
    rw [dist_ten_twelve]; norm_num
  have h1 : dist (⟨10, 10, 0, 0⟩ : Particle ℝ) ⟨12, 10, 0, 0⟩ < minDist := by
    rw [dist_ten_twelve, minDist_eq]; norm_num
  ⟨⟨⟨h0, h1⟩,
      (collisionIteration_separates ⟨10, 10, 0, 0⟩ ⟨12, 10, 0, 0⟩ ⟨rfl, rfl⟩ ⟨rfl, rfl⟩).1 h0 h1⟩,
    ⟨dist_ten_ten,
      (collisionIteration_separates ⟨10, 10, 0, 0⟩ ⟨10, 10, 0, 0⟩ ⟨rfl, rfl⟩ ⟨rfl, rfl⟩).2.1
        dist_ten_ten⟩⟩

/-- A pair of coincident particles is a pair at distance `0 < minDist` that one iteration
of the collision-resolution loop does not separate: two particles with zero velocity at
the same point `(10, 10)` are left where they are. -/
theorem collisionIteration_skips_coincident :
    ¬ ∀ p1 p2 : Particle ℝ, p1.vx = 0 ∧ p1.vy = 0 → p2.vx = 0 ∧ p2.vy = 0 →
      dist p1 p2 < minDist →
      ∃ q1 q2 : Particle ℝ, collisionIteration [p1, p2] = [q1, q2] ∧
        dist p1 p2 < dist q1 q2 ∧ dist q1 q2 ≤ minDist := by
  intro h
  have hd : dist (⟨10, 10, 0, 0⟩ : Particle ℝ) ⟨10, 10, 0, 0⟩ = 0 := by
    simp [dist]
  have hlt : dist (⟨10, 10, 0, 0⟩ : Particle ℝ) ⟨10, 10, 0, 0⟩ < minDist := by
    rw [hd, minDist_eq]; norm_num
  obtain ⟨q1, q2, hq, hinc, -⟩ := h ⟨10, 10, 0, 0⟩ ⟨10, 10, 0, 0⟩ ⟨rfl, rfl⟩ ⟨rfl, rfl⟩ hlt
  have hskip : collidePair (⟨10, 10, 0, 0⟩ : Particle ℝ) ⟨10, 10, 0, 0⟩
      = (⟨10, 10, 0, 0⟩, ⟨10, 10, 0, 0⟩) := by
    apply collidePair_skip
    rw [hd]
    intro hc
    exact lt_irrefl _ hc.2
  have hiter : collisionIteration [(⟨10, 10, 0, 0⟩ : Particle ℝ), ⟨10, 10, 0, 0⟩]
      = [⟨10, 10, 0, 0⟩, ⟨10, 10, 0, 0⟩] := by
    unfold collisionIteration
    rw [forEachPair_two, hskip]
  rw [hiter] at hq
  simp only [List.cons.injEq, and_true] at hq
  obtain ⟨rfl, rfl⟩ := hq
  rw [hd] at hinc
  exact lt_irrefl _ hinc

/-- The collision body on the pair `(10, 10)`, `(12, 10)` at rest: each particle is
moved by `overlap / 2 = 2` along the x-axis. -/
theorem collidePair_ten_twelve :
    collidePair (⟨10, 10, 0, 0⟩ : Particle ℝ) ⟨12, 10, 0, 0⟩
      = (⟨8, 10, 0, 0⟩, ⟨14, 10, 0, 0⟩) := by
  have hd := dist_ten_twelve
  unfold collidePair
  simp only [hd, minDist_eq]
  norm_num

/-- The collision body on the pair `(8, 10)`, `(14, 10)`: distance 6, nothing to do. -/
theorem collidePair_eight_fourteen :
    collidePair (⟨8, 10, 0, 0⟩ : Particle ℝ) ⟨14, 10, 0, 0⟩
      = (⟨8, 10, 0, 0⟩, ⟨14, 10, 0, 0⟩) := by
  apply collidePair_skip
  have hd : dist (⟨8, 10, 0, 0⟩ : Particle ℝ) ⟨14, 10, 0, 0⟩ = 6 := by
    simp only [dist, cmath_sqrt_real]
    norm_num
    exact sqrt_thirtysix
  rw [hd, minDist_eq]
  norm_num

/-- One iteration of the collision loop on three particles at rest on a line, at
`(10, 10)`, `(12, 10)` and `(14, 10)`, in exact arithmetic: the first pair is pushed apart
to `(8, 10)` and `(14, 10)`, which puts the second particle on the third one; the pairs
with the third particle are then skipped, at distance 6 and at distance 0.  The second and
the third particle start at distance 2 and end at distance 0. -/
theorem collisionIteration_line :
    collisionIteration [(⟨10, 10, 0, 0⟩ : Particle ℝ), ⟨12, 10, 0, 0⟩, ⟨14, 10, 0, 0⟩]
      = [⟨8, 10, 0, 0⟩, ⟨14, 10, 0, 0⟩, ⟨14, 10, 0, 0⟩] ∧
    dist (⟨12, 10, 0, 0⟩ : Particle ℝ) ⟨14, 10, 0, 0⟩ = 2 ∧
    dist (⟨14, 10, 0, 0⟩ : Particle ℝ) ⟨14, 10, 0, 0⟩ = 0 := by
  have hd0 : dist (⟨14, 10, 0, 0⟩ : Particle ℝ) ⟨14, 10, 0, 0⟩ = 0 := by
    simp [dist]
  have hd2 : dist (⟨12, 10, 0, 0⟩ : Particle ℝ) ⟨14, 10, 0, 0⟩ = 2 := by
    simp only [dist, cmath_sqrt_real]
    norm_num
    exact sqrt_four
  have hskip : collidePair (⟨14, 10, 0, 0⟩ : Particle ℝ) ⟨14, 10, 0, 0⟩
      = (⟨14, 10, 0, 0⟩, ⟨14, 10, 0, 0⟩) := by
    apply collidePair_skip
    rw [hd0]
    intro hc
    exact lt_irrefl _ hc.2
  refine ⟨?_, hd2, hd0⟩
  unfold collisionIteration
  rw [forEachPair_three]
  simp only [collidePair_ten_twelve, collidePair_eight_fourteen, hskip]

/-- The viscosity body on two particles at rest changes nothing. -/
theorem viscosityPair_rest (x1 y1 x2 y2 : ℝ) :
    viscosityPair (⟨x1, y1, 0, 0⟩ : Particle ℝ) ⟨x2, y2, 0, 0⟩
      = (⟨x1, y1, 0, 0⟩, ⟨x2, y2, 0, 0⟩) := by
  unfold viscosityPair
  simp only
  split_ifs <;> simp

/-- Wall handling and friction leave a particle at rest inside the box as it is. -/
theorem lastStage_rest (x y : ℝ) (hx : 3 ≤ x ∧ x ≤ 125) (hy : 3 ≤ y ∧ y ≤ 61) :
    (Particle.handleWallCollision ⟨x, y, 0, 0⟩ : Particle ℝ).applyFrictionAndLimitSpeed
      = ⟨x, y, 0, 0⟩ := by
  have hA : ¬ (x < ((PARTICLE_RADIUS : ℤ) : ℝ)) := by
    simp [PARTICLE_RADIUS]; linarith [hx.1]
  have hB : ¬ (x > (((WIDTH - PARTICLE_RADIUS : ℤ)) : ℝ)) := by
    simp [WIDTH, PARTICLE_RADIUS]; linarith [hx.2]
  have hC : ¬ (y < ((PARTICLE_RADIUS : ℤ) : ℝ)) := by
    simp [PARTICLE_RADIUS]; linarith [hy.1]
  have hD : ¬ (y > (((HEIGHT - PARTICLE_RADIUS : ℤ)) : ℝ)) := by
    simp [HEIGHT, PARTICLE_RADIUS]; linarith [hy.2]
  have hw : (Particle.handleWallCollision ⟨x, y, 0, 0⟩ : Particle ℝ) = ⟨x, y, 0, 0⟩ := by
    unfold Particle.handleWallCollision Particle.handleWallX
    simp only
    rw [if_neg hA, if_neg hB]
    unfold Particle.handleWallY
    simp only
    rw [if_neg hC, if_neg hD]
  rw [hw]
  unfold Particle.applyFrictionAndLimitSpeed
  simp [MAX_SPEED, FRICTION]

/-- C5. Two-particle scenario: in a world of exactly two particles at `(10, 10)` and
`(12, 10)` with zero velocity, with the force magnitude taken as `0`, one `nextFrame`
moves each particle by `overlap / 2 = 2` along the x-axis in opposite directions, to
`(8, 10)` and `(14, 10)` at distance 6; both `y` stay 10 and both velocities stay zero. -/
theorem nextFrame_two_particles (dir : ℝ) :
    Simulation.nextFrameWith 0 ⟨[⟨10, 10, 0, 0⟩, ⟨12, 10, 0, 0⟩], dir⟩
      = ⟨[⟨8, 10, 0, 0⟩, ⟨14, 10, 0, 0⟩], dir⟩ ∧
    dist (⟨8, 10, 0, 0⟩ : Particle ℝ) ⟨14, 10, 0, 0⟩ = 6 ∧
    (minDist - dist (⟨10, 10, 0, 0⟩ : Particle ℝ) ⟨12, 10, 0, 0⟩) / 2 = 2 := by
  refine ⟨?_, ?_, ?_⟩
  · unfold Simulation.nextFrameWith Simulation.applyViscosity
    simp only [List.map_cons, List.map_nil, Particle.applyForcesWith, zero_mul, add_zero,
      forEachPair_two, viscosityPair_rest, Particle.updatePosition, resolveCollisions,
      COLLISION_ITERATIONS, Function.iterate_succ, Function.iterate_zero, Function.comp_apply,
      id_eq, collisionIteration, collidePair_ten_twelve, collidePair_eight_fourteen]
    rw [lastStage_rest 8 10 (by norm_num) (by norm_num),
      lastStage_rest 14 10 (by norm_num) (by norm_num)]
  · simp only [dist, cmath_sqrt_real]
    norm_num
    exact sqrt_thirtysix
  · rw [dist_ten_twelve, minDist_eq]
    norm_num

end Collisions

/-! ## The resting scenario: one particle falling to the floor -/

section Resting

theorem applyForces_down (p : Particle ℝ) :
    p.applyForces (0 + CMath.M_PI / 2) = { p with vy := p.vy + 1.5 } := by
  simp [Particle.applyForces, Particle.applyForcesWith, GRAVITY_FORCE]

/-- The speed limit, friction and deadzone on a particle that moves vertically. -/
theorem applyFrictionAndLimitSpeed_vertical (x y v : ℝ) :
    (⟨x, y, 0, v⟩ : Particle ℝ).applyFrictionAndLimitSpeed =
      ⟨x, y, 0,
        if -0.1 < (if 3 < v then 3 else if v < -3 then -3 else v) * 0.9 ∧
            (if 3 < v then 3 else if v < -3 then -3 else v) * 0.9 < 0.1 then 0
        else (if 3 < v then 3 else if v < -3 then -3 else v) * 0.9⟩ := by
  have hs : Real.sqrt (0 * 0 + v * v) = |v| := by
    rw [zero_mul, zero_add]
    exact Real.sqrt_mul_self_eq_abs v
  unfold Particle.applyFrictionAndLimitSpeed
  simp only [cmath_sqrt_real, hs, MAX_SPEED, FRICTION, abs_lt]
  have h3 : (3.0 : ℝ) = 3 := by norm_num
  have hv : (if |v| > 3.0 then v * (3.0 / |v|) else v)
      = (if 3 < v then 3 else if v < -3 then -3 else v) := by
    rw [h3]
    by_cases h1 : 3 < v
    · have hab : |v| = v := abs_of_pos (by linarith)
      simp only [hab, h1, if_true, gt_iff_lt]
      field_simp
    · by_cases h2 : v < -3
      · have hab : |v| = -v := abs_of_neg (by linarith)
        have hgt : (3 : ℝ) < -v := by linarith
        have hne : v ≠ 0 := by linarith
        simp only [hab, h1, h2, if_true, if_false, gt_iff_lt, hgt]
        field_simp
        ring
      · have hle : ¬ (|v| > 3) := by
          rw [not_lt, abs_le]
          constructor <;> linarith
        simp only [hle, h1, h2, if_false]
  rw [hv]
  norm_num

/-- One frame of a one-particle world under heading 0, the particle moving
vertically with `x` inside the walls. -/
theorem nextFrame_vertical (x y v : ℝ) (hx : 3 ≤ x ∧ x ≤ 125) :
    Simulation.nextFrame ⟨[⟨x, y, 0, v⟩], 0 + CMath.M_PI / 2⟩ =
      ⟨[(Particle.handleWallY ⟨x, y + (v + 1.5), 0, v + 1.5⟩).applyFrictionAndLimitSpeed],
        0 + CMath.M_PI / 2⟩ := by
  unfold Simulation.nextFrame
  rw [nextFrameWith_single]
  have h1 : (Particle.applyForcesWith GRAVITY_FORCE (0 + CMath.M_PI / 2) ⟨x, y, 0, v⟩ : Particle ℝ)
      = ⟨x, y, 0, v + 1.5⟩ := by
    have := applyForces_down ⟨x, y, 0, v⟩
    simpa [Particle.applyForces] using this
  rw [h1]
  have h2 : (Particle.handleWallX (Particle.updatePosition ⟨x, y, 0, v + 1.5⟩) : Particle ℝ)
      = ⟨x, y + (v + 1.5), 0, v + 1.5⟩ := by
    unfold Particle.handleWallX Particle.updatePosition
    have hA : ¬ (x < ((PARTICLE_RADIUS : ℤ) : ℝ)) := by
      simp [PARTICLE_RADIUS]; linarith [hx.1]
    have hB : ¬ (x > (((WIDTH - PARTICLE_RADIUS : ℤ)) : ℝ)) := by
      simp [WIDTH, PARTICLE_RADIUS]; linarith [hx.2]
    simp only [add_zero]
    rw [if_neg hA, if_neg hB]
  unfold Particle.handleWallCollision
  rw [h2]

theorem restWorld_frames_0 :
    (restWorld : Simulation ℝ).frames 0 = ⟨[⟨64, 32, 0, 0⟩], 0 + CMath.M_PI / 2⟩ := rfl

theorem restWorld_frames_1 :
    (restWorld : Simulation ℝ).frames 1 = ⟨[⟨64, 67 / 2, 0, 27 / 20⟩], 0 + CMath.M_PI / 2⟩ := by
  rw [frames_succ, restWorld_frames_0, nextFrame_vertical _ _ _ (by norm_num)]
  simp only [Particle.handleWallY, HEIGHT, PARTICLE_RADIUS]
  norm_num [applyFrictionAndLimitSpeed_vertical]

theorem restWorld_frames_2 :
    (restWorld : Simulation ℝ).frames 2 = ⟨[⟨64, 727 / 20, 0, 513 / 200⟩], 0 + CMath.M_PI / 2⟩ := by
  rw [frames_succ, restWorld_frames_1, nextFrame_vertical _ _ _ (by norm_num)]
  simp only [Particle.handleWallY, HEIGHT, PARTICLE_RADIUS]
  norm_num [applyFrictionAndLimitSpeed_vertical]

theorem restWorld_frames_3 :
    (restWorld : Simulation ℝ).frames 3 = ⟨[⟨64, 8083 / 200, 0, 27 / 10⟩], 0 + CMath.M_PI / 2⟩ := by
  rw [frames_succ, restWorld_frames_2, nextFrame_vertical _ _ _ (by norm_num)]
  simp only [Particle.handleWallY, HEIGHT, PARTICLE_RADIUS]
  norm_num [applyFrictionAndLimitSpeed_vertical]

theorem restWorld_frames_4 :
    (restWorld : Simulation ℝ).frames 4 = ⟨[⟨64, 8923 / 200, 0, 27 / 10⟩], 0 + CMath.M_PI / 2⟩ := by
  rw [frames_succ, restWorld_frames_3, nextFrame_vertical _ _ _ (by norm_num)]
  simp only [Particle.handleWallY, HEIGHT, PARTICLE_RADIUS]
  norm_num [applyFrictionAndLimitSpeed_vertical]

theorem restWorld_frames_5 :
    (restWorld : Simulation ℝ).frames 5 = ⟨[⟨64, 9763 / 200, 0, 27 / 10⟩], 0 + CMath.M_PI / 2⟩ := by
  rw [frames_succ, restWorld_frames_4, nextFrame_vertical _ _ _ (by norm_num)]
  simp only [Particle.handleWallY, HEIGHT, PARTICLE_RADIUS]
  norm_num [applyFrictionAndLimitSpeed_vertical]

theorem restWorld_frames_6 :
    (restWorld : Simulation ℝ).frames 6 = ⟨[⟨64, 10603 / 200, 0, 27 / 10⟩], 0 + CMath.M_PI / 2⟩ := by
  rw [frames_succ, restWorld_frames_5, nextFrame_vertical _ _ _ (by norm_num)]
  simp only [Particle.handleWallY, HEIGHT, PARTICLE_RADIUS]
  norm_num [applyFrictionAndLimitSpeed_vertical]

theorem restWorld_frames_7 :
    (restWorld : Simulation ℝ).frames 7 = ⟨[⟨64, 11443 / 200, 0, 27 / 10⟩], 0 + CMath.M_PI / 2⟩ := by
  rw [frames_succ, restWorld_frames_6, nextFrame_vertical _ _ _ (by norm_num)]
  simp only [Particle.handleWallY, HEIGHT, PARTICLE_RADIUS]
  norm_num [applyFrictionAndLimitSpeed_vertical]

theorem restWorld_frames_8 :
    (restWorld : Simulation ℝ).frames 8 = ⟨[⟨64, 61, 0, -(189 / 100)⟩], 0 + CMath.M_PI / 2⟩ := by
  rw [frames_succ, restWorld_frames_7, nextFrame_vertical _ _ _ (by norm_num)]
  simp only [Particle.handleWallY, HEIGHT, PARTICLE_RADIUS]
  norm_num [applyFrictionAndLimitSpeed_vertical]

theorem restWorld_frames_9 :
    (restWorld : Simulation ℝ).frames 9 = ⟨[⟨64, 6061 / 100, 0, -(351 / 1000)⟩], 0 + CMath.M_PI / 2⟩ := by
  rw [frames_succ, restWorld_frames_8, nextFrame_vertical _ _ _ (by norm_num)]
  simp only [Particle.handleWallY, HEIGHT, PARTICLE_RADIUS]
  norm_num [applyFrictionAndLimitSpeed_vertical]

theorem restWorld_frames_10 :
    (restWorld : Simulation ℝ).frames 10 = ⟨[⟨64, 61, 0, -(10341 / 20000)⟩], 0 + CMath.M_PI / 2⟩ := by
  rw [frames_succ, restWorld_frames_9, nextFrame_vertical _ _ _ (by norm_num)]
  simp only [Particle.handleWallY, HEIGHT, PARTICLE_RADIUS]
  norm_num [applyFrictionAndLimitSpeed_vertical]

/-- On the floor with `vy` in `[-0.54, -0.405]`, a frame keeps `y = 61` and maps `vy` to
`-0.45 * (vy + 1.5)`, which is again in that band. -/
theorem nextFrame_floor (v : ℝ) (hv : -0.54 ≤ v ∧ v ≤ -0.405) :
    Simulation.nextFrame ⟨[⟨64, 61, 0, v⟩], 0 + CMath.M_PI / 2⟩ =
      ⟨[⟨64, 61, 0, -0.45 * (v + 1.5)⟩], 0 + CMath.M_PI / 2⟩ ∧
    (-0.54 ≤ -0.45 * (v + 1.5) ∧ -0.45 * (v + 1.5) ≤ -0.405) := by
  obtain ⟨hlo, hhi⟩ := hv
  refine ⟨?_, by constructor <;> linarith⟩
  rw [nextFrame_vertical _ _ _ (by norm_num)]
  have hfloor : (Particle.handleWallY ⟨64, 61 + (v + 1.5), 0, v + 1.5⟩ : Particle ℝ)
      = ⟨64, 61, 0, -(v + 1.5) * 0.5⟩ := by
    unfold Particle.handleWallY
    have hC : ¬ (61 + (v + 1.5) < ((PARTICLE_RADIUS : ℤ) : ℝ)) := by
      simp [PARTICLE_RADIUS]; linarith
    have hD : 61 + (v + 1.5) > (((HEIGHT - PARTICLE_RADIUS : ℤ)) : ℝ) := by
      simp [HEIGHT, PARTICLE_RADIUS]; linarith
    simp only
    rw [if_neg hC, if_pos hD]
    simp [HEIGHT, PARTICLE_RADIUS]
  rw [hfloor, applyFrictionAndLimitSpeed_vertical]
  have hA : ¬ (3 < -(v + 1.5) * 0.5) := by linarith
  have hB : ¬ (-(v + 1.5) * 0.5 < -3) := by linarith
  rw [if_neg hA, if_neg hB]
  have hC : ¬ (-0.1 < -(v + 1.5) * 0.5 * 0.9 ∧ -(v + 1.5) * 0.5 * 0.9 < 0.1) := by
    intro hc
    linarith [hc.1]
  rw [if_neg hC]
  congr 2
  simp only [Particle.mk.injEq, true_and]
  ring

/-- From the tenth frame on the particle of the resting scenario lies on the floor with
`vy` in `[-0.54, -0.405]`. -/
theorem restWorld_frames_floor (k : ℕ) :
    ∃ v : ℝ, (restWorld : Simulation ℝ).frames (10 + k)
        = ⟨[⟨64, 61, 0, v⟩], 0 + CMath.M_PI / 2⟩ ∧
      (-0.54 ≤ v ∧ v ≤ -0.405) := by
  induction k with
  | zero =>
    refine ⟨-(10341 / 20000), restWorld_frames_10, ?_⟩
    constructor <;> norm_num
  | succ k ih =>
    obtain ⟨v, hf, hv⟩ := ih
    refine ⟨-0.45 * (v + 1.5), ?_, (nextFrame_floor v hv).2⟩
    rw [← add_assoc, frames_succ, hf]
    exact (nextFrame_floor v hv).1

end Resting

section RestingClaims

theorem restWorld_frames_lt_ten (m : ℕ) (hm : m < 10) :
    ∃ y : ℝ, ((restWorld : Simulation ℝ).frames m).particles.map Particle.y = [y] ∧ 32 ≤ y := by
  interval_cases m
  · exact ⟨_, by rw [restWorld_frames_0]; rfl, by norm_num⟩
  · exact ⟨_, by rw [restWorld_frames_1]; rfl, by norm_num⟩
  · exact ⟨_, by rw [restWorld_frames_2]; rfl, by norm_num⟩
  · exact ⟨_, by rw [restWorld_frames_3]; rfl, by norm_num⟩
  · exact ⟨_, by rw [restWorld_frames_4]; rfl, by norm_num⟩
  · exact ⟨_, by rw [restWorld_frames_5]; rfl, by norm_num⟩
  · exact ⟨_, by rw [restWorld_frames_6]; rfl, by norm_num⟩
  · exact ⟨_, by rw [restWorld_frames_7]; rfl, by norm_num⟩
  · exact ⟨_, by rw [restWorld_frames_8]; rfl, by norm_num⟩
  · exact ⟨_, by rw [restWorld_frames_9]; rfl, by norm_num⟩

/-- C6. Single-particle scenario, resting position: for the world of one particle at the
centre `(64, 32)` with zero velocity, after `setGravityDirection(0)`, there is a number
`n` of frames from which on `y = HEIGHT - PARTICLE_RADIUS = 61` after every further
number of calls of `nextFrame`, and `y` is never below its start value 32. -/
theorem restWorld_rests_on_floor :
    ∃ n : ℕ,
      (∀ m : ℕ, n ≤ m →
        ((restWorld : Simulation ℝ).frames m).particles.map Particle.y = [61]) ∧
      (∀ m : ℕ, ∃ y : ℝ,
        ((restWorld : Simulation ℝ).frames m).particles.map Particle.y = [y] ∧ 32 ≤ y) ∧
      HEIGHT - PARTICLE_RADIUS = 61 := by
  refine ⟨10, ?_, ?_, rfl⟩
  · intro m hm
    obtain ⟨k, rfl⟩ := Nat.exists_eq_add_of_le hm
    obtain ⟨v, hf, -⟩ := restWorld_frames_floor k
    rw [hf]
    rfl
  · intro m
    rcases Nat.lt_or_ge m 10 with hm | hm
    · exact restWorld_frames_lt_ten m hm
    · obtain ⟨k, rfl⟩ := Nat.exists_eq_add_of_le hm
      obtain ⟨v, hf, -⟩ := restWorld_frames_floor k
      exact ⟨61, by rw [hf]; rfl, by norm_num⟩

/-- C7, counterexample. In the resting scenario there is no number of frames from which
on `vy` is 0 after every further call of `nextFrame`: from the tenth frame on `vy` is
at most `-0.405`. -/
theorem restWorld_vy_not_zero :
    ¬ ∃ n : ℕ, ∀ m : ℕ, n ≤ m →
      ((restWorld : Simulation ℝ).frames m).particles.map Particle.vy = [0] := by
  rintro ⟨n, hn⟩
  have h := hn (10 + n) (Nat.le_add_left n 10)
  obtain ⟨v, hf, -, hhi⟩ := restWorld_frames_floor n
  rw [hf] at h
  simp only [List.map_cons, List.map_nil, List.cons.injEq, and_true] at h
  rw [h] at hhi
  norm_num at hhi

/-- C7, as amended. In the resting scenario there is a number `n` of frames from which
on, after every further number `m` of calls of `nextFrame`, `vy` lies in
`[-0.54, -0.405]` (so it is never 0: the deadzone does not trigger) and the next frame
maps it to `-0.45 * (vy + 1.5)`: gravity adds 1.5, the floor reflects with factor 0.5
and friction multiplies by 0.9. -/
theorem restWorld_vy_band :
    ∃ n : ℕ, ∀ m : ℕ, n ≤ m → ∃ v : ℝ,
      ((restWorld : Simulation ℝ).frames m).particles.map Particle.vy = [v] ∧
      (-0.54 ≤ v ∧ v ≤ -0.405) ∧ v ≠ 0 ∧
      ((restWorld : Simulation ℝ).frames (m + 1)).particles.map Particle.vy
        = [-0.45 * (v + 1.5)] := by
  refine ⟨10, ?_⟩
  intro m hm
  obtain ⟨k, rfl⟩ := Nat.exists_eq_add_of_le hm
  obtain ⟨v, hf, hv⟩ := restWorld_frames_floor k
  refine ⟨v, by rw [hf]; rfl, hv, ?_, ?_⟩
  · intro h0
    rw [h0] at hv
    norm_num at hv
  · rw [frames_succ, hf, (nextFrame_floor v hv).1]
    rfl

end RestingClaims

/-! ## Particle count -/

section Count

variable {α : Type} [LinearOrderedField α] [CMath α]

theorem resolveCollisions_length (ps : List (Particle α)) :
    (resolveCollisions ps).length = ps.length := by
  simp only [resolveCollisions, COLLISION_ITERATIONS, Function.iterate_succ,
    Function.iterate_zero, Function.comp_apply, id_eq, collisionIteration, forEachPair_length]

theorem nextFrameWith_length (force : α) (s : Simulation α) :
    (s.nextFrameWith force).particles.length = s.particles.length := by
  simp only [Simulation.nextFrameWith, Simulation.applyViscosity, List.length_map,
    resolveCollisions_length, forEachPair_length]

/-- C11. The particle count is fixed: `nextFrame`, `applyViscosity` and
`setGravityDirection` return a particle list of the same length as the one given. -/
theorem particle_count_fixed (s : Simulation α) (direction : α) :
    s.nextFrame.particles.length = s.particles.length ∧
    s.applyViscosity.particles.length = s.particles.length ∧
    (s.setGravityDirection direction).particles.length = s.particles.length :=
  ⟨nextFrameWith_length _ s, forEachPair_length _ _, rfl⟩

end Count

/-! ## Wall handling, axis by axis -/

section WallAxes

variable {α : Type} [LinearOrderedField α]

theorem handleWallX_vy (p : Particle α) : p.handleWallX.vy = p.vy := by
  unfold Particle.handleWallX
  split_ifs <;> rfl

theorem handleWallY_vx (p : Particle α) : p.handleWallY.vx = p.vx := by
  unfold Particle.handleWallY
  split_ifs <;> rfl

/-- The x-axis test in numbers: left wall, right wall, in between. -/
theorem handleWallX_cases (p : Particle α) :
    (p.x < 3 → p.handleWallX.x = 3 ∧ p.handleWallX.vx = -0.8 * p.vx) ∧
    (125 < p.x → p.handleWallX.x = 125 ∧ p.handleWallX.vx = -0.8 * p.vx) ∧
    (3 ≤ p.x ∧ p.x ≤ 125 → p.handleWallX = p) := by
  unfold Particle.handleWallX
  simp only [WIDTH, PARTICLE_RADIUS]
  norm_num
  refine ⟨?_, ?_, ?_⟩
  · intro h
    rw [if_pos h]
    exact ⟨rfl, by simp only; ring⟩
  · intro h
    have h3 : ¬ p.x < 3 := by linarith
    rw [if_neg h3, if_pos h]
    exact ⟨rfl, by simp only; ring⟩
  · intro h1 h2
    rw [if_neg (not_lt.mpr h1), if_neg (not_lt.mpr h2)]

/-- The y-axis test in numbers: top wall, floor, in between. -/
theorem handleWallY_cases (p : Particle α) :
    (p.y < 3 → p.handleWallY.y = 3 ∧ p.handleWallY.vy = -0.8 * p.vy) ∧
    (61 < p.y → p.handleWallY.y = 61 ∧ p.handleWallY.vy = -0.5 * p.vy) ∧
    (3 ≤ p.y ∧ p.y ≤ 61 → p.handleWallY = p) := by
  unfold Particle.handleWallY
  simp only [HEIGHT, PARTICLE_RADIUS]
  norm_num
  refine ⟨?_, ?_, ?_⟩
  · intro h
    rw [if_pos h]
    exact ⟨rfl, by simp only; ring⟩
  · intro h
    have h3 : ¬ p.y < 3 := by linarith
    rw [if_neg h3, if_pos h]
    exact ⟨rfl, by simp only; ring⟩
  · intro h1 h2
    rw [if_neg (not_lt.mpr h1), if_neg (not_lt.mpr h2)]

/-- C14. Wall resolution with asymmetric vertical restitution: `handleWallCollision`
treats each axis on its own; `x < 3` gives `x = 3`, `vx = -0.8 * vx`; `x > 125` gives
`x = 125`, `vx = -0.8 * vx`; `y < 3` (top) gives `y = 3`, `vy = -0.8 * vy`; `y > 61`
(floor) gives `y = 61`, `vy = -0.5 * vy`; an axis whose coordinate is within bounds keeps
its coordinate and its velocity component. -/
theorem handleWallCollision_spec (p : Particle α) :
    ((p.x < 3 → p.handleWallCollision.x = 3 ∧ p.handleWallCollision.vx = -0.8 * p.vx) ∧
     (125 < p.x → p.handleWallCollision.x = 125 ∧ p.handleWallCollision.vx = -0.8 * p.vx) ∧
     (3 ≤ p.x ∧ p.x ≤ 125 →
        p.handleWallCollision.x = p.x ∧ p.handleWallCollision.vx = p.vx)) ∧
    ((p.y < 3 → p.handleWallCollision.y = 3 ∧ p.handleWallCollision.vy = -0.8 * p.vy) ∧
     (61 < p.y → p.handleWallCollision.y = 61 ∧ p.handleWallCollision.vy = -0.5 * p.vy) ∧
     (3 ≤ p.y ∧ p.y ≤ 61 →
        p.handleWallCollision.y = p.y ∧ p.handleWallCollision.vy = p.vy)) := by
  unfold Particle.handleWallCollision
  obtain ⟨hx1, hx2, hx3⟩ := handleWallX_cases p
  obtain ⟨hy1, hy2, hy3⟩ := handleWallY_cases p.handleWallX
  rw [handleWallX_y, handleWallX_vy] at hy1 hy2
  rw [handleWallX_y] at hy3
  refine ⟨⟨?_, ?_, ?_⟩, ⟨hy1, hy2, ?_⟩⟩
  · intro h
    rw [handleWallY_x, handleWallY_vx]
    exact hx1 h
  · intro h
    rw [handleWallY_x, handleWallY_vx]
    exact hx2 h
  · intro h
    rw [handleWallY_x, handleWallY_vx, hx3 h]
    exact ⟨rfl, rfl⟩
  · intro h
    rw [hy3 h, handleWallX_y, handleWallX_vy]
    exact ⟨rfl, rfl⟩

/-- C19. The wall handling is idempotent: `handleWallCollision` applied twice gives the
same particle as applied once, and a particle already inside `[3, 125] x [3, 61]` is
returned as it is, position and velocity. -/
theorem handleWallCollision_idempotent (p : Particle α) :
    p.handleWallCollision.handleWallCollision = p.handleWallCollision ∧
    ((3 ≤ p.x ∧ p.x ≤ 125) ∧ (3 ≤ p.y ∧ p.y ≤ 61) → p.handleWallCollision = p) := by
  have key : ∀ q : Particle α, (3 ≤ q.x ∧ q.x ≤ 125) ∧ (3 ≤ q.y ∧ q.y ≤ 61) →
      q.handleWallCollision = q := by
    intro q hq
    unfold Particle.handleWallCollision
    rw [(handleWallX_cases q).2.2 hq.1, (handleWallY_cases q).2.2 hq.2]
  refine ⟨key _ ?_, key p⟩
  rw [← inBounds_iff]
  exact handleWallCollision_inBounds p

/-- Witness of C19: the particle `(64, 32)` with velocity `(1, -1)` is inside the box. -/
theorem handleWallCollision_idempotent_witness :
    ((3 ≤ (64 : ℚ) ∧ (64 : ℚ) ≤ 125) ∧ (3 ≤ (32 : ℚ) ∧ (32 : ℚ) ≤ 61)) ∧
    (Particle.handleWallCollision ⟨64, 32, 1, -1⟩ : Particle ℚ) = ⟨64, 32, 1, -1⟩ :=
  have h : (3 ≤ (64 : ℚ) ∧ (64 : ℚ) ≤ 125) ∧ (3 ≤ (32 : ℚ) ∧ (32 : ℚ) ≤ 61) := by norm_num
  ⟨h, (handleWallCollision_idempotent ⟨64, 32, 1, -1⟩).2 h⟩

/-- Witness of C14: a particle beyond the right wall and below the floor. -/
theorem handleWallCollision_spec_witness :
    ((125 : ℚ) < 130 ∧ (61 : ℚ) < 70) ∧
    ((Particle.handleWallCollision ⟨130, 70, 2, 1⟩ : Particle ℚ).x = 125 ∧
      (Particle.handleWallCollision ⟨130, 70, 2, 1⟩ : Particle ℚ).vx = -0.8 * 2) ∧
    ((Particle.handleWallCollision ⟨130, 70, 2, 1⟩ : Particle ℚ).y = 61 ∧
      (Particle.handleWallCollision ⟨130, 70, 2, 1⟩ : Particle ℚ).vy = -0.5 * 1) :=
  have hx : (125 : ℚ) < 130 := by norm_num
  have hy : (61 : ℚ) < 70 := by norm_num
  ⟨⟨hx, hy⟩, (handleWallCollision_spec ⟨130, 70, 2, 1⟩).1.2.1 hx,
    (handleWallCollision_spec ⟨130, 70, 2, 1⟩).2.2.1 hy⟩

end WallAxes

/-! ## Conservation in the pair passes -/

section ListFrames

variable {α : Type}

/-- Writing back a value with the same image under `g` keeps the list of images. -/
theorem map_set_same {β : Type} (g : Particle α → β) (l : List (Particle α)) (i : Nat)
    (a p : Particle α) (hp : l[i]? = some p) (hg : g a = g p) :
    (l.set i a).map g = l.map g := by
  induction l generalizing i with
  | nil => rfl
  | cons c cs ih =>
    cases i with
    | zero =>
      simp only [List.getElem?_cons_zero, Option.some.injEq] at hp
      subst hp
      simp only [List.set_cons_zero, List.map_cons, hg]
    | succ k =>
      simp only [List.getElem?_cons_succ] at hp
      simp only [List.set_cons_succ, List.map_cons, ih k hp]

/-- A pair update that keeps the image under `g` of both particles keeps the list of
images. -/
theorem updatePair_map (f : Particle α → Particle α → Particle α × Particle α)
    {β : Type} (g : Particle α → β)
    (hf : ∀ p1 p2, g (f p1 p2).1 = g p1 ∧ g (f p1 p2).2 = g p2)
    (i j : Nat) (hij : i < j) (ps : List (Particle α)) :
    (updatePair f i j ps).map g = ps.map g := by
  unfold updatePair
  split
  · rename_i p1 p2 h1 h2
    have h2' : (ps.set i (f p1 p2).1)[j]? = some p2 := by
      rw [List.getElem?_set_ne (by omega)]
      exact h2
    rw [map_set_same g _ j _ p2 h2' (hf p1 p2).2, map_set_same g _ i _ p1 h1 (hf p1 p2).1]
  · rfl

theorem forEachPair_map (f : Particle α → Particle α → Particle α × Particle α)
    {β : Type} (g : Particle α → β)
    (hf : ∀ p1 p2, g (f p1 p2).1 = g p1 ∧ g (f p1 p2).2 = g p2)
    (ps : List (Particle α)) :
    (forEachPair f ps).map g = ps.map g := by
  apply forEachPair_preserves f (fun l => l.map g = ps.map g) _ ps rfl
  intro i j l hij hl
  rw [updatePair_map f g hf i j hij, hl]

/-- A pair update that returns the two particles as they are returns the list as it is. -/
theorem updatePair_id (f : Particle α → Particle α → Particle α × Particle α)
    (i j : Nat) (ps : List (Particle α))
    (hf : ∀ p1 p2, ps[i]? = some p1 → ps[j]? = some p2 → f p1 p2 = (p1, p2)) :
    updatePair f i j ps = ps := by
  unfold updatePair
  split
  · rename_i p1 p2 h1 h2
    rw [hf p1 p2 h1 h2]
    have e1 : ps.set i p1 = ps := by
      have h := map_set_same id ps i p1 p1 h1 rfl
      simpa using h
    have e2 : ps.set j p2 = ps := by
      have h := map_set_same id ps j p2 p2 h2 rfl
      simpa using h
    simp only
    rw [e1, e2]
  · rfl

end ListFrames


section Conservation

variable {α : Type} [LinearOrderedField α]

/-- A pair update that does not raise `g p1 + g p2` does not raise the sum of `g`. -/
theorem updatePair_sum_le (f : Particle α → Particle α → Particle α × Particle α)
    (g : Particle α → α)
    (hf : ∀ p1 p2, g (f p1 p2).1 + g (f p1 p2).2 ≤ g p1 + g p2)
    (i j : Nat) (hij : i < j) (ps : List (Particle α)) :
    ((updatePair f i j ps).map g).sum ≤ (ps.map g).sum := by
  unfold updatePair
  split
  · rename_i p1 p2 h1 h2
    have e1 := sum_map_set g ps i (f p1 p2).1 p1 h1
    have h2' : (ps.set i (f p1 p2).1)[j]? = some p2 := by
      rw [List.getElem?_set_ne (by omega)]
      exact h2
    have e2 := sum_map_set g (ps.set i (f p1 p2).1) j (f p1 p2).2 p2 h2'
    have := hf p1 p2
    linarith
  · exact le_refl _

theorem forEachPair_sum_le (f : Particle α → Particle α → Particle α × Particle α)
    (g : Particle α → α)
    (hf : ∀ p1 p2, g (f p1 p2).1 + g (f p1 p2).2 ≤ g p1 + g p2)
    (ps : List (Particle α)) :
    ((forEachPair f ps).map g).sum ≤ (ps.map g).sum := by
  apply forEachPair_preserves f (fun l => (l.map g).sum ≤ (ps.map g).sum) _ ps (le_refl _)
  intro i j l hij hl
  exact le_trans (updatePair_sum_le f g hf i j hij l) hl

/-- The viscosity body never changes a position. -/
theorem viscosityPair_position (p1 p2 : Particle α) :
    ((viscosityPair p1 p2).1.x, (viscosityPair p1 p2).1.y) = (p1.x, p1.y) ∧
    ((viscosityPair p1 p2).2.x, (viscosityPair p1 p2).2.y) = (p2.x, p2.y) := by
  unfold viscosityPair
  simp only
  split_ifs <;> exact ⟨rfl, rfl⟩

/-- The viscosity body skips a pair whose squared distance is at least
`interactionRadiusSq` or at most `0.0001`. -/
theorem viscosityPair_skip (p1 p2 : Particle α)
    (h : interactionRadiusSq ≤
          (p2.x - p1.x) * (p2.x - p1.x) + (p2.y - p1.y) * (p2.y - p1.y) ∨
        (p2.x - p1.x) * (p2.x - p1.x) + (p2.y - p1.y) * (p2.y - p1.y) ≤ 0.0001) :
    viscosityPair p1 p2 = (p1, p2) := by
  unfold viscosityPair
  simp only
  rw [if_neg]
  rintro ⟨h1, h2⟩
  rcases h with h | h
  · exact absurd h1 (not_lt.mpr h)
  · exact absurd h2 (not_lt.mpr h)

theorem interactionRadiusSq_eq : (interactionRadiusSq : α) = 81 := by
  simp only [interactionRadiusSq, interactionRadius, PARTICLE_RADIUS, VISCOSITY_RADIUS_FACTOR]
  norm_num

/-- The viscosity body on an in-range pair: the velocity sum is kept and the velocity
difference is scaled by `1 - 2 * VISCOSITY = 0.9`. -/
theorem viscosityPair_inRange (p1 p2 : Particle α)
    (h : (p2.x - p1.x) * (p2.x - p1.x) + (p2.y - p1.y) * (p2.y - p1.y) < interactionRadiusSq ∧
      (p2.x - p1.x) * (p2.x - p1.x) + (p2.y - p1.y) * (p2.y - p1.y) > 0.0001) :
    (viscosityPair p1 p2).2.vx - (viscosityPair p1 p2).1.vx = 0.9 * (p2.vx - p1.vx) ∧
    (viscosityPair p1 p2).2.vy - (viscosityPair p1 p2).1.vy = 0.9 * (p2.vy - p1.vy) := by
  unfold viscosityPair
  simp only
  rw [if_pos h]
  simp only [VISCOSITY]
  constructor <;> ring

/-- The viscosity body does not raise the kinetic energy of the pair. -/
theorem viscosityPair_energy (p1 p2 : Particle α) :
    ((viscosityPair p1 p2).1.vx * (viscosityPair p1 p2).1.vx +
        (viscosityPair p1 p2).1.vy * (viscosityPair p1 p2).1.vy) +
      ((viscosityPair p1 p2).2.vx * (viscosityPair p1 p2).2.vx +
        (viscosityPair p1 p2).2.vy * (viscosityPair p1 p2).2.vy)
      ≤ (p1.vx * p1.vx + p1.vy * p1.vy) + (p2.vx * p2.vx + p2.vy * p2.vy) := by
  unfold viscosityPair
  simp only
  split_ifs
  · simp only [VISCOSITY]
    nlinarith [mul_self_nonneg (p2.vx - p1.vx), mul_self_nonneg (p2.vy - p1.vy)]
  · exact le_refl _

/-- C18, as amended. In exact arithmetic (`float` read as an ordered field, no rounding)
the viscosity pass never adds kinetic energy: the sum over all particles of `vx² + vy²`
after `applyViscosity` is at most that sum before it; each in-range pair keeps its velocity
sum and has its velocity difference scaled by `1 - 2 * VISCOSITY = 0.9`. -/
theorem applyViscosity_energy (s : Simulation α) (p1 p2 : Particle α) :
    (s.applyViscosity.particles.map (fun p => p.vx * p.vx + p.vy * p.vy)).sum
      ≤ (s.particles.map (fun p => p.vx * p.vx + p.vy * p.vy)).sum ∧
    ((viscosityPair p1 p2).1.vx + (viscosityPair p1 p2).2.vx = p1.vx + p2.vx ∧
      (viscosityPair p1 p2).1.vy + (viscosityPair p1 p2).2.vy = p1.vy + p2.vy) ∧
    ((p2.x - p1.x) * (p2.x - p1.x) + (p2.y - p1.y) * (p2.y - p1.y) < interactionRadiusSq ∧
        (p2.x - p1.x) * (p2.x - p1.x) + (p2.y - p1.y) * (p2.y - p1.y) > 0.0001 →
      (viscosityPair p1 p2).2.vx - (viscosityPair p1 p2).1.vx = 0.9 * (p2.vx - p1.vx) ∧
      (viscosityPair p1 p2).2.vy - (viscosityPair p1 p2).1.vy = 0.9 * (p2.vy - p1.vy)) ∧
    (1 - 2 * VISCOSITY : α) = 0.9 := by
  refine ⟨?_, ⟨viscosityPair_vx p1 p2, viscosityPair_vy p1 p2⟩, viscosityPair_inRange p1 p2, ?_⟩
  · unfold Simulation.applyViscosity
    exact forEachPair_sum_le viscosityPair (fun p => p.vx * p.vx + p.vy * p.vy)
      viscosityPair_energy s.particles
  · simp only [VISCOSITY]
    norm_num

/-- C16. The viscosity pass touches only velocities of in-range pairs: `applyViscosity`
leaves the position `(x, y)` of every particle as it was, and if every pair `i < j` has
squared distance at least `81 = (2 * 3 * 1.5)²` or at most `0.0001`, it leaves every
velocity as it was as well. -/
theorem applyViscosity_frame (s : Simulation α) :
    s.applyViscosity.particles.map (fun p => (p.x, p.y))
      = s.particles.map (fun p => (p.x, p.y)) ∧
    ((∀ i j : Nat, ∀ p1 p2 : Particle α, i < j →
        s.particles[i]? = some p1 → s.particles[j]? = some p2 →
        81 ≤ (p2.x - p1.x) * (p2.x - p1.x) + (p2.y - p1.y) * (p2.y - p1.y) ∨
          (p2.x - p1.x) * (p2.x - p1.x) + (p2.y - p1.y) * (p2.y - p1.y) ≤ 0.0001) →
      s.applyViscosity.particles = s.particles) ∧
    (interactionRadiusSq : α) = 81 := by
  refine ⟨?_, ?_, interactionRadiusSq_eq⟩
  · unfold Simulation.applyViscosity
    exact forEachPair_map viscosityPair (fun p => (p.x, p.y)) viscosityPair_position s.particles
  · intro H
    unfold Simulation.applyViscosity
    apply forEachPair_preserves viscosityPair (fun l => l = s.particles) _ s.particles rfl
    intro i j l hij hl
    simp only at hl ⊢
    rw [hl]
    apply updatePair_id
    intro p1 p2 h1 h2
    apply viscosityPair_skip
    rw [interactionRadiusSq_eq]
    exact H i j p1 p2 hij h1 h2

/-- Witness of C16: two particles at `(10, 10)` and `(50, 10)`, squared distance 1600. -/
theorem applyViscosity_frame_witness :
    (∀ i j : Nat, ∀ p1 p2 : Particle ℚ, i < j →
        [(⟨10, 10, 1, 0⟩ : Particle ℚ), ⟨50, 10, 0, 1⟩][i]? = some p1 →
        [(⟨10, 10, 1, 0⟩ : Particle ℚ), ⟨50, 10, 0, 1⟩][j]? = some p2 →
        81 ≤ (p2.x - p1.x) * (p2.x - p1.x) + (p2.y - p1.y) * (p2.y - p1.y) ∨
          (p2.x - p1.x) * (p2.x - p1.x) + (p2.y - p1.y) * (p2.y - p1.y) ≤ 0.0001) ∧
    (Simulation.applyViscosity ⟨[⟨10, 10, 1, 0⟩, ⟨50, 10, 0, 1⟩], 0⟩ : Simulation ℚ).particles
      = [⟨10, 10, 1, 0⟩, ⟨50, 10, 0, 1⟩] :=
  have H : ∀ i j : Nat, ∀ p1 p2 : Particle ℚ, i < j →
        [(⟨10, 10, 1, 0⟩ : Particle ℚ), ⟨50, 10, 0, 1⟩][i]? = some p1 →
        [(⟨10, 10, 1, 0⟩ : Particle ℚ), ⟨50, 10, 0, 1⟩][j]? = some p2 →
        81 ≤ (p2.x - p1.x) * (p2.x - p1.x) + (p2.y - p1.y) * (p2.y - p1.y) ∨
          (p2.x - p1.x) * (p2.x - p1.x) + (p2.y - p1.y) * (p2.y - p1.y) ≤ 0.0001 := by
    intro i j p1 p2 hij h1 h2
    have hj : j < 2 := by
      by_contra hc
      rw [List.getElem?_eq_none (by simpa using hc)] at h2
      exact Option.noConfusion h2
    have hj1 : j = 1 := by omega
    have hi0 : i = 0 := by omega
    subst hj1 hi0
    simp only [List.getElem?_cons_zero, List.getElem?_cons_succ, Option.some.injEq] at h1 h2
    subst h1 h2
    left
    norm_num
  ⟨H, (applyViscosity_frame ⟨[⟨10, 10, 1, 0⟩, ⟨50, 10, 0, 1⟩], 0⟩).2.1 H⟩

end Conservation

section CollisionConservation

variable {α : Type} [LinearOrderedField α] [CMath α]

theorem collidePair_x (p1 p2 : Particle α) :
    (collidePair p1 p2).1.x + (collidePair p1 p2).2.x = p1.x + p2.x := by
  unfold collidePair
  simp only
  split_ifs <;> simp only <;> ring

theorem collidePair_y (p1 p2 : Particle α) :
    (collidePair p1 p2).1.y + (collidePair p1 p2).2.y = p1.y + p2.y := by
  unfold collidePair
  simp only
  split_ifs <;> simp only <;> ring

theorem collidePair_vx (p1 p2 : Particle α) :
    (collidePair p1 p2).1.vx + (collidePair p1 p2).2.vx = p1.vx + p2.vx := by
  unfold collidePair
  simp only
  split_ifs
  · simp only
    ring
  · rfl
  · rfl

theorem collidePair_vy (p1 p2 : Particle α) :
    (collidePair p1 p2).1.vy + (collidePair p1 p2).2.vy = p1.vy + p2.vy := by
  unfold collidePair
  simp only
  split_ifs
  · simp only
    ring
  · rfl
  · rfl

theorem resolveCollisions_sum (g : Particle α → α)
    (hf : ∀ p1 p2 : Particle α,
      g (collidePair p1 p2).1 + g (collidePair p1 p2).2 = g p1 + g p2)
    (ps : List (Particle α)) :
    ((resolveCollisions ps).map g).sum = (ps.map g).sum := by
  simp only [resolveCollisions, COLLISION_ITERATIONS, Function.iterate_succ,
    Function.iterate_zero, Function.comp_apply, id_eq, collisionIteration]
  rw [forEachPair_sum collidePair g hf, forEachPair_sum collidePair g hf]

/-- C17. The collision-resolution stage conserves centre of mass and momentum: the sum
over all particles of the position `(x, y)` and the sum of the velocity `(vx, vy)` are
the same after the two-iteration collision loop of `nextFrame` as before it. -/
theorem resolveCollisions_conserves (ps : List (Particle α)) :
    (((resolveCollisions ps).map Particle.x).sum = (ps.map Particle.x).sum ∧
      ((resolveCollisions ps).map Particle.y).sum = (ps.map Particle.y).sum) ∧
    (((resolveCollisions ps).map Particle.vx).sum = (ps.map Particle.vx).sum ∧
      ((resolveCollisions ps).map Particle.vy).sum = (ps.map Particle.vy).sum) ∧
    COLLISION_ITERATIONS = 2 :=
  ⟨⟨resolveCollisions_sum Particle.x collidePair_x ps,
      resolveCollisions_sum Particle.y collidePair_y ps⟩,
    ⟨resolveCollisions_sum Particle.vx collidePair_vx ps,
      resolveCollisions_sum Particle.vy collidePair_vy ps⟩, rfl⟩

end CollisionConservation

/-! ## Checked divisions -/

section CheckedLoops

variable {α : Type}

theorem foldlM_some {β γ : Type} (step : β → γ → Option β) (step1 : β → γ → β)
    (h : ∀ acc c, step acc c = some (step1 acc c)) (l : List γ) (init : β) :
    l.foldlM step init = some (l.foldl step1 init) := by
  induction l generalizing init with
  | nil => rfl
  | cons c cs ih =>
    rw [List.foldlM_cons, h, List.foldl_cons]
    exact ih _

theorem updatePairChecked_some (f : Particle α → Particle α → Particle α × Particle α)
    (g : Particle α → Particle α → Option (Particle α × Particle α))
    (hg : ∀ p1 p2, g p1 p2 = some (f p1 p2)) (i j : Nat) (ps : List (Particle α)) :
    updatePairChecked g i j ps = some (updatePair f i j ps) := by
  unfold updatePairChecked updatePair
  cases ps[i]? <;> cases ps[j]? <;> simp [hg]

theorem forEachPairChecked_some (f : Particle α → Particle α → Particle α × Particle α)
    (g : Particle α → Particle α → Option (Particle α × Particle α))
    (hg : ∀ p1 p2, g p1 p2 = some (f p1 p2)) (ps : List (Particle α)) :
    forEachPairChecked g ps = some (forEachPair f ps) := by
  unfold forEachPairChecked forEachPair
  apply foldlM_some
  intro acc i
  apply foldlM_some
  intro acc2 j
  exact updatePairChecked_some f g hg i j acc2

theorem forEachChecked_some (f : Particle α → Particle α)
    (g : Particle α → Option (Particle α)) (hg : ∀ p, g p = some (f p))
    (ps : List (Particle α)) : forEachChecked g ps = some (ps.map f) := by
  induction ps with
  | nil => rfl
  | cons p ps ih =>
    unfold forEachChecked
    rw [hg, ih]
    rfl

end CheckedLoops

section CheckedField

variable {α : Type} [LinearOrderedField α]

theorem checkedDiv_of_ne (a b : α) (hb : b ≠ 0) : checkedDiv a b = some (a / b) := by
  unfold checkedDiv
  rw [if_neg hb]

theorem MAX_SPEED_pos : (0 : α) < MAX_SPEED := by
  simp only [MAX_SPEED]
  norm_num

end CheckedField

section CheckedLemmas

variable {α : Type} [LinearOrderedField α] [CMath α]

/-- The three stages of `applyFrictionAndLimitSpeed`. -/
theorem applyFrictionAndLimitSpeed_stages (p : Particle α) :
    p.applyFrictionAndLimitSpeed = p.limitSpeed.applyFriction.applyDeadzone := by
  unfold Particle.applyFrictionAndLimitSpeed Particle.limitSpeed Particle.applyFriction
    Particle.applyDeadzone
  simp only
  split_ifs <;> rfl

/-- The division of the speed limit is never by zero. -/
theorem applyFrictionAndLimitSpeedChecked_eq (p : Particle α) :
    p.applyFrictionAndLimitSpeedChecked = some p.applyFrictionAndLimitSpeed := by
  rw [applyFrictionAndLimitSpeed_stages]
  unfold Particle.applyFrictionAndLimitSpeedChecked Particle.limitSpeed
  simp only
  split_ifs with h
  · have hne : CMath.sqrt (p.vx * p.vx + p.vy * p.vy) ≠ 0 :=
      ne_of_gt (lt_trans MAX_SPEED_pos h)
    rw [checkedDiv_of_ne _ _ hne]
    rfl
  · rfl

/-- The divisions of the collision body are never by zero. -/
theorem collidePairChecked_eq (p1 p2 : Particle α) :
    collidePairChecked p1 p2 = some (collidePair p1 p2) := by
  unfold collidePairChecked collidePair
  simp only
  split_ifs with h hv
  · have hne : dist p1 p2 ≠ 0 := ne_of_gt h.2
    have h2 : (2.0 : α) ≠ 0 := by norm_num
    rw [checkedDiv_of_ne _ _ hne, checkedDiv_of_ne _ _ hne, checkedDiv_of_ne _ _ h2]
    simp only [Option.some_bind]
    rw [if_pos hv, checkedDiv_of_ne _ _ h2]
    rfl
  · have hne : dist p1 p2 ≠ 0 := ne_of_gt h.2
    have h2 : (2.0 : α) ≠ 0 := by norm_num
    rw [checkedDiv_of_ne _ _ hne, checkedDiv_of_ne _ _ hne, checkedDiv_of_ne _ _ h2]
    simp only [Option.some_bind]
    rw [if_neg hv]
  · rfl

/-- A pair at distance 0 is skipped by the collision body. -/
theorem collidePair_dist_zero (p1 p2 : Particle α) (h : dist p1 p2 = 0) :
    collidePair p1 p2 = (p1, p2) := by
  unfold collidePair
  simp only
  rw [if_neg]
  rintro ⟨-, hpos⟩
  rw [h] at hpos
  exact lt_irrefl _ hpos

/-- C12. No division by zero in a step: every division executed inside `nextFrame` has
a non-zero divisor, that is the frame with checked divisions returns the result of
`nextFrame`; the collision pass divides by `dist` only when `dist > 0` (a pair at
distance 0 is skipped, positions and velocities untouched) and
`applyFrictionAndLimitSpeed` divides by `speed` only when `speed > MAX_SPEED > 0`. -/
theorem nextFrame_no_division_by_zero (s : Simulation α) (p1 p2 p : Particle α) :
    s.nextFrameChecked = some s.nextFrame ∧
    collidePairChecked p1 p2 = some (collidePair p1 p2) ∧
    (dist p1 p2 = 0 → collidePair p1 p2 = (p1, p2)) ∧
    p.applyFrictionAndLimitSpeedChecked = some p.applyFrictionAndLimitSpeed ∧
    (¬ (CMath.sqrt (p.vx * p.vx + p.vy * p.vy) > MAX_SPEED) → p.limitSpeed = p) ∧
    (0 : α) < MAX_SPEED := by
  refine ⟨?_, collidePairChecked_eq p1 p2, collidePair_dist_zero p1 p2,
    applyFrictionAndLimitSpeedChecked_eq p, ?_, MAX_SPEED_pos⟩
  · unfold Simulation.nextFrameChecked Simulation.nextFrame Simulation.nextFrameWith
    simp only [forEachPairChecked_some collidePair collidePairChecked collidePairChecked_eq,
      Option.some_bind,
      forEachChecked_some (fun p => p.handleWallCollision.applyFrictionAndLimitSpeed)
        (fun p => p.handleWallCollision.applyFrictionAndLimitSpeedChecked)
        (fun p => applyFrictionAndLimitSpeedChecked_eq _)]
    rfl
  · intro h
    unfold Particle.limitSpeed
    simp only
    rw [if_neg h]

end CheckedLemmas

/-! ## Deadzone, impulse and the tight speed bound -/

section DeadzoneValues

variable {α : Type} [LinearOrderedField α]

/-- A component that went through the deadzone is 0 or at least `0.1` in absolute value. -/
theorem deadzone_dichotomy (w : α) :
    (if |w| < 0.1 then 0 else w) = 0 ∨ 0.1 ≤ |if |w| < 0.1 then 0 else w| := by
  split_ifs with h
  · exact Or.inl rfl
  · exact Or.inr (not_lt.mp h)

/-- The deadzone gives 0 exactly when the absolute value is below `0.1`. -/
theorem deadzone_eq_zero_iff (w : α) :
    (if |w| < 0.1 then 0 else w) = 0 ↔ |w| < 0.1 := by
  split_ifs with h
  · exact ⟨fun _ => h, fun _ => rfl⟩
  · constructor
    · intro hw
      rw [hw, abs_zero] at h
      exact absurd (by norm_num) h
    · intro hw
      exact absurd hw h

end DeadzoneValues

section Deadzone

variable {α : Type} [LinearOrderedField α] [CMath α]

/-- Velocity deadzone in exact arithmetic: after `nextFrame` each velocity component of
each particle is exactly 0 or has absolute value at least `0.1`; and
`applyFrictionAndLimitSpeed` zeroes a component exactly when its value after the speed
limit and the friction has absolute value below `0.1`, and keeps that value otherwise. -/
theorem nextFrame_deadzone (s : Simulation α) (p : Particle α)
    (hp : p ∈ s.nextFrame.particles) :
    ((p.vx = 0 ∨ 0.1 ≤ |p.vx|) ∧ (p.vy = 0 ∨ 0.1 ≤ |p.vy|)) ∧
    ∀ q : Particle α,
      (q.applyFrictionAndLimitSpeed.vx = 0 ↔ |q.limitSpeed.applyFriction.vx| < 0.1) ∧
      (q.applyFrictionAndLimitSpeed.vy = 0 ↔ |q.limitSpeed.applyFriction.vy| < 0.1) ∧
      (¬ |q.limitSpeed.applyFriction.vx| < 0.1 →
        q.applyFrictionAndLimitSpeed.vx = q.limitSpeed.applyFriction.vx) ∧
      (¬ |q.limitSpeed.applyFriction.vy| < 0.1 →
        q.applyFrictionAndLimitSpeed.vy = q.limitSpeed.applyFriction.vy) := by
  constructor
  · obtain ⟨r, rfl⟩ := mem_nextFrameWith _ s p hp
    rw [applyFrictionAndLimitSpeed_stages]
    exact ⟨deadzone_dichotomy _, deadzone_dichotomy _⟩
  · intro q
    rw [applyFrictionAndLimitSpeed_stages]
    refine ⟨deadzone_eq_zero_iff _, deadzone_eq_zero_iff _, ?_, ?_⟩
    · intro h
      exact if_neg h
    · intro h
      exact if_neg h

end Deadzone

section Impulse

theorem dist_positions (x1 y1 vx1 vy1 x2 y2 vx2 vy2 : ℝ) :
    dist (⟨x1, y1, vx1, vy1⟩ : Particle ℝ) ⟨x2, y2, vx2, vy2⟩
      = Real.sqrt ((x2 - x1) * (x2 - x1) + (y2 - y1) * (y2 - y1)) := rfl

/-- The normal `(dx, dy) / dist` of a pair at positive distance is a unit vector. -/
theorem normal_unit (p1 p2 : Particle ℝ) (h0 : 0 < dist p1 p2) :
    (p2.x - p1.x) / dist p1 p2 * ((p2.x - p1.x) / dist p1 p2) +
      (p2.y - p1.y) / dist p1 p2 * ((p2.y - p1.y) / dist p1 p2) = 1 := by
  have hnn : 0 ≤ (p2.x - p1.x) * (p2.x - p1.x) + (p2.y - p1.y) * (p2.y - p1.y) :=
    add_nonneg (mul_self_nonneg _) (mul_self_nonneg _)
  have hss : dist p1 p2 * dist p1 p2
      = (p2.x - p1.x) * (p2.x - p1.x) + (p2.y - p1.y) * (p2.y - p1.y) := by
    simp only [dist, cmath_sqrt_real]
    exact Real.mul_self_sqrt hnn
  have hne : dist p1 p2 ≠ 0 := ne_of_gt h0
  field_simp
  linarith

/-- C13, as amended. Collision impulse with restitution 0.8, in exact arithmetic (`float`
read as the real numbers, `sqrt` as the real square root): for a pair with `0 < dist < 6`
whose relative velocity along the unit normal `n = (p2 - p1) / dist` is `v_n < 0`,
resolving the pair once leaves the relative velocity along `n` equal to `-0.8 * v_n` (the
pair is separating afterwards) and leaves the relative velocity component perpendicular to
`n` as it was; when `v_n ≥ 0` the velocities of both particles are unchanged. -/
theorem collidePair_impulse (p1 p2 : Particle ℝ)
    (h0 : 0 < dist p1 p2) (h1 : dist p1 p2 < minDist) :
    let nx := (p2.x - p1.x) / dist p1 p2
    let ny := (p2.y - p1.y) / dist p1 p2
    let vn := (p2.vx - p1.vx) * nx + (p2.vy - p1.vy) * ny
    let q := collidePair p1 p2
    nx * nx + ny * ny = 1 ∧
    (vn < 0 →
      (q.2.vx - q.1.vx) * nx + (q.2.vy - q.1.vy) * ny = -0.8 * vn ∧
      0 < (q.2.vx - q.1.vx) * nx + (q.2.vy - q.1.vy) * ny ∧
      (q.2.vx - q.1.vx) * (-ny) + (q.2.vy - q.1.vy) * nx
        = (p2.vx - p1.vx) * (-ny) + (p2.vy - p1.vy) * nx) ∧
    (0 ≤ vn →
      (q.1.vx = p1.vx ∧ q.1.vy = p1.vy) ∧ (q.2.vx = p2.vx ∧ q.2.vy = p2.vy)) := by
  intro nx ny vn q
  have hunit : nx * nx + ny * ny = 1 := normal_unit p1 p2 h0
  refine ⟨hunit, ?_, ?_⟩
  · intro hv
    have hq : q = (⟨p1.x - (minDist - dist p1 p2) / 2.0 * nx,
          p1.y - (minDist - dist p1 p2) / 2.0 * ny,
          p1.vx - -(1.0 + 0.8) * vn / 2.0 * nx, p1.vy - -(1.0 + 0.8) * vn / 2.0 * ny⟩,
        ⟨p2.x + (minDist - dist p1 p2) / 2.0 * nx,
          p2.y + (minDist - dist p1 p2) / 2.0 * ny,
          p2.vx + -(1.0 + 0.8) * vn / 2.0 * nx, p2.vy + -(1.0 + 0.8) * vn / 2.0 * ny⟩) := by
      show collidePair p1 p2 = _
      unfold collidePair
      simp only
      rw [if_pos ⟨h1, h0⟩, if_pos hv]
    have e1 : (q.2.vx - q.1.vx) * nx + (q.2.vy - q.1.vy) * ny = -0.8 * vn := by
      rw [hq]
      simp only
      linear_combination (-(1.0 + 0.8) * vn) * hunit
    refine ⟨e1, ?_, ?_⟩
    · rw [e1]
      have h8 : (-0.8 : ℝ) < 0 := by norm_num
      exact mul_pos_of_neg_of_neg h8 hv
    · rw [hq]
      simp only
      ring
  · intro hv
    have hq : q = (⟨p1.x - (minDist - dist p1 p2) / 2.0 * nx,
          p1.y - (minDist - dist p1 p2) / 2.0 * ny, p1.vx, p1.vy⟩,
        ⟨p2.x + (minDist - dist p1 p2) / 2.0 * nx,
          p2.y + (minDist - dist p1 p2) / 2.0 * ny, p2.vx, p2.vy⟩) := by
      show collidePair p1 p2 = _
      unfold collidePair
      simp only
      rw [if_pos ⟨h1, h0⟩, if_neg (not_lt.mpr hv)]
    rw [hq]
    exact ⟨⟨rfl, rfl⟩, ⟨rfl, rfl⟩⟩

theorem dist_head_on :
    dist (⟨10, 10, 1, 0⟩ : Particle ℝ) ⟨12, 10, -1, 0⟩ = 2 := by
  rw [dist_positions]
  norm_num
  exact sqrt_four

/-- Witness of C13 as amended: the particles at `(10, 10)` and `(12, 10)` moving towards
each other with velocities `(1, 0)` and `(-1, 0)`. -/
theorem collidePair_impulse_witness :
    (0 < dist (⟨10, 10, 1, 0⟩ : Particle ℝ) ⟨12, 10, -1, 0⟩ ∧
      dist (⟨10, 10, 1, 0⟩ : Particle ℝ) ⟨12, 10, -1, 0⟩ < minDist) ∧
    (let nx := ((12 : ℝ) - 10) / dist (⟨10, 10, 1, 0⟩ : Particle ℝ) ⟨12, 10, -1, 0⟩
     let ny := ((10 : ℝ) - 10) / dist (⟨10, 10, 1, 0⟩ : Particle ℝ) ⟨12, 10, -1, 0⟩
     let vn := ((-1 : ℝ) - 1) * nx + ((0 : ℝ) - 0) * ny
     let q := collidePair (⟨10, 10, 1, 0⟩ : Particle ℝ) ⟨12, 10, -1, 0⟩
     nx * nx + ny * ny = 1 ∧
     (vn < 0 →
       (q.2.vx - q.1.vx) * nx + (q.2.vy - q.1.vy) * ny = -0.8 * vn ∧
       0 < (q.2.vx - q.1.vx) * nx + (q.2.vy - q.1.vy) * ny ∧
       (q.2.vx - q.1.vx) * (-ny) + (q.2.vy - q.1.vy) * nx
         = ((-1 : ℝ) - 1) * (-ny) + ((0 : ℝ) - 0) * nx) ∧
     (0 ≤ vn →
       (q.1.vx = 1 ∧ q.1.vy = 0) ∧ (q.2.vx = -1 ∧ q.2.vy = 0))) :=
  have h0 : 0 < dist (⟨10, 10, 1, 0⟩ : Particle ℝ) ⟨12, 10, -1, 0⟩ := by
    rw [dist_head_on]; norm_num
  have h1 : dist (⟨10, 10, 1, 0⟩ : Particle ℝ) ⟨12, 10, -1, 0⟩ < minDist := by
    rw [dist_head_on, minDist_eq]; norm_num
  ⟨⟨h0, h1⟩, collidePair_impulse ⟨10, 10, 1, 0⟩ ⟨12, 10, -1, 0⟩ h0 h1⟩

end Impulse

section TightSpeed

/-- C20, as amended. Tight post-step speed bound in exact arithmetic (`float` read as the
real numbers, `sqrt` as the real square root): after `nextFrame` the speed
`sqrt(vx² + vy²)` of every particle is at most `FRICTION * MAX_SPEED = 2.7`, hence strictly
below `MAX_SPEED`; and `applyFrictionAndLimitSpeed` maps any velocity to one of speed at
most `2.7`. -/
theorem nextFrame_speed_tight (s : Simulation ℝ) (p : Particle ℝ)
    (hp : p ∈ s.nextFrame.particles) :
    (CMath.sqrt (p.vx * p.vx + p.vy * p.vy) ≤ FRICTION * MAX_SPEED ∧
      CMath.sqrt (p.vx * p.vx + p.vy * p.vy) < MAX_SPEED) ∧
    (FRICTION * MAX_SPEED : ℝ) = 2.7 ∧
    ∀ q : Particle ℝ,
      CMath.sqrt (q.applyFrictionAndLimitSpeed.vx * q.applyFrictionAndLimitSpeed.vx +
        q.applyFrictionAndLimitSpeed.vy * q.applyFrictionAndLimitSpeed.vy) ≤ 2.7 := by
  have hc : (FRICTION * MAX_SPEED : ℝ) = 2.7 := by
    simp only [FRICTION, MAX_SPEED]
    norm_num
  refine ⟨?_, hc, fun q => applyFrictionAndLimitSpeed_speed_le q⟩
  obtain ⟨r, rfl⟩ := mem_nextFrameWith _ s p hp
  have h := applyFrictionAndLimitSpeed_speed_le r.handleWallCollision
  rw [hc]
  refine ⟨h, lt_of_le_of_lt h ?_⟩
  simp only [MAX_SPEED]
  norm_num

/-- Witness of C20 as amended: the third frame of the resting scenario, after which the
particle has velocity `(0, 2.7)`, so the bound is attained. -/
theorem nextFrame_speed_tight_witness :
    (⟨64, 8083 / 200, 0, 27 / 10⟩ : Particle ℝ)
      ∈ ((restWorld : Simulation ℝ).frames 2).nextFrame.particles ∧
    ((CMath.sqrt ((0 : ℝ) * 0 + 27 / 10 * (27 / 10)) ≤ FRICTION * MAX_SPEED ∧
      CMath.sqrt ((0 : ℝ) * 0 + 27 / 10 * (27 / 10)) < MAX_SPEED) ∧
    (FRICTION * MAX_SPEED : ℝ) = 2.7 ∧
    ∀ q : Particle ℝ,
      CMath.sqrt (q.applyFrictionAndLimitSpeed.vx * q.applyFrictionAndLimitSpeed.vx +
        q.applyFrictionAndLimitSpeed.vy * q.applyFrictionAndLimitSpeed.vy) ≤ 2.7) :=
  have hmem : (⟨64, 8083 / 200, 0, 27 / 10⟩ : Particle ℝ)
      ∈ ((restWorld : Simulation ℝ).frames 2).nextFrame.particles := by
    rw [← frames_succ, restWorld_frames_3]
    exact List.mem_singleton.mpr rfl
  ⟨hmem, nextFrame_speed_tight _ ⟨64, 8083 / 200, 0, 27 / 10⟩ hmem⟩

end TightSpeed

/-! ## Evaluation of the rounding -/

section RoundingLemmas

variable {K : Type} [LinearOrderedField K] [FloorRing K]

/-- The nearest integer: `k - 1/2 < y < k + 1/2` gives `k`. -/
theorem roundHalfEven_of_near (y : K) (k : ℤ) (h1 : (k : K) - 1 / 2 < y)
    (h2 : y < (k : K) + 1 / 2) : roundHalfEven y = k := by
  unfold roundHalfEven
  by_cases hk : (k : K) ≤ y
  · have hf : ⌊y⌋ = k := by
      rw [Int.floor_eq_iff]
      exact ⟨hk, by linarith⟩
    have hfr : Int.fract y < 1 / 2 := by
      unfold Int.fract
      rw [hf]
      linarith
    rw [if_pos hfr, hf]
  · have hk' : y < (k : K) := not_le.mp hk
    have hf : ⌊y⌋ = k - 1 := by
      rw [Int.floor_eq_iff]
      push_cast
      exact ⟨by linarith, by linarith⟩
    have hfr : 1 / 2 < Int.fract y := by
      unfold Int.fract
      rw [hf]
      push_cast
      linarith
    rw [if_neg (not_lt.mpr hfr.le), if_pos hfr, hf]
    ring

/-- A tie just above an even integer goes down to it. -/
theorem roundHalfEven_tie_down (y : K) (k : ℤ) (h : y = (k : K) + 1 / 2) (hk : k % 2 = 0) :
    roundHalfEven y = k := by
  unfold roundHalfEven
  have hf : ⌊y⌋ = k := by
    rw [Int.floor_eq_iff]
    exact ⟨by linarith, by linarith⟩
  have hfr : Int.fract y = 1 / 2 := by
    unfold Int.fract
    rw [hf]
    linarith
  rw [hfr, if_neg (lt_irrefl _), if_neg (lt_irrefl _), hf, if_pos hk]

/-- A tie just below an even integer goes up to it. -/
theorem roundHalfEven_tie_up (y : K) (k : ℤ) (h : y = (k : K) - 1 / 2) (hk : k % 2 = 0) :
    roundHalfEven y = k := by
  unfold roundHalfEven
  have hf : ⌊y⌋ = k - 1 := by
    rw [Int.floor_eq_iff]
    push_cast
    exact ⟨by linarith, by linarith⟩
  have hfr : Int.fract y = 1 / 2 := by
    unfold Int.fract
    rw [hf]
    push_cast
    linarith
  have hodd : ¬ ((k - 1) % 2 = 0) := by omega
  rw [hfr, if_neg (lt_irrefl _), if_neg (lt_irrefl _), hf, if_neg hodd]
  ring

/-- The exponent of a positive number between two consecutive powers of two. -/
theorem log_two_eq (a : K) (e : ℤ) (h1 : (2 : K) ^ e ≤ a) (h2 : a < (2 : K) ^ (e + 1)) :
    Int.log 2 a = e := by
  have hpos : 0 < a := lt_of_lt_of_le (zpow_pos (by norm_num) e) h1
  have hb : 1 < (2 : ℕ) := by norm_num
  have hle : e ≤ Int.log 2 a := by
    rw [← Int.zpow_le_iff_le_log hb hpos]
    exact_mod_cast h1
  have hlt : Int.log 2 a < e + 1 := by
    rw [← Int.lt_zpow_iff_log_lt hb hpos]
    exact_mod_cast h2
  omega

/-- The exponent used by the rounding, for a number in the normal range. -/
theorem roundExp_normal (a : K) (e emin : ℤ) (he : emin ≤ e) (h1 : (2 : K) ^ e ≤ a)
    (h2 : a < (2 : K) ^ (e + 1)) : max (Int.log 2 a) emin = e := by
  rw [log_two_eq a e h1 h2]
  exact max_eq_left he

/-- Evaluation of the rounding from the exponent `e` and the rounded significand `k`. -/
theorem roundTo_eq (prec : ℕ) (emin emax : ℤ) (x : K) (e k : ℤ) (hx : x ≠ 0)
    (he : max (Int.log 2 |x|) emin = e)
    (hk : roundHalfEven (x / (2 : K) ^ (e - ((prec : ℤ) - 1))) = k)
    (hr : |(k : ℚ) * (2 : ℚ) ^ (e - ((prec : ℤ) - 1))| < (2 : ℚ) ^ emax) :
    roundTo prec emin emax x = F32.fin ((k : ℚ) * (2 : ℚ) ^ (e - ((prec : ℤ) - 1))) := by
  unfold roundTo
  rw [if_neg hx]
  simp only [he, hk]
  rw [if_neg (not_le.mpr hr)]

/-- Evaluation of the rounding of a number whose magnitude has exponent `e`, in the normal
range, and whose significand is nearest to `k`. -/
theorem roundTo_near (prec : ℕ) (emin emax : ℤ) (x : K) (e k : ℤ) (c : ℚ) (he : emin ≤ e)
    (h1 : (2 : K) ^ e ≤ |x|) (h2 : |x| < (2 : K) ^ (e + 1))
    (hk1 : (k : K) - 1 / 2 < x / (2 : K) ^ (e - ((prec : ℤ) - 1)))
    (hk2 : x / (2 : K) ^ (e - ((prec : ℤ) - 1)) < (k : K) + 1 / 2)
    (hc : c = (k : ℚ) * (2 : ℚ) ^ (e - ((prec : ℤ) - 1))) (hr : |c| < (2 : ℚ) ^ emax) :
    roundTo prec emin emax x = F32.fin c := by
  have hpos : 0 < |x| := lt_of_lt_of_le (zpow_pos (by norm_num) e) h1
  rw [hc]
  exact roundTo_eq prec emin emax x e k (abs_pos.mp hpos)
    (roundExp_normal |x| e emin he h1 h2) (roundHalfEven_of_near _ k hk1 hk2) (hc ▸ hr)

/-- Evaluation of the rounding at a tie: the significand is half-way between the even `k`
and the odd integer above it. -/
theorem roundTo_tie_down (prec : ℕ) (emin emax : ℤ) (x : K) (e k : ℤ) (c : ℚ) (he : emin ≤ e)
    (h1 : (2 : K) ^ e ≤ |x|) (h2 : |x| < (2 : K) ^ (e + 1))
    (hk : x / (2 : K) ^ (e - ((prec : ℤ) - 1)) = (k : K) + 1 / 2) (hev : k % 2 = 0)
    (hc : c = (k : ℚ) * (2 : ℚ) ^ (e - ((prec : ℤ) - 1))) (hr : |c| < (2 : ℚ) ^ emax) :
    roundTo prec emin emax x = F32.fin c := by
  have hpos : 0 < |x| := lt_of_lt_of_le (zpow_pos (by norm_num) e) h1
  rw [hc]
  exact roundTo_eq prec emin emax x e k (abs_pos.mp hpos)
    (roundExp_normal |x| e emin he h1 h2) (roundHalfEven_tie_down _ k hk hev) (hc ▸ hr)

/-- Evaluation of the rounding at a tie: the significand is half-way between the even `k`
and the odd integer below it. -/
theorem roundTo_tie_up (prec : ℕ) (emin emax : ℤ) (x : K) (e k : ℤ) (c : ℚ) (he : emin ≤ e)
    (h1 : (2 : K) ^ e ≤ |x|) (h2 : |x| < (2 : K) ^ (e + 1))
    (hk : x / (2 : K) ^ (e - ((prec : ℤ) - 1)) = (k : K) - 1 / 2) (hev : k % 2 = 0)
    (hc : c = (k : ℚ) * (2 : ℚ) ^ (e - ((prec : ℤ) - 1))) (hr : |c| < (2 : ℚ) ^ emax) :
    roundTo prec emin emax x = F32.fin c := by
  have hpos : 0 < |x| := lt_of_lt_of_le (zpow_pos (by norm_num) e) h1
  rw [hc]
  exact roundTo_eq prec emin emax x e k (abs_pos.mp hpos)
    (roundExp_normal |x| e emin he h1 h2) (roundHalfEven_tie_up _ k hk hev) (hc ▸ hr)

/-- Overflow: a number whose rounded magnitude reaches `2 ^ emax` becomes an infinity. -/
theorem roundTo_overflow (prec : ℕ) (emin emax : ℤ) (x : K) (e k : ℤ) (he : emin ≤ e)
    (h1 : (2 : K) ^ e ≤ |x|) (h2 : |x| < (2 : K) ^ (e + 1))
    (hk1 : (k : K) - 1 / 2 < x / (2 : K) ^ (e - ((prec : ℤ) - 1)))
    (hk2 : x / (2 : K) ^ (e - ((prec : ℤ) - 1)) < (k : K) + 1 / 2)
    (hr : (2 : ℚ) ^ emax ≤ |(k : ℚ) * (2 : ℚ) ^ (e - ((prec : ℤ) - 1))|) :
    roundTo prec emin emax x = if 0 < x then F32.pinf else F32.ninf := by
  have hpos : 0 < |x| := lt_of_lt_of_le (zpow_pos (by norm_num) e) h1
  unfold roundTo
  rw [if_neg (abs_pos.mp hpos)]
  simp only [roundExp_normal |x| e emin he h1 h2, roundHalfEven_of_near _ k hk1 hk2]
  rw [if_pos hr]

theorem roundTo_zero (prec : ℕ) (emin emax : ℤ) :
    roundTo prec emin emax (0 : K) = F32.fin 0 := by
  unfold roundTo
  rw [if_pos rfl]

/-- Rounding into binary32 of a positive number of exponent `e` whose significand is
nearest to `k`. -/
theorem rnd32_pos (x : K) (e k : ℤ) (c : ℚ) (he : -126 ≤ e) (h1 : (2 : K) ^ e ≤ x)
    (h2 : x < (2 : K) ^ (e + 1))
    (hk1 : (k : K) - 1 / 2 < x / (2 : K) ^ (e - 23))
    (hk2 : x / (2 : K) ^ (e - 23) < (k : K) + 1 / 2)
    (hc : c = (k : ℚ) * (2 : ℚ) ^ (e - 23)) (hr : |c| < (2 : ℚ) ^ (128 : ℤ)) :
    rnd32 x = F32.fin c := by
  have hpos : 0 < x := lt_of_lt_of_le (zpow_pos (by norm_num) e) h1
  have he23 : e - (((24 : ℕ) : ℤ) - 1) = e - 23 := by norm_num
  apply roundTo_near 24 (-126) 128 x e k c he
  · rwa [abs_of_pos hpos]
  · rwa [abs_of_pos hpos]
  · rwa [he23]
  · rwa [he23]
  · rwa [he23]
  · exact hr

/-- Rounding into binary32 of a negative number of exponent `e` whose significand is
nearest to `k`. -/
theorem rnd32_neg (x : K) (e k : ℤ) (c : ℚ) (he : -126 ≤ e) (h1 : (2 : K) ^ e ≤ -x)
    (h2 : -x < (2 : K) ^ (e + 1))
    (hk1 : (k : K) - 1 / 2 < x / (2 : K) ^ (e - 23))
    (hk2 : x / (2 : K) ^ (e - 23) < (k : K) + 1 / 2)
    (hc : c = (k : ℚ) * (2 : ℚ) ^ (e - 23)) (hr : |c| < (2 : ℚ) ^ (128 : ℤ)) :
    rnd32 x = F32.fin c := by
  have hpos : 0 < -x := lt_of_lt_of_le (zpow_pos (by norm_num) e) h1
  have hneg : x < 0 := by linarith
  have he23 : e - (((24 : ℕ) : ℤ) - 1) = e - 23 := by norm_num
  apply roundTo_near 24 (-126) 128 x e k c he
  · rwa [abs_of_neg hneg]
  · rwa [abs_of_neg hneg]
  · rwa [he23]
  · rwa [he23]
  · rwa [he23]
  · exact hr

/-- Rounding into binary32 at a tie below the odd significand `k + 1`, `k` even, for a
positive number. -/
theorem rnd32_pos_tie_down (x : K) (e k : ℤ) (c : ℚ) (he : -126 ≤ e) (h1 : (2 : K) ^ e ≤ x)
    (h2 : x < (2 : K) ^ (e + 1))
    (hk : x / (2 : K) ^ (e - 23) = (k : K) + 1 / 2) (hev : k % 2 = 0)
    (hc : c = (k : ℚ) * (2 : ℚ) ^ (e - 23)) (hr : |c| < (2 : ℚ) ^ (128 : ℤ)) :
    rnd32 x = F32.fin c := by
  have hpos : 0 < x := lt_of_lt_of_le (zpow_pos (by norm_num) e) h1
  have he23 : e - (((24 : ℕ) : ℤ) - 1) = e - 23 := by norm_num
  apply roundTo_tie_down 24 (-126) 128 x e k c he
  · rwa [abs_of_pos hpos]
  · rwa [abs_of_pos hpos]
  · rwa [he23]
  · exact hev
  · rwa [he23]
  · exact hr

/-- Rounding into binary32 at a tie above the odd significand `k - 1`, `k` even, for a
positive number. -/
theorem rnd32_pos_tie_up (x : K) (e k : ℤ) (c : ℚ) (he : -126 ≤ e) (h1 : (2 : K) ^ e ≤ x)
    (h2 : x < (2 : K) ^ (e + 1))
    (hk : x / (2 : K) ^ (e - 23) = (k : K) - 1 / 2) (hev : k % 2 = 0)
    (hc : c = (k : ℚ) * (2 : ℚ) ^ (e - 23)) (hr : |c| < (2 : ℚ) ^ (128 : ℤ)) :
    rnd32 x = F32.fin c := by
  have hpos : 0 < x := lt_of_lt_of_le (zpow_pos (by norm_num) e) h1
  have he23 : e - (((24 : ℕ) : ℤ) - 1) = e - 23 := by norm_num
  apply roundTo_tie_up 24 (-126) 128 x e k c he
  · rwa [abs_of_pos hpos]
  · rwa [abs_of_pos hpos]
  · rwa [he23]
  · exact hev
  · rwa [he23]
  · exact hr

/-- A negative number of magnitude `2 ^ 128` or more overflows to `-inf` in binary32. -/
theorem rnd32_overflow_neg (x : K) (e k : ℤ) (he : 128 ≤ e) (h1 : (2 : K) ^ e ≤ -x)
    (h2 : -x < (2 : K) ^ (e + 1))
    (hk1 : (k : K) - 1 / 2 < x / (2 : K) ^ (e - 23))
    (hk2 : x / (2 : K) ^ (e - 23) < (k : K) + 1 / 2)
    (hr : (2 : ℚ) ^ (128 : ℤ) ≤ |(k : ℚ) * (2 : ℚ) ^ (e - 23)|) :
    rnd32 x = F32.ninf := by
  have hpos : 0 < -x := lt_of_lt_of_le (zpow_pos (by norm_num) e) h1
  have hneg : x < 0 := by linarith
  have he23 : e - (((24 : ℕ) : ℤ) - 1) = e - 23 := by norm_num
  have h := roundTo_overflow 24 (-126) 128 x e k (by omega)
    (by rwa [abs_of_neg hneg]) (by rwa [abs_of_neg hneg]) (by rwa [he23]) (by rwa [he23])
    (by rwa [he23])
  rw [rnd32, h, if_neg (not_lt.mpr hneg.le)]

theorem rnd32_zero : rnd32 (0 : K) = F32.fin 0 := roundTo_zero 24 (-126) 128

end RoundingLemmas

/-! ## The operations on constructors -/

namespace F32

theorem fin_add_fin (a b : ℚ) : (fin a : F32) + fin b = rnd32 (a + b) := rfl

theorem fin_sub_fin (a b : ℚ) : (fin a : F32) - fin b = rnd32 (a + -b) := rfl

theorem fin_mul_fin (a b : ℚ) : (fin a : F32) * fin b = rnd32 (a * b) := rfl

theorem fin_div_fin (a b : ℚ) (hb : b ≠ 0) : (fin a : F32) / fin b = rnd32 (a / b) := by
  show divWith rnd32 (fin a) (fin b) = _
  unfold divWith
  simp only [hb, if_false]

theorem neg_fin (a : ℚ) : -(fin a : F32) = fin (-a) := rfl

theorem fin_lt_fin (a b : ℚ) : ((fin a : F32) < fin b) ↔ a < b := by
  show ltb (fin a) (fin b) = true ↔ a < b
  simp [ltb]

theorem fin_le_fin (a b : ℚ) : ((fin a : F32) ≤ fin b) ↔ a ≤ b := by
  show leb (fin a) (fin b) = true ↔ a ≤ b
  simp [leb]

theorem pinf_mul_pos (b : ℚ) (hb : 0 < b) : (pinf : F32) * fin b = pinf := by
  show mulWith rnd32 pinf (fin b) = _
  simp [mulWith, sign, hb]

theorem ninf_mul_pos (b : ℚ) (hb : 0 < b) : (ninf : F32) * fin b = ninf := by
  show mulWith rnd32 ninf (fin b) = _
  simp [mulWith, sign, hb]

theorem pos_mul_pinf (a : ℚ) (ha : 0 < a) : (fin a : F32) * pinf = pinf := by
  show mulWith rnd32 (fin a) pinf = _
  simp [mulWith, sign, ha]

theorem pos_mul_ninf (a : ℚ) (ha : 0 < a) : (fin a : F32) * ninf = ninf := by
  show mulWith rnd32 (fin a) ninf = _
  simp [mulWith, sign, ha]

theorem pinf_mul_zero : (pinf : F32) * fin 0 = nan := by
  show mulWith rnd32 pinf (fin 0) = _
  simp [mulWith, sign]

theorem ninf_mul_zero : (ninf : F32) * fin 0 = nan := by
  show mulWith rnd32 ninf (fin 0) = _
  simp [mulWith, sign]

end F32

section RoundingMore

variable {K : Type} [LinearOrderedField K] [FloorRing K]

/-- Rounding into binary32 at a tie below the odd significand `k - 1`, `k` even, for a
negative number. -/
theorem rnd32_neg_tie_up (x : K) (e k : ℤ) (c : ℚ) (he : -126 ≤ e) (h1 : (2 : K) ^ e ≤ -x)
    (h2 : -x < (2 : K) ^ (e + 1))
    (hk : x / (2 : K) ^ (e - 23) = (k : K) - 1 / 2) (hev : k % 2 = 0)
    (hc : c = (k : ℚ) * (2 : ℚ) ^ (e - 23)) (hr : |c| < (2 : ℚ) ^ (128 : ℤ)) :
    rnd32 x = F32.fin c := by
  have hpos : 0 < -x := lt_of_lt_of_le (zpow_pos (by norm_num) e) h1
  have hneg : x < 0 := by linarith
  have he23 : e - (((24 : ℕ) : ℤ) - 1) = e - 23 := by norm_num
  apply roundTo_tie_up 24 (-126) 128 x e k c he
  · rwa [abs_of_neg hneg]
  · rwa [abs_of_neg hneg]
  · rwa [he23]
  · exact hev
  · rwa [he23]
  · exact hr

/-- Rounding into binary64 of a positive number of exponent `e` whose significand is
nearest to `k`. -/
theorem rnd64_pos (x : K) (e k : ℤ) (c : ℚ) (he : -1022 ≤ e) (h1 : (2 : K) ^ e ≤ x)
    (h2 : x < (2 : K) ^ (e + 1))
    (hk1 : (k : K) - 1 / 2 < x / (2 : K) ^ (e - 52))
    (hk2 : x / (2 : K) ^ (e - 52) < (k : K) + 1 / 2)
    (hc : c = (k : ℚ) * (2 : ℚ) ^ (e - 52)) (hr : |c| < (2 : ℚ) ^ (1024 : ℤ)) :
    rnd64 x = F32.fin c := by
  have hpos : 0 < x := lt_of_lt_of_le (zpow_pos (by norm_num) e) h1
  have he52 : e - (((53 : ℕ) : ℤ) - 1) = e - 52 := by norm_num
  apply roundTo_near 53 (-1022) 1024 x e k c he
  · rwa [abs_of_pos hpos]
  · rwa [abs_of_pos hpos]
  · rwa [he52]
  · rwa [he52]
  · rwa [he52]
  · exact hr

end RoundingMore

/-! ## Error of one rounding -/

section ErrorBound

variable {K : Type} [LinearOrderedField K] [FloorRing K]

/-- The nearest integer is within one half. -/
theorem roundHalfEven_abs_sub_le (y : K) : |((roundHalfEven y : ℤ) : K) - y| ≤ 1 / 2 := by
  have h0 : 0 ≤ Int.fract y := Int.fract_nonneg y
  have h1 : Int.fract y < 1 := Int.fract_lt_one y
  have hy : (⌊y⌋ : K) = y - Int.fract y := by
    unfold Int.fract
    ring
  unfold roundHalfEven
  split_ifs with ha hb hc
  · rw [hy, abs_le]
    constructor <;> linarith
  · push_cast
    rw [hy, abs_le]
    constructor <;> linarith
  · rw [hy, abs_le]
    constructor <;> linarith
  · push_cast
    rw [hy, abs_le]
    constructor <;> linarith

/-- The nearest integer of a non-negative number is non-negative. -/
theorem roundHalfEven_nonneg (y : K) (hy : 0 ≤ y) : 0 ≤ roundHalfEven y := by
  have hf : 0 ≤ ⌊y⌋ := Int.floor_nonneg.mpr hy
  unfold roundHalfEven
  split_ifs <;> omega

/-- One rounding into binary32: the rounded value `r` is within `|x| / 2^24 + 2^-150` of
the exact `x` (half a unit in the last place, relative in the normal range and absolute in
the subnormal range), has the sign of `x`, and is the result unless it overflows. -/
theorem rnd32_cases (x : K) :
    ∃ r : ℚ, |(r : K) - x| ≤ |x| / 2 ^ 24 + 1 / 2 ^ 150 ∧ (0 ≤ x → 0 ≤ r) ∧
      rnd32 x = if (2 : ℚ) ^ (128 : ℤ) ≤ |r| then (if 0 < x then F32.pinf else F32.ninf)
        else F32.fin r := by
  by_cases hx : x = 0
  · refine ⟨0, ?_, fun _ => le_refl _, ?_⟩
    · rw [hx]
      norm_num
    · rw [hx, rnd32_zero, if_neg]
      norm_num
  · have hpos : 0 < |x| := abs_pos.mpr hx
    obtain ⟨e, he⟩ : ∃ e : ℤ, e = max (Int.log 2 |x|) (-126) := ⟨_, rfl⟩
    obtain ⟨k, hk⟩ : ∃ k : ℤ, k = roundHalfEven (x / (2 : K) ^ (e - 23)) := ⟨_, rfl⟩
    have hu : (0 : K) < (2 : K) ^ (e - 23) := zpow_pos (by norm_num) _
    have hcast : (((k : ℚ) * (2 : ℚ) ^ (e - 23) : ℚ) : K) = (k : K) * (2 : K) ^ (e - 23) := by
      push_cast
      rfl
    refine ⟨(k : ℚ) * (2 : ℚ) ^ (e - 23), ?_, ?_, ?_⟩
    · rw [hcast]
      have hxy : x = x / (2 : K) ^ (e - 23) * (2 : K) ^ (e - 23) := by
        field_simp
      have hk2 := roundHalfEven_abs_sub_le (x / (2 : K) ^ (e - 23))
      rw [← hk] at hk2
      have h1 : |(k : K) * (2 : K) ^ (e - 23) - x|
          = |(k : K) - x / (2 : K) ^ (e - 23)| * (2 : K) ^ (e - 23) := by
        conv_lhs => rw [hxy]
        rw [← sub_mul, abs_mul, abs_of_pos hu]
      rw [h1]
      have h2 : |(k : K) - x / (2 : K) ^ (e - 23)| * (2 : K) ^ (e - 23)
          ≤ 1 / 2 * (2 : K) ^ (e - 23) := mul_le_mul_of_nonneg_right hk2 hu.le
      refine le_trans h2 ?_
      by_cases hl : -126 ≤ Int.log 2 |x|
      · have he2 : e = Int.log 2 |x| := by rw [he]; exact max_eq_left hl
        have hle : (2 : K) ^ e ≤ |x| := by
          rw [he2]
          exact_mod_cast Int.zpow_log_le_self (by norm_num : 1 < 2) hpos
        have h3 : (2 : K) ^ (e - 23) = (2 : K) ^ e / 2 ^ 23 := by
          rw [zpow_sub₀ (by norm_num : (2 : K) ≠ 0)]
          norm_num
        rw [h3]
        have h4 : 1 / 2 * ((2 : K) ^ e / 2 ^ 23) = (2 : K) ^ e / 2 ^ 24 := by
          generalize (2 : K) ^ e = w
          ring
        rw [h4]
        have h5 : (2 : K) ^ e / 2 ^ 24 ≤ |x| / 2 ^ 24 :=
          div_le_div_of_nonneg_right hle (by positivity)
        have h6 : (0 : K) ≤ 1 / 2 ^ 150 := by positivity
        linarith
      · have he2 : e = -126 := by rw [he]; exact max_eq_right (by omega)
        rw [he2]
        have h3 : (1 : K) / 2 * (2 : K) ^ ((-126 : ℤ) - 23) = 1 / 2 ^ 150 := by
          norm_num
        rw [h3]
        have h6 : (0 : K) ≤ |x| / 2 ^ 24 := by positivity
        linarith
    · intro h0
      have hy : 0 ≤ x / (2 : K) ^ (e - 23) := div_nonneg h0 hu.le
      have hk0 : 0 ≤ k := by rw [hk]; exact roundHalfEven_nonneg _ hy
      have : (0 : ℚ) ≤ (k : ℚ) := by exact_mod_cast hk0
      exact mul_nonneg this (zpow_pos (by norm_num) _).le
    · unfold rnd32 roundTo
      rw [if_neg hx]
      have he23 : max (Int.log 2 |x|) (-126) - (((24 : ℕ) : ℤ) - 1) = e - 23 := by
        rw [he]
        norm_num
      simp only [he23, ← hk]

end ErrorBound

section ErrorCorollaries

variable {K : Type} [LinearOrderedField K] [FloorRing K]

/-- Rounding of a non-negative number: `+inf` on overflow, otherwise a non-negative finite
number below `2^128` within the error bound. -/
theorem rnd32_nonneg_cases (x : K) (hx : 0 ≤ x) :
    rnd32 x = F32.pinf ∨
    ∃ r : ℚ, 0 ≤ r ∧ r < 2 ^ 128 ∧ rnd32 x = F32.fin r ∧
      |(r : K) - x| ≤ x / 2 ^ 24 + 1 / 2 ^ 150 := by
  obtain ⟨r, herr, hsign, heq⟩ := rnd32_cases x
  rw [abs_of_nonneg hx] at herr
  by_cases hov : (2 : ℚ) ^ (128 : ℤ) ≤ |r|
  · left
    rw [heq, if_pos hov]
    have hpos : 0 < x := by
      rcases hx.lt_or_eq with h | h
      · exact h
      · exfalso
        rw [← h] at herr
        have h1 : ((((2 : ℚ) ^ (128 : ℤ) : ℚ)) : K) ≤ ((|r| : ℚ) : K) := Rat.cast_le.mpr hov
        push_cast at h1
        have h2 : |(r : K)| ≤ 1 / 2 ^ 150 := by simpa using herr
        have h3 : (1 : K) / 2 ^ 150 < (2 : K) ^ (128 : ℤ) := by norm_num
        linarith
    rw [if_pos hpos]
  · right
    have hr0 : 0 ≤ r := hsign hx
    refine ⟨r, hr0, ?_, ?_, herr⟩
    · have h := not_le.mp hov
      rw [abs_of_nonneg hr0] at h
      exact_mod_cast h
    · rw [heq, if_neg hov]

/-- Rounding of a number of moderate size does not overflow. -/
theorem rnd32_of_abs_le (x : K) (hx : |x| ≤ 2 ^ 100) :
    ∃ r : ℚ, rnd32 x = F32.fin r ∧ |(r : K) - x| ≤ |x| / 2 ^ 24 + 1 / 2 ^ 150 ∧
      (0 ≤ x → 0 ≤ r) := by
  obtain ⟨r, herr, hsign, heq⟩ := rnd32_cases x
  refine ⟨r, ?_, herr, hsign⟩
  rw [heq, if_neg]
  intro hov
  have h1 : ((((2 : ℚ) ^ (128 : ℤ) : ℚ)) : K) ≤ ((|r| : ℚ) : K) := Rat.cast_le.mpr hov
  push_cast at h1
  have h2 : |(r : K)| ≤ |x| + |(r : K) - x| := by
    have := abs_add x ((r : K) - x)
    simpa using this
  have h3 : |x| / 2 ^ 24 ≤ 2 ^ 100 / 2 ^ 24 := div_le_div_of_nonneg_right hx (by positivity)
  have h4 : (2 : K) ^ 100 + 2 ^ 100 / 2 ^ 24 + 1 / 2 ^ 150 < (2 : K) ^ (128 : ℤ) := by norm_num
  linarith

end ErrorCorollaries

/-! ## The `<cmath>` functions on `float` -/

namespace F32

theorem sqrt_fin (q : ℚ) :
    CMath.sqrt (fin q : F32) = if q < 0 then nan else rnd32 (Real.sqrt (q : ℝ)) := rfl

/-- Evaluation of the square root: exponent `e` and significand `k` of the correctly
rounded root of `q`, checked on the squares. -/
theorem sqrt_eval (q : ℚ) (e k : ℤ) (c : ℚ) (he : -126 ≤ e) (hk : 1 ≤ k)
    (h1 : ((2 : ℚ) ^ e) ^ 2 ≤ q) (h2 : q < ((2 : ℚ) ^ (e + 1)) ^ 2)
    (hk1 : (((k : ℚ) - 1 / 2) * (2 : ℚ) ^ (e - 23)) ^ 2 < q)
    (hk2 : q < (((k : ℚ) + 1 / 2) * (2 : ℚ) ^ (e - 23)) ^ 2)
    (hc : c = (k : ℚ) * (2 : ℚ) ^ (e - 23)) (hr : |c| < (2 : ℚ) ^ (128 : ℤ)) :
    CMath.sqrt (fin q : F32) = fin c := by
  have hq : 0 ≤ q := le_trans (sq_nonneg _) h1
  rw [sqrt_fin, if_neg (not_lt.mpr hq)]
  have hu : (0 : ℝ) < (2 : ℝ) ^ (e - 23) := zpow_pos (by norm_num) _
  have hkR : (1 : ℝ) ≤ (k : ℝ) := by exact_mod_cast hk
  have h1R : ((2 : ℝ) ^ e) ^ 2 ≤ (q : ℝ) := by
    have h : ((((2 : ℚ) ^ e) ^ 2 : ℚ) : ℝ) ≤ (q : ℝ) := Rat.cast_le.mpr h1
    push_cast at h
    exact h
  have h2R : (q : ℝ) < ((2 : ℝ) ^ (e + 1)) ^ 2 := by
    have h : (q : ℝ) < ((((2 : ℚ) ^ (e + 1)) ^ 2 : ℚ) : ℝ) := Rat.cast_lt.mpr h2
    push_cast at h
    exact h
  have hk1R : ((((k : ℝ) - 1 / 2) * (2 : ℝ) ^ (e - 23)) ^ 2 < (q : ℝ)) := by
    have h : ((((((k : ℚ) - 1 / 2) * (2 : ℚ) ^ (e - 23)) ^ 2 : ℚ)) : ℝ) < (q : ℝ) :=
      Rat.cast_lt.mpr hk1
    push_cast at h
    exact h
  have hk2R : ((q : ℝ) < (((k : ℝ) + 1 / 2) * (2 : ℝ) ^ (e - 23)) ^ 2) := by
    have h : (q : ℝ) < ((((((k : ℚ) + 1 / 2) * (2 : ℚ) ^ (e - 23)) ^ 2 : ℚ)) : ℝ) :=
      Rat.cast_lt.mpr hk2
    push_cast at h
    exact h
  apply rnd32_pos (Real.sqrt (q : ℝ)) e k c he
  · exact Real.le_sqrt_of_sq_le h1R
  · exact (Real.sqrt_lt' (zpow_pos (by norm_num) _)).mpr h2R
  · rw [lt_div_iff₀ hu]
    exact Real.lt_sqrt_of_sq_lt hk1R
  · rw [div_lt_iff₀ hu]
    exact (Real.sqrt_lt' (mul_pos (by linarith) hu)).mpr hk2R
  · exact hc
  · exact hr

theorem cos_zero : CMath.cos (fin 0 : F32) = fin 1 := by
  show rnd32 (Real.cos ((0 : ℚ) : ℝ)) = _
  rw [Rat.cast_zero, Real.cos_zero]
  apply rnd32_pos _ 0 8388608 <;> norm_num [abs_lt]

theorem sin_zero : CMath.sin (fin 0 : F32) = fin 0 := by
  show rnd32 (Real.sin ((0 : ℚ) : ℝ)) = _
  rw [Rat.cast_zero, Real.sin_zero]
  exact rnd32_zero

end F32

/-! ## Error of one `float` operation -/

namespace F32

theorem nan_mul (x : F32) : (nan : F32) * x = nan := by cases x <;> rfl

theorem not_nan_lt (x : F32) : ¬ ((nan : F32) < x) := by cases x <;> exact Bool.false_ne_true

/-- The square of a finite number: `+inf` on overflow, otherwise a non-negative finite
number within the error bound. -/
theorem sq_cases (a : ℚ) :
    (fin a : F32) * fin a = pinf ∨
    ∃ r : ℚ, 0 ≤ r ∧ (fin a : F32) * fin a = fin r ∧
      |(r : ℝ) - (a : ℝ) * a| ≤ (a : ℝ) * a / 2 ^ 24 + 1 / 2 ^ 150 := by
  rw [fin_mul_fin]
  rcases rnd32_nonneg_cases (a * a) (mul_self_nonneg a) with h | ⟨r, hr0, -, hr, herr⟩
  · exact Or.inl h
  · refine Or.inr ⟨r, hr0, hr, ?_⟩
    simp only [Rat.cast_id] at herr
    have h2 : ((_ : ℚ) : ℝ) ≤ ((_ : ℚ) : ℝ) := Rat.cast_le.mpr herr
    push_cast at h2
    exact h2

/-- The sum of two non-negative finite numbers: `+inf` on overflow, otherwise a
non-negative finite number within the error bound. -/
theorem add_nonneg_cases (a b : ℚ) (ha : 0 ≤ a) (hb : 0 ≤ b) :
    (fin a : F32) + fin b = pinf ∨
    ∃ r : ℚ, 0 ≤ r ∧ (fin a : F32) + fin b = fin r ∧
      |(r : ℝ) - ((a : ℝ) + b)| ≤ ((a : ℝ) + b) / 2 ^ 24 + 1 / 2 ^ 150 := by
  rw [fin_add_fin]
  rcases rnd32_nonneg_cases (a + b) (add_nonneg ha hb) with h | ⟨r, hr0, -, hr, herr⟩
  · exact Or.inl h
  · refine Or.inr ⟨r, hr0, hr, ?_⟩
    simp only [Rat.cast_id] at herr
    have h2 : ((_ : ℚ) : ℝ) ≤ ((_ : ℚ) : ℝ) := Rat.cast_le.mpr herr
    push_cast at h2
    exact h2

/-- The square root of a non-negative finite number: a non-negative finite number below
`2^128` within the error bound, unless the rounding overflows. -/
theorem sqrt_cases (s : ℚ) (hs : 0 ≤ s) :
    CMath.sqrt (fin s : F32) = pinf ∨
    ∃ t : ℚ, 0 ≤ t ∧ t < 2 ^ 128 ∧ CMath.sqrt (fin s : F32) = fin t ∧
      |(t : ℝ) - Real.sqrt s| ≤ Real.sqrt s / 2 ^ 24 + 1 / 2 ^ 150 := by
  rw [sqrt_fin, if_neg (not_lt.mpr hs)]
  exact rnd32_nonneg_cases (Real.sqrt s) (Real.sqrt_nonneg _)

/-- The product of two finite numbers, of moderate size: a finite number within the error
bound, non-negative when the exact product is. -/
theorem mul_moderate (a b : ℚ) (h : |(a : ℝ) * b| ≤ 2 ^ 100) :
    ∃ r : ℚ, (fin a : F32) * fin b = fin r ∧
      |(r : ℝ) - (a : ℝ) * b| ≤ |(a : ℝ) * b| / 2 ^ 24 + 1 / 2 ^ 150 ∧
      (0 ≤ a * b → 0 ≤ r) := by
  rw [fin_mul_fin]
  have h' : |a * b| ≤ 2 ^ 100 := by exact_mod_cast h
  obtain ⟨r, hr, herr, hsign⟩ := rnd32_of_abs_le (a * b) h'
  refine ⟨r, hr, ?_, hsign⟩
  simp only [Rat.cast_id] at herr
  have h2 : ((_ : ℚ) : ℝ) ≤ ((_ : ℚ) : ℝ) := Rat.cast_le.mpr herr
  push_cast at h2
  exact h2

/-- The sum of two finite numbers, of moderate size: a finite number within the error
bound, non-negative when the exact sum is. -/
theorem add_moderate (a b : ℚ) (h : |(a : ℝ) + b| ≤ 2 ^ 100) :
    ∃ r : ℚ, (fin a : F32) + fin b = fin r ∧
      |(r : ℝ) - ((a : ℝ) + b)| ≤ |(a : ℝ) + b| / 2 ^ 24 + 1 / 2 ^ 150 ∧
      (0 ≤ a + b → 0 ≤ r) := by
  rw [fin_add_fin]
  have h' : |a + b| ≤ 2 ^ 100 := by exact_mod_cast h
  obtain ⟨r, hr, herr, hsign⟩ := rnd32_of_abs_le (a + b) h'
  refine ⟨r, hr, ?_, hsign⟩
  simp only [Rat.cast_id] at herr
  have h2 : ((_ : ℚ) : ℝ) ≤ ((_ : ℚ) : ℝ) := Rat.cast_le.mpr herr
  push_cast at h2
  exact h2

/-- The quotient of two finite numbers, of moderate size: a finite number within the error
bound. -/
theorem div_moderate (a b : ℚ) (hb : b ≠ 0) (h : |(a : ℝ) / b| ≤ 2 ^ 100) :
    ∃ r : ℚ, (fin a : F32) / fin b = fin r ∧
      |(r : ℝ) - (a : ℝ) / b| ≤ |(a : ℝ) / b| / 2 ^ 24 + 1 / 2 ^ 150 := by
  rw [fin_div_fin _ _ hb]
  have h' : |a / b| ≤ 2 ^ 100 := by exact_mod_cast h
  obtain ⟨r, hr, herr, -⟩ := rnd32_of_abs_le (a / b) h'
  refine ⟨r, hr, ?_⟩
  simp only [Rat.cast_id] at herr
  have h2 : ((_ : ℚ) : ℝ) ≤ ((_ : ℚ) : ℝ) := Rat.cast_le.mpr herr
  push_cast at h2
  exact h2

/-- The square root of a non-negative finite number, of moderate size: a finite number
within the error bound. -/
theorem sqrt_moderate (s : ℚ) (hs : 0 ≤ s) (h : Real.sqrt s ≤ 2 ^ 100) :
    ∃ t : ℚ, CMath.sqrt (fin s : F32) = fin t ∧
      |(t : ℝ) - Real.sqrt s| ≤ Real.sqrt s / 2 ^ 24 + 1 / 2 ^ 150 := by
  rw [sqrt_fin, if_neg (not_lt.mpr hs)]
  have h' : |Real.sqrt s| ≤ 2 ^ 100 := by rwa [abs_of_nonneg (Real.sqrt_nonneg _)]
  obtain ⟨t, ht, herr, -⟩ := rnd32_of_abs_le (Real.sqrt s) h'
  rw [abs_of_nonneg (Real.sqrt_nonneg _)] at herr
  exact ⟨t, ht, herr⟩

end F32

/-! ## The constants of the program as `float` -/

namespace Float32

theorem zero_eq : (0 : F32) = F32.fin 0 := rnd32_zero

theorem lit_1_0 : (1.0 : F32) = F32.fin 1 := by
  show rnd32 ((1.0 : ℚ)) = _
  apply rnd32_pos _ 0 8388608 <;> norm_num [abs_lt]

theorem lit_2_0 : (2.0 : F32) = F32.fin 2 := by
  show rnd32 ((2.0 : ℚ)) = _
  apply rnd32_pos _ 1 8388608 <;> norm_num [abs_lt]

theorem lit_0_5 : (0.5 : F32) = F32.fin (1 / 2) := by
  show rnd32 ((0.5 : ℚ)) = _
  apply rnd32_pos _ (-1) 8388608 <;> norm_num [abs_lt]

theorem lit_0_8 : (0.8 : F32) = F32.fin (13421773 / 16777216) := by
  show rnd32 ((0.8 : ℚ)) = _
  apply rnd32_pos _ (-1) 13421773 <;> norm_num [abs_lt]

theorem lit_0_1 : (0.1 : F32) = F32.fin (13421773 / 134217728) := by
  show rnd32 ((0.1 : ℚ)) = _
  apply rnd32_pos _ (-4) 13421773 <;> norm_num [abs_lt]

theorem lit_0_0001 : (0.0001 : F32) = F32.fin (13743895 / 137438953472) := by
  show rnd32 ((0.0001 : ℚ)) = _
  apply rnd32_pos _ (-14) 13743895 <;> norm_num [abs_lt]

theorem MAX_SPEED_eq : MAX_SPEED = F32.fin 3 := by
  show rnd32 ((3.0 : ℚ)) = _
  apply rnd32_pos _ 1 12582912 <;> norm_num [abs_lt]

theorem FRICTION_eq : FRICTION = F32.fin (7549747 / 8388608) := by
  show rnd32 ((0.90 : ℚ)) = _
  apply rnd32_pos _ (-1) 15099494 <;> norm_num [abs_lt]

theorem GRAVITY_FORCE_eq : GRAVITY_FORCE = F32.fin (3 / 2) := by
  show rnd32 ((1.5 : ℚ)) = _
  apply rnd32_pos _ 0 12582912 <;> norm_num [abs_lt]

theorem VISCOSITY_eq : VISCOSITY = F32.fin (13421773 / 268435456) := by
  show rnd32 ((0.05 : ℚ)) = _
  apply rnd32_pos _ (-5) 13421773 <;> norm_num [abs_lt]

theorem VISCOSITY_RADIUS_FACTOR_eq : VISCOSITY_RADIUS_FACTOR = F32.fin (3 / 2) := by
  show rnd32 ((1.5 : ℚ)) = _
  apply rnd32_pos _ 0 12582912 <;> norm_num [abs_lt]

theorem radius_eq : ((PARTICLE_RADIUS : Int) : F32) = F32.fin 3 := by
  show rnd32 (((PARTICLE_RADIUS : ℤ) : ℚ)) = _
  simp only [PARTICLE_RADIUS]
  apply rnd32_pos _ 1 12582912 <;> norm_num [abs_lt]

theorem right_wall_eq : ((WIDTH - PARTICLE_RADIUS : Int) : F32) = F32.fin 125 := by
  show rnd32 (((WIDTH - PARTICLE_RADIUS : ℤ) : ℚ)) = _
  simp only [WIDTH, PARTICLE_RADIUS]
  apply rnd32_pos _ 6 16384000 <;> norm_num [abs_lt]

theorem floor_eq : ((HEIGHT - PARTICLE_RADIUS : Int) : F32) = F32.fin 61 := by
  show rnd32 (((HEIGHT - PARTICLE_RADIUS : ℤ) : ℚ)) = _
  simp only [HEIGHT, PARTICLE_RADIUS]
  apply rnd32_pos _ 5 15990784 <;> norm_num [abs_lt]

theorem six_eq : (F32.fin 2 : F32) * F32.fin 3 = F32.fin 6 := by
  rw [F32.fin_mul_fin]
  apply rnd32_pos _ 2 12582912 <;> norm_num [abs_lt]

theorem minDist_f32 : minDist = F32.fin 6 := by
  unfold minDist
  rw [lit_2_0, radius_eq, six_eq]

theorem interactionRadiusSq_f32 : interactionRadiusSq = F32.fin 81 := by
  unfold interactionRadiusSq interactionRadius
  rw [lit_2_0, radius_eq, six_eq, VISCOSITY_RADIUS_FACTOR_eq]
  have h9 : (F32.fin 6 : F32) * F32.fin (3 / 2) = F32.fin 9 := by
    rw [F32.fin_mul_fin]
    apply rnd32_pos _ 3 9437184 <;> norm_num [abs_lt]
  rw [h9, F32.fin_mul_fin]
  apply rnd32_pos _ 6 10616832 <;> norm_num [abs_lt]

end Float32

/-! ## The direction stored for heading 0 -/

namespace Float32

/-- The `double` quotient `M_PI / 2` is exact: halving changes the exponent only. -/
theorem half_pi_double :
    F32.divWith rnd64 (CMath.M_PI : F32) (F32.fin 2)
      = F32.fin (884279719003555 / 562949953421312) := by
  show F32.divWith rnd64 (F32.fin (884279719003555 / 281474976710656)) (F32.fin 2) = _
  unfold F32.divWith
  simp only [OfNat.ofNat_ne_zero, if_false]
  apply rnd64_pos _ 0 7074237752028440 <;> norm_num [abs_lt]

/-- The direction stored by `setGravityDirection(0)`: `0 + M_PI / 2` in `double`, rounded
to the `float` `1.57079637`, which is above π/2. -/
theorem setGravityDirection_zero (s : Simulation F32) :
    (setGravityDirection 0 s).GRAVITY_DIRECTION = F32.fin (13176795 / 8388608) := by
  unfold setGravityDirection
  simp only [half_pi_double, zero_eq]
  have h1 : F32.addWith rnd64 (F32.fin 0) (F32.fin (884279719003555 / 562949953421312))
      = F32.fin (884279719003555 / 562949953421312) := by
    show rnd64 ((0 : ℚ) + 884279719003555 / 562949953421312) = _
    apply rnd64_pos _ 0 7074237752028440 <;> norm_num [abs_lt]
  rw [h1]
  show rnd32 ((884279719003555 / 562949953421312 : ℚ)) = _
  apply rnd32_pos _ 0 13176795 <;> norm_num [abs_lt]

/-- Bounds on the sine of the excess of the stored direction `1.57079637` over π/2. -/
theorem sin_excess_bounds :
    (4371139000185 / 100000000000000000000 : ℝ)
        < Real.sin ((13176795 / 8388608 : ℝ) - Real.pi / 2) ∧
      Real.sin ((13176795 / 8388608 : ℝ) - Real.pi / 2)
        < (4371139000187 / 100000000000000000000 : ℝ) := by
  have hpi1 := Real.pi_gt_d20
  have hpi2 := Real.pi_lt_d20
  obtain ⟨t, ht⟩ : ∃ t : ℝ, t = (13176795 / 8388608 : ℝ) - Real.pi / 2 := ⟨_, rfl⟩
  rw [← ht]
  have htl : (43711390001858 / 1000000000000000000000 : ℝ) < t := by
    rw [ht]; norm_num at hpi2 ⊢; linarith
  have hth : t < (43711390001864 / 1000000000000000000000 : ℝ) := by
    rw [ht]; norm_num at hpi1 ⊢; linarith
  have ht0 : 0 < t := lt_trans (by norm_num) htl
  have h7 : t < 1 / 10000000 := lt_trans hth (by norm_num)
  have ht1 : t ≤ 1 := le_trans h7.le (by norm_num)
  have hs1 : Real.sin t < t := Real.sin_lt ht0
  have hs2 : t - t ^ 3 / 4 < Real.sin t := Real.sin_gt_sub_cube ht0 ht1
  have hsmall : t ^ 3 / 4 < 1 / 1000000000000000000000 := by
    have h2 : t ^ 2 < (1 / 10000000) ^ 2 := pow_lt_pow_left₀ h7 ht0.le (by norm_num)
    have h3 : t ^ 3 = t * t ^ 2 := by ring
    have h4 : t * t ^ 2 < (1 / 10000000) * (1 / 10000000) ^ 2 :=
      mul_lt_mul'' h7 h2 ht0.le (by positivity)
    rw [h3]
    norm_num at h4 ⊢
    linarith
  constructor
  · linarith
  · linarith

/-- The `float` cosine of the stored direction `1.57079637`: `-4.37113883e-08`, not 0. -/
theorem cos_stored_direction :
    CMath.cos (F32.fin (13176795 / 8388608) : F32)
      = F32.fin (-(6151831 / 140737488355328)) := by
  show rnd32 (Real.cos (((13176795 / 8388608 : ℚ)) : ℝ)) = _
  have hcast : (((13176795 / 8388608 : ℚ)) : ℝ)
      = ((13176795 / 8388608 : ℝ) - Real.pi / 2) + Real.pi / 2 := by
    push_cast
    ring
  rw [hcast, Real.cos_add_pi_div_two]
  obtain ⟨hlo, hhi⟩ := sin_excess_bounds
  apply rnd32_neg _ (-25) (-12303662)
  · norm_num
  · norm_num
    linarith
  · norm_num
    linarith
  · norm_num
    linarith
  · norm_num
    linarith
  · norm_num
  · norm_num [abs_lt]

/-- The `float` sine of the stored direction `1.57079637` is 1. -/
theorem sin_stored_direction :
    CMath.sin (F32.fin (13176795 / 8388608) : F32) = F32.fin 1 := by
  show rnd32 (Real.sin (((13176795 / 8388608 : ℚ)) : ℝ)) = _
  have hcast : (((13176795 / 8388608 : ℚ)) : ℝ)
      = ((13176795 / 8388608 : ℝ) - Real.pi / 2) + Real.pi / 2 := by
    push_cast
    ring
  rw [hcast, Real.sin_add_pi_div_two]
  have hpi1 := Real.pi_gt_d20
  have hpi2 := Real.pi_lt_d20
  obtain ⟨t, ht⟩ : ∃ t : ℝ, t = (13176795 / 8388608 : ℝ) - Real.pi / 2 := ⟨_, rfl⟩
  rw [← ht]
  have htl : (0 : ℝ) < t := by
    rw [ht]; norm_num at hpi2 ⊢; linarith
  have hth : t < (1 / 10000000 : ℝ) := by
    rw [ht]; norm_num at hpi1 ⊢; linarith
  have hc1 : Real.cos t < 1 := by
    have h := Real.cos_lt_cos_of_nonneg_of_le_pi_div_two (le_refl (0 : ℝ))
      (by linarith : t ≤ Real.pi / 2) htl
    rwa [Real.cos_zero] at h
  have hc2 : 1 - t ^ 2 / 2 ≤ Real.cos t := Real.one_sub_sq_div_two_le_cos
  have h2 : t ^ 2 < (1 / 10000000) ^ 2 := pow_lt_pow_left₀ hth htl.le (by norm_num)
  norm_num at h2
  apply rnd32_pos _ (-1) 16777216
  · norm_num
  · norm_num
    linarith
  · norm_num
    linarith
  · norm_num
    linarith
  · norm_num
    linarith
  · norm_num
  · norm_num [abs_lt]

/-- The force step at the stored direction `1.57079637`, on a particle at rest at the
centre: `vx` becomes `1.5f * cos(1.57079637f) = -6.55670789e-08`. -/
theorem applyForces_stored_direction :
    applyForces (F32.fin (13176795 / 8388608)) ⟨F32.fin 64, F32.fin 32, F32.fin 0, F32.fin 0⟩
      = ⟨F32.fin 64, F32.fin 32, F32.fin (-(4613873 / 70368744177664)), F32.fin (3 / 2)⟩ := by
  have hx1 : (F32.fin (3 / 2) : F32) * F32.fin (-(6151831 / 140737488355328))
      = F32.fin (-(4613873 / 70368744177664)) := by
    rw [F32.fin_mul_fin]
    apply rnd32_neg_tie_up _ (-24) (-9227746) <;> norm_num [abs_lt]
  have hx2 : (F32.fin 0 : F32) + F32.fin (-(4613873 / 70368744177664))
      = F32.fin (-(4613873 / 70368744177664)) := by
    rw [F32.fin_add_fin]
    apply rnd32_neg _ (-24) (-9227746) <;> norm_num [abs_lt]
  have hy1 : (F32.fin (3 / 2) : F32) * F32.fin 1 = F32.fin (3 / 2) := by
    rw [F32.fin_mul_fin]
    apply rnd32_pos _ 0 12582912 <;> norm_num [abs_lt]
  have hy2 : (F32.fin 0 : F32) + F32.fin (3 / 2) = F32.fin (3 / 2) := by
    rw [F32.fin_add_fin]
    apply rnd32_pos _ 0 12582912 <;> norm_num [abs_lt]
  simp only [applyForces, GRAVITY_FORCE_eq, cos_stored_direction, sin_stored_direction,
    hx1, hx2, hy1, hy2]

/-- C9, counterexample. After `setGravityDirection(0)` the stored direction is the `float`
`1.57079637`, the `double` sum `0 + M_PI / 2` rounded to `float`, which is above π/2; its
cosine is negative, about `-4.37e-08`, and `applyForces` changes the `vx = 0` of a particle
at rest at `(64, 32)` to a negative number, about `-6.56e-08`. -/
theorem applyForces_heading_zero_rounded :
    (setGravityDirection 0
        ⟨[⟨F32.fin 64, F32.fin 32, F32.fin 0, F32.fin 0⟩], F32.fin 0⟩).GRAVITY_DIRECTION
      = F32.fin (13176795 / 8388608) ∧
    Real.pi / 2 < (13176795 / 8388608 : ℝ) ∧
    (applyForces
        (setGravityDirection 0
          ⟨[⟨F32.fin 64, F32.fin 32, F32.fin 0, F32.fin 0⟩], F32.fin 0⟩).GRAVITY_DIRECTION
        ⟨F32.fin 64, F32.fin 32, F32.fin 0, F32.fin 0⟩).vx < F32.fin 0 ∧
    F32.fin (-(1 / 10000000)) < (applyForces
        (setGravityDirection 0
          ⟨[⟨F32.fin 64, F32.fin 32, F32.fin 0, F32.fin 0⟩], F32.fin 0⟩).GRAVITY_DIRECTION
        ⟨F32.fin 64, F32.fin 32, F32.fin 0, F32.fin 0⟩).vx ∧
    (applyForces
        (setGravityDirection 0
          ⟨[⟨F32.fin 64, F32.fin 32, F32.fin 0, F32.fin 0⟩], F32.fin 0⟩).GRAVITY_DIRECTION
        ⟨F32.fin 64, F32.fin 32, F32.fin 0, F32.fin 0⟩).vx
      ≠ (⟨F32.fin 64, F32.fin 32, F32.fin 0, F32.fin 0⟩ : Particle F32).vx := by
  rw [setGravityDirection_zero, applyForces_stored_direction]
  refine ⟨rfl, ?_, ?_, ?_, ?_⟩
  · have h := Real.pi_lt_d20
    norm_num at h ⊢
    linarith
  · show (F32.fin (-(4613873 / 70368744177664)) : F32) < F32.fin 0
    rw [F32.fin_lt_fin]
    norm_num
  · show (F32.fin (-(1 / 10000000)) : F32) < F32.fin (-(4613873 / 70368744177664))
    rw [F32.fin_lt_fin]
    norm_num
  · intro h
    have h2 : (-(4613873 / 70368744177664) : ℚ) = 0 := F32.fin.inj h
    norm_num at h2

end Float32

/-! ## Frames on `float` at concrete inputs

Each proof first evaluates the `float` operations of the run, one by one (exponent and
rounded significand of each exact result), and then rewrites the program with them. -/

namespace Float32

/-- A frame on two particles at `(10, 10)` and `(12, 10)` with the finite velocities
`(0, 2^127)` and `(0, -2^127)`, direction 0: the difference of the two `vy` overflows in the
viscosity pass, the wall handling returns infinite `vy`, and the rescale `inf * 0` leaves
`vy = NaN`. -/
theorem nextFrame_overflow_pair :
    nextFrame ⟨[⟨F32.fin 10, F32.fin 10, F32.fin 0, F32.fin (2 ^ 127)⟩,
        ⟨F32.fin 12, F32.fin 10, F32.fin 0, F32.fin (-(2 ^ 127))⟩], F32.fin 0⟩
      = ⟨[⟨F32.fin (23 / 2), F32.fin 3, F32.fin 0, F32.nan⟩,
        ⟨F32.fin (27 / 2), F32.fin 61, F32.fin 0, F32.nan⟩], F32.fin 0⟩ := by
  have f32_mul_0 : (F32.fin (3 / 2) : F32) * (F32.fin 1) = F32.fin (3 / 2) := by
    rw [F32.fin_mul_fin]
    apply rnd32_pos _ 0 12582912 <;> norm_num [abs_lt]
  have f32_add_1 : (F32.fin 0 : F32) + (F32.fin (3 / 2)) = F32.fin (3 / 2) := by
    rw [F32.fin_add_fin]
    apply rnd32_pos _ 0 12582912 <;> norm_num [abs_lt]
  have f32_mul_2 : (F32.fin (3 / 2) : F32) * (F32.fin 0) = F32.fin 0 := by
    rw [F32.fin_mul_fin]
    rw [show ((3 / 2) * 0 : ℚ) = 0 from by norm_num]
    exact rnd32_zero
  have f32_add_3 : (F32.fin (2 ^ 127) : F32) + (F32.fin 0) = F32.fin (2 ^ 127) := by
    rw [F32.fin_add_fin]
    apply rnd32_pos _ 127 8388608 <;> norm_num [abs_lt]
  have f32_add_4 : (F32.fin (-(2 ^ 127)) : F32) + (F32.fin 0) = F32.fin (-(2 ^ 127)) := by
    rw [F32.fin_add_fin]
    apply rnd32_neg _ 127 (-8388608) <;> norm_num [abs_lt]
  have f32_mul_5 : (F32.fin 2 : F32) * (F32.fin 3) = F32.fin 6 := by
    rw [F32.fin_mul_fin]
    apply rnd32_pos _ 2 12582912 <;> norm_num [abs_lt]
  have f32_mul_6 : (F32.fin 6 : F32) * (F32.fin (3 / 2)) = F32.fin 9 := by
    rw [F32.fin_mul_fin]
    apply rnd32_pos _ 3 9437184 <;> norm_num [abs_lt]
  have f32_mul_7 : (F32.fin 9 : F32) * (F32.fin 9) = F32.fin 81 := by
    rw [F32.fin_mul_fin]
    apply rnd32_pos _ 6 10616832 <;> norm_num [abs_lt]
  have f32_sub_8 : (F32.fin 12 : F32) - (F32.fin 10) = F32.fin 2 := by
    rw [F32.fin_sub_fin]
    apply rnd32_pos _ 1 8388608 <;> norm_num [abs_lt]
  have f32_sub_9 : (F32.fin 10 : F32) - (F32.fin 10) = F32.fin 0 := by
    rw [F32.fin_sub_fin]
    rw [show (10 + -10 : ℚ) = 0 from by norm_num]
    exact rnd32_zero
  have f32_mul_10 : (F32.fin 2 : F32) * (F32.fin 2) = F32.fin 4 := by
    rw [F32.fin_mul_fin]
    apply rnd32_pos _ 2 8388608 <;> norm_num [abs_lt]
  have f32_mul_11 : (F32.fin 0 : F32) * (F32.fin 0) = F32.fin 0 := by
    rw [F32.fin_mul_fin]
    rw [show (0 * 0 : ℚ) = 0 from by norm_num]
    exact rnd32_zero
  have f32_add_12 : (F32.fin 4 : F32) + (F32.fin 0) = F32.fin 4 := by
    rw [F32.fin_add_fin]
    apply rnd32_pos _ 2 8388608 <;> norm_num [abs_lt]
  have f32_lt_13 : (F32.fin 4 : F32) < F32.fin 81 := by
    rw [F32.fin_lt_fin]
    norm_num
  have f32_lt_14 : (F32.fin (13743895 / 137438953472) : F32) < F32.fin 4 := by
    rw [F32.fin_lt_fin]
    norm_num
  have f32_sub_15 : (F32.fin (3 / 2) : F32) - (F32.fin (3 / 2)) = F32.fin 0 := by
    rw [F32.fin_sub_fin]
    rw [show ((3 / 2) + -(3 / 2) : ℚ) = 0 from by norm_num]
    exact rnd32_zero
  have f32_sub_16 : (F32.fin (-(2 ^ 127)) : F32) - (F32.fin (2 ^ 127)) = F32.ninf := by
    rw [F32.fin_sub_fin]
    apply rnd32_overflow_neg _ 128 (-8388608) <;> norm_num [abs_le, le_abs]
  have f32_mul_17 : (F32.fin (13421773 / 268435456) : F32) * (F32.fin 0) = F32.fin 0 := by
    rw [F32.fin_mul_fin]
    rw [show ((13421773 / 268435456) * 0 : ℚ) = 0 from by norm_num]
    exact rnd32_zero
  have f32_add_18 : (F32.fin (3 / 2) : F32) + (F32.fin 0) = F32.fin (3 / 2) := by
    rw [F32.fin_add_fin]
    apply rnd32_pos _ 0 12582912 <;> norm_num [abs_lt]
  have f32_mul_19 : (F32.fin (13421773 / 268435456) : F32) * (F32.ninf) = F32.ninf := by
    exact F32.pos_mul_ninf _ (by norm_num)
  have f32_add_20 : (F32.fin (2 ^ 127) : F32) + (F32.ninf) = F32.ninf := by
    rfl
  have f32_sub_21 : (F32.fin (3 / 2) : F32) - (F32.fin 0) = F32.fin (3 / 2) := by
    rw [F32.fin_sub_fin]
    apply rnd32_pos _ 0 12582912 <;> norm_num [abs_lt]
  have f32_sub_22 : (F32.fin (-(2 ^ 127)) : F32) - (F32.ninf) = F32.pinf := by
    rfl
  have f32_add_23 : (F32.fin 10 : F32) + (F32.fin (3 / 2)) = F32.fin (23 / 2) := by
    rw [F32.fin_add_fin]
    apply rnd32_pos _ 3 12058624 <;> norm_num [abs_lt]
  have f32_add_24 : (F32.fin 10 : F32) + (F32.ninf) = F32.ninf := by
    rfl
  have f32_add_25 : (F32.fin 12 : F32) + (F32.fin (3 / 2)) = F32.fin (27 / 2) := by
    rw [F32.fin_add_fin]
    apply rnd32_pos _ 3 14155776 <;> norm_num [abs_lt]
  have f32_add_26 : (F32.fin 10 : F32) + (F32.pinf) = F32.pinf := by
    rfl
  have f32_sub_27 : (F32.fin (27 / 2) : F32) - (F32.fin (23 / 2)) = F32.fin 2 := by
    rw [F32.fin_sub_fin]
    apply rnd32_pos _ 1 8388608 <;> norm_num [abs_lt]
  have f32_sub_28 : (F32.pinf : F32) - (F32.ninf) = F32.pinf := by
    rfl
  have f32_mul_29 : (F32.pinf : F32) * (F32.pinf) = F32.pinf := by
    decide
  have f32_add_30 : (F32.fin 4 : F32) + (F32.pinf) = F32.pinf := by
    rfl
  have f32_sqrt_31 : CMath.sqrt (F32.pinf : F32) = F32.pinf := by
    rfl
  have f32_lt_32 : ¬ ((F32.pinf : F32) < F32.fin 6) := by
    decide
  have f32_lt_33 : ¬ ((F32.fin (23 / 2) : F32) < F32.fin 3) := by
    rw [F32.fin_lt_fin]
    norm_num
  have f32_lt_34 : ¬ ((F32.fin 125 : F32) < F32.fin (23 / 2)) := by
    rw [F32.fin_lt_fin]
    norm_num
  have f32_lt_35 : (F32.ninf : F32) < F32.fin 3 := by
    decide
  have f32_neg_36 : -(F32.ninf : F32) = F32.pinf := by
    rfl
  have f32_mul_37 : (F32.pinf : F32) * (F32.fin (13421773 / 16777216)) = F32.pinf := by
    exact F32.pinf_mul_pos _ (by norm_num)
  have f32_mul_38 : (F32.fin (3 / 2) : F32) * (F32.fin (3 / 2)) = F32.fin (9 / 4) := by
    rw [F32.fin_mul_fin]
    apply rnd32_pos _ 1 9437184 <;> norm_num [abs_lt]
  have f32_add_39 : (F32.fin (9 / 4) : F32) + (F32.pinf) = F32.pinf := by
    rfl
  have f32_lt_40 : (F32.fin 3 : F32) < F32.pinf := by
    decide
  have f32_div_41 : (F32.fin 3 : F32) / (F32.pinf) = F32.fin 0 := by
    rfl
  have f32_mul_42 : (F32.pinf : F32) * (F32.fin 0) = F32.nan := by
    exact F32.pinf_mul_zero
  have f32_mul_43 : (F32.fin 0 : F32) * (F32.fin (7549747 / 8388608)) = F32.fin 0 := by
    rw [F32.fin_mul_fin]
    rw [show (0 * (7549747 / 8388608) : ℚ) = 0 from by norm_num]
    exact rnd32_zero
  have f32_mul_44 : (F32.nan : F32) * (F32.fin (7549747 / 8388608)) = F32.nan := by
    rfl
  have f32_fabs_45 : F32.fabs (F32.fin 0) = F32.fin 0 := by
    show F32.fin |_| = _
    rw [abs_of_nonneg (by norm_num)]
  have f32_lt_46 : (F32.fin 0 : F32) < F32.fin (13421773 / 134217728) := by
    rw [F32.fin_lt_fin]
    norm_num
  have f32_fabs_47 : F32.fabs (F32.nan) = F32.nan := by
    rfl
  have f32_lt_48 : ¬ ((F32.nan : F32) < F32.fin (13421773 / 134217728)) := by
    decide
  have f32_lt_49 : ¬ ((F32.fin (27 / 2) : F32) < F32.fin 3) := by
    rw [F32.fin_lt_fin]
    norm_num
  have f32_lt_50 : ¬ ((F32.fin 125 : F32) < F32.fin (27 / 2)) := by
    rw [F32.fin_lt_fin]
    norm_num
  have f32_lt_51 : ¬ ((F32.pinf : F32) < F32.fin 3) := by
    decide
  have f32_lt_52 : (F32.fin 61 : F32) < F32.pinf := by
    decide
  have f32_neg_53 : -(F32.pinf : F32) = F32.ninf := by
    rfl
  have f32_mul_54 : (F32.ninf : F32) * (F32.fin (1 / 2)) = F32.ninf := by
    exact F32.ninf_mul_pos _ (by norm_num)
  have f32_mul_55 : (F32.ninf : F32) * (F32.ninf) = F32.pinf := by
    decide
  have f32_mul_56 : (F32.ninf : F32) * (F32.fin 0) = F32.nan := by
    exact F32.ninf_mul_zero
  simp only [nextFrame, applyViscosity, List.map_cons, List.map_nil, forEachPair_single,
    forEachPair_two, forEachPair_three, resolveCollisions, COLLISION_ITERATIONS,
    Function.iterate_succ, Function.iterate_zero, Function.comp_apply, id_eq,
    collisionIteration, applyForces, updatePosition, viscosityPair, collidePair, dist,
    handleWallCollision, handleWallX, handleWallY, applyFrictionAndLimitSpeed,
    F32.cos_zero, F32.sin_zero, GRAVITY_FORCE_eq, VISCOSITY_eq, MAX_SPEED_eq, FRICTION_eq,
    minDist_f32, interactionRadiusSq_f32, radius_eq, right_wall_eq, floor_eq, zero_eq,
    lit_0_8, lit_0_5, lit_0_1, lit_0_0001, lit_2_0, lit_1_0, gt_iff_lt,
    and_true, true_and, and_false, false_and, if_true, if_false, not_true_eq_false,
    not_false_eq_true,
    f32_mul_0, f32_add_1, f32_mul_2, f32_add_3, f32_add_4, f32_mul_5, f32_mul_6, f32_mul_7,
    f32_sub_8, f32_sub_9, f32_mul_10, f32_mul_11, f32_add_12, f32_lt_13, f32_lt_14, f32_sub_15,
    f32_sub_16, f32_mul_17, f32_add_18, f32_mul_19, f32_add_20, f32_sub_21, f32_sub_22,
    f32_add_23, f32_add_24, f32_add_25, f32_add_26, f32_sub_27, f32_sub_28, f32_mul_29,
    f32_add_30, f32_sqrt_31, f32_lt_32, f32_lt_33, f32_lt_34, f32_lt_35, f32_neg_36,
    f32_mul_37, f32_mul_38, f32_add_39, f32_lt_40, f32_div_41, f32_mul_42, f32_mul_43,
    f32_mul_44, f32_fabs_45, f32_lt_46, f32_fabs_47, f32_lt_48, f32_lt_49, f32_lt_50,
    f32_lt_51, f32_lt_52, f32_neg_53, f32_mul_54, f32_mul_55, f32_mul_56,]

/-- C2, counterexample. On the finite input of `nextFrame_overflow_pair` the frame ends with
`vy = NaN` on both particles, and the speed `sqrt(vx * vx + vy * vy)` is NaN, which is not
`<= MAX_SPEED`. -/
theorem nextFrame_speed_nan :
    (nextFrame ⟨[⟨F32.fin 10, F32.fin 10, F32.fin 0, F32.fin (2 ^ 127)⟩,
        ⟨F32.fin 12, F32.fin 10, F32.fin 0, F32.fin (-(2 ^ 127))⟩], F32.fin 0⟩).particles
      = [⟨F32.fin (23 / 2), F32.fin 3, F32.fin 0, F32.nan⟩,
        ⟨F32.fin (27 / 2), F32.fin 61, F32.fin 0, F32.nan⟩] ∧
    ∀ p ∈ (nextFrame ⟨[⟨F32.fin 10, F32.fin 10, F32.fin 0, F32.fin (2 ^ 127)⟩,
        ⟨F32.fin 12, F32.fin 10, F32.fin 0, F32.fin (-(2 ^ 127))⟩], F32.fin 0⟩).particles,
      CMath.sqrt (p.vx * p.vx + p.vy * p.vy) = F32.nan ∧
      ¬ (CMath.sqrt (p.vx * p.vx + p.vy * p.vy) ≤ MAX_SPEED) := by
  have f32_mul_11 : (F32.fin 0 : F32) * (F32.fin 0) = F32.fin 0 := by
    rw [F32.fin_mul_fin]
    rw [show (0 * 0 : ℚ) = 0 from by norm_num]
    exact rnd32_zero
  have f32_mul_57 : (F32.nan : F32) * (F32.nan) = F32.nan := by
    rfl
  have f32_add_58 : (F32.fin 0 : F32) + (F32.nan) = F32.nan := by
    rfl
  have f32_sqrt_59 : CMath.sqrt (F32.nan : F32) = F32.nan := by
    rfl
  have f32_le_60 : ¬ ((F32.nan : F32) ≤ F32.fin 3) := by
    decide
  rw [nextFrame_overflow_pair]
  refine ⟨rfl, ?_⟩
  intro p hp
  simp only [List.mem_cons, List.mem_singleton, List.not_mem_nil, or_false] at hp
  rcases hp with rfl | rfl <;>
    simp only [MAX_SPEED_eq,
    f32_mul_11, f32_mul_57, f32_add_58, f32_sqrt_59, f32_le_60,
      not_false_eq_true, and_self]

/-- C15, counterexample. On the finite input of `nextFrame_overflow_pair` the frame ends
with `vy = NaN` on both particles: the component is not 0 and its absolute value is not
`>= 0.1`, the test `fabs(vy) < 0.1f` of the deadzone being false on NaN. -/
theorem nextFrame_deadzone_nan :
    (nextFrame ⟨[⟨F32.fin 10, F32.fin 10, F32.fin 0, F32.fin (2 ^ 127)⟩,
        ⟨F32.fin 12, F32.fin 10, F32.fin 0, F32.fin (-(2 ^ 127))⟩], F32.fin 0⟩).particles
      = [⟨F32.fin (23 / 2), F32.fin 3, F32.fin 0, F32.nan⟩,
        ⟨F32.fin (27 / 2), F32.fin 61, F32.fin 0, F32.nan⟩] ∧
    ∀ p ∈ (nextFrame ⟨[⟨F32.fin 10, F32.fin 10, F32.fin 0, F32.fin (2 ^ 127)⟩,
        ⟨F32.fin 12, F32.fin 10, F32.fin 0, F32.fin (-(2 ^ 127))⟩], F32.fin 0⟩).particles,
      p.vy = F32.nan ∧ ¬ (p.vy = 0 ∨ (0.1 : F32) ≤ F32.fabs p.vy) := by
  have f32_fabs_47 : F32.fabs (F32.nan) = F32.nan := by
    rfl
  have f32_le_61 : ¬ ((F32.fin (13421773 / 134217728) : F32) ≤ F32.nan) := by
    decide
  rw [nextFrame_overflow_pair]
  refine ⟨rfl, ?_⟩
  intro p hp
  simp only [List.mem_cons, List.mem_singleton, List.not_mem_nil, or_false] at hp
  rcases hp with rfl | rfl <;>
    simp only [zero_eq, lit_0_1,
    f32_fabs_47, f32_le_61,
      not_false_eq_true, or_false, true_and, reduceCtorEq]

/-- A frame on three particles at `(10, 10)`, `(12, 10)`, `(10, 12)` with the finite
velocities `(0, 2^127)`, `(0, -2^127)`, `(0, 0)`, direction 0: the viscosity pass overflows
to infinite `vy` on the first pair and computes `inf - inf = NaN` on the other pairs, so
`y += vy` is NaN and both wall tests are false. -/
theorem nextFrame_overflow_triple :
    nextFrame ⟨[⟨F32.fin 10, F32.fin 10, F32.fin 0, F32.fin (2 ^ 127)⟩,
        ⟨F32.fin 12, F32.fin 10, F32.fin 0, F32.fin (-(2 ^ 127))⟩,
        ⟨F32.fin 10, F32.fin 12, F32.fin 0, F32.fin 0⟩], F32.fin 0⟩
      = ⟨[⟨F32.fin (23 / 2), F32.nan, F32.fin (2831155 / 2097152), F32.nan⟩,
        ⟨F32.fin (27 / 2), F32.nan, F32.fin (2831155 / 2097152), F32.nan⟩,
        ⟨F32.fin (23 / 2), F32.nan, F32.fin (2831155 / 2097152), F32.nan⟩], F32.fin 0⟩ := by
  have f32_mul_0 : (F32.fin (3 / 2) : F32) * (F32.fin 1) = F32.fin (3 / 2) := by
    rw [F32.fin_mul_fin]
    apply rnd32_pos _ 0 12582912 <;> norm_num [abs_lt]
  have f32_add_1 : (F32.fin 0 : F32) + (F32.fin (3 / 2)) = F32.fin (3 / 2) := by
    rw [F32.fin_add_fin]
    apply rnd32_pos _ 0 12582912 <;> norm_num [abs_lt]
  have f32_mul_2 : (F32.fin (3 / 2) : F32) * (F32.fin 0) = F32.fin 0 := by
    rw [F32.fin_mul_fin]
    rw [show ((3 / 2) * 0 : ℚ) = 0 from by norm_num]
    exact rnd32_zero
  have f32_add_3 : (F32.fin (2 ^ 127) : F32) + (F32.fin 0) = F32.fin (2 ^ 127) := by
    rw [F32.fin_add_fin]
    apply rnd32_pos _ 127 8388608 <;> norm_num [abs_lt]
  have f32_add_4 : (F32.fin (-(2 ^ 127)) : F32) + (F32.fin 0) = F32.fin (-(2 ^ 127)) := by
    rw [F32.fin_add_fin]
    apply rnd32_neg _ 127 (-8388608) <;> norm_num [abs_lt]
  have f32_add_62 : (F32.fin 0 : F32) + (F32.fin 0) = F32.fin 0 := by
    rw [F32.fin_add_fin]
    rw [show (0 + 0 : ℚ) = 0 from by norm_num]
    exact rnd32_zero
  have f32_mul_5 : (F32.fin 2 : F32) * (F32.fin 3) = F32.fin 6 := by
    rw [F32.fin_mul_fin]
    apply rnd32_pos _ 2 12582912 <;> norm_num [abs_lt]
  have f32_mul_6 : (F32.fin 6 : F32) * (F32.fin (3 / 2)) = F32.fin 9 := by
    rw [F32.fin_mul_fin]
    apply rnd32_pos _ 3 9437184 <;> norm_num [abs_lt]
  have f32_mul_7 : (F32.fin 9 : F32) * (F32.fin 9) = F32.fin 81 := by
    rw [F32.fin_mul_fin]
    apply rnd32_pos _ 6 10616832 <;> norm_num [abs_lt]
  have f32_sub_8 : (F32.fin 12 : F32) - (F32.fin 10) = F32.fin 2 := by
    rw [F32.fin_sub_fin]
    apply rnd32_pos _ 1 8388608 <;> norm_num [abs_lt]
  have f32_sub_9 : (F32.fin 10 : F32) - (F32.fin 10) = F32.fin 0 := by
    rw [F32.fin_sub_fin]
    rw [show (10 + -10 : ℚ) = 0 from by norm_num]
    exact rnd32_zero
  have f32_mul_10 : (F32.fin 2 : F32) * (F32.fin 2) = F32.fin 4 := by
    rw [F32.fin_mul_fin]
    apply rnd32_pos _ 2 8388608 <;> norm_num [abs_lt]
  have f32_mul_11 : (F32.fin 0 : F32) * (F32.fin 0) = F32.fin 0 := by
    rw [F32.fin_mul_fin]
    rw [show (0 * 0 : ℚ) = 0 from by norm_num]
    exact rnd32_zero
  have f32_add_12 : (F32.fin 4 : F32) + (F32.fin 0) = F32.fin 4 := by
    rw [F32.fin_add_fin]
    apply rnd32_pos _ 2 8388608 <;> norm_num [abs_lt]
  have f32_lt_13 : (F32.fin 4 : F32) < F32.fin 81 := by
    rw [F32.fin_lt_fin]
    norm_num
  have f32_lt_14 : (F32.fin (13743895 / 137438953472) : F32) < F32.fin 4 := by
    rw [F32.fin_lt_fin]
    norm_num
  have f32_sub_15 : (F32.fin (3 / 2) : F32) - (F32.fin (3 / 2)) = F32.fin 0 := by
    rw [F32.fin_sub_fin]
    rw [show ((3 / 2) + -(3 / 2) : ℚ) = 0 from by norm_num]
    exact rnd32_zero
  have f32_sub_16 : (F32.fin (-(2 ^ 127)) : F32) - (F32.fin (2 ^ 127)) = F32.ninf := by
    rw [F32.fin_sub_fin]
    apply rnd32_overflow_neg _ 128 (-8388608) <;> norm_num [abs_le, le_abs]
  have f32_mul_17 : (F32.fin (13421773 / 268435456) : F32) * (F32.fin 0) = F32.fin 0 := by
    rw [F32.fin_mul_fin]
    rw [show ((13421773 / 268435456) * 0 : ℚ) = 0 from by norm_num]
    exact rnd32_zero
  have f32_add_18 : (F32.fin (3 / 2) : F32) + (F32.fin 0) = F32.fin (3 / 2) := by
    rw [F32.fin_add_fin]
    apply rnd32_pos _ 0 12582912 <;> norm_num [abs_lt]
  have f32_mul_19 : (F32.fin (13421773 / 268435456) : F32) * (F32.ninf) = F32.ninf := by
    exact F32.pos_mul_ninf _ (by norm_num)
  have f32_add_20 : (F32.fin (2 ^ 127) : F32) + (F32.ninf) = F32.ninf := by
    rfl
  have f32_sub_21 : (F32.fin (3 / 2) : F32) - (F32.fin 0) = F32.fin (3 / 2) := by
    rw [F32.fin_sub_fin]
    apply rnd32_pos _ 0 12582912 <;> norm_num [abs_lt]
  have f32_sub_22 : (F32.fin (-(2 ^ 127)) : F32) - (F32.ninf) = F32.pinf := by
    rfl
  have f32_add_63 : (F32.fin 0 : F32) + (F32.fin 4) = F32.fin 4 := by
    rw [F32.fin_add_fin]
    apply rnd32_pos _ 2 8388608 <;> norm_num [abs_lt]
  have f32_sub_64 : (F32.fin 0 : F32) - (F32.ninf) = F32.pinf := by
    rfl
  have f32_mul_65 : (F32.fin (13421773 / 268435456) : F32) * (F32.pinf) = F32.pinf := by
    exact F32.pos_mul_pinf _ (by norm_num)
  have f32_add_66 : (F32.ninf : F32) + (F32.pinf) = F32.nan := by
    rfl
  have f32_sub_67 : (F32.fin 0 : F32) - (F32.pinf) = F32.ninf := by
    rfl
  have f32_sub_68 : (F32.fin 10 : F32) - (F32.fin 12) = F32.fin (-2) := by
    rw [F32.fin_sub_fin]
    apply rnd32_neg _ 1 (-8388608) <;> norm_num [abs_lt]
  have f32_mul_69 : (F32.fin (-2) : F32) * (F32.fin (-2)) = F32.fin 4 := by
    rw [F32.fin_mul_fin]
    apply rnd32_pos _ 2 8388608 <;> norm_num [abs_lt]
  have f32_add_70 : (F32.fin 4 : F32) + (F32.fin 4) = F32.fin 8 := by
    rw [F32.fin_add_fin]
    apply rnd32_pos _ 3 8388608 <;> norm_num [abs_lt]
  have f32_lt_71 : (F32.fin 8 : F32) < F32.fin 81 := by
    rw [F32.fin_lt_fin]
    norm_num
  have f32_lt_72 : (F32.fin (13743895 / 137438953472) : F32) < F32.fin 8 := by
    rw [F32.fin_lt_fin]
    norm_num
  have f32_sub_73 : (F32.ninf : F32) - (F32.pinf) = F32.ninf := by
    rfl
  have f32_add_74 : (F32.pinf : F32) + (F32.ninf) = F32.nan := by
    rfl
  have f32_sub_75 : (F32.ninf : F32) - (F32.ninf) = F32.nan := by
    rfl
  have f32_add_23 : (F32.fin 10 : F32) + (F32.fin (3 / 2)) = F32.fin (23 / 2) := by
    rw [F32.fin_add_fin]
    apply rnd32_pos _ 3 12058624 <;> norm_num [abs_lt]
  have f32_add_76 : (F32.fin 10 : F32) + (F32.nan) = F32.nan := by
    rfl
  have f32_add_25 : (F32.fin 12 : F32) + (F32.fin (3 / 2)) = F32.fin (27 / 2) := by
    rw [F32.fin_add_fin]
    apply rnd32_pos _ 3 14155776 <;> norm_num [abs_lt]
  have f32_add_77 : (F32.fin 12 : F32) + (F32.nan) = F32.nan := by
    rfl
  have f32_sub_27 : (F32.fin (27 / 2) : F32) - (F32.fin (23 / 2)) = F32.fin 2 := by
    rw [F32.fin_sub_fin]
    apply rnd32_pos _ 1 8388608 <;> norm_num [abs_lt]
  have f32_sub_78 : (F32.nan : F32) - (F32.nan) = F32.nan := by
    rfl
  have f32_mul_57 : (F32.nan : F32) * (F32.nan) = F32.nan := by
    rfl
  have f32_add_79 : (F32.fin 4 : F32) + (F32.nan) = F32.nan := by
    rfl
  have f32_sqrt_59 : CMath.sqrt (F32.nan : F32) = F32.nan := by
    rfl
  have f32_lt_80 : ¬ ((F32.nan : F32) < F32.fin 6) := by
    decide
  have f32_sub_81 : (F32.fin (23 / 2) : F32) - (F32.fin (23 / 2)) = F32.fin 0 := by
    rw [F32.fin_sub_fin]
    rw [show ((23 / 2) + -(23 / 2) : ℚ) = 0 from by norm_num]
    exact rnd32_zero
  have f32_add_58 : (F32.fin 0 : F32) + (F32.nan) = F32.nan := by
    rfl
  have f32_sub_82 : (F32.fin (23 / 2) : F32) - (F32.fin (27 / 2)) = F32.fin (-2) := by
    rw [F32.fin_sub_fin]
    apply rnd32_neg _ 1 (-8388608) <;> norm_num [abs_lt]
  have f32_lt_33 : ¬ ((F32.fin (23 / 2) : F32) < F32.fin 3) := by
    rw [F32.fin_lt_fin]
    norm_num
  have f32_lt_34 : ¬ ((F32.fin 125 : F32) < F32.fin (23 / 2)) := by
    rw [F32.fin_lt_fin]
    norm_num
  have f32_lt_83 : ¬ ((F32.nan : F32) < F32.fin 3) := by
    decide
  have f32_lt_84 : ¬ ((F32.fin 61 : F32) < F32.nan) := by
    decide
  have f32_mul_38 : (F32.fin (3 / 2) : F32) * (F32.fin (3 / 2)) = F32.fin (9 / 4) := by
    rw [F32.fin_mul_fin]
    apply rnd32_pos _ 1 9437184 <;> norm_num [abs_lt]
  have f32_add_85 : (F32.fin (9 / 4) : F32) + (F32.nan) = F32.nan := by
    rfl
  have f32_lt_86 : ¬ ((F32.fin 3 : F32) < F32.nan) := by
    decide
  have f32_mul_87 :
      (F32.fin (3 / 2) : F32) * (F32.fin (7549747 / 8388608))
        = F32.fin (2831155 / 2097152) := by
    rw [F32.fin_mul_fin]
    apply rnd32_pos_tie_down _ 0 11324620 <;> norm_num [abs_lt]
  have f32_mul_44 : (F32.nan : F32) * (F32.fin (7549747 / 8388608)) = F32.nan := by
    rfl
  have f32_fabs_88 : F32.fabs (F32.fin (2831155 / 2097152)) = F32.fin (2831155 / 2097152) := by
    show F32.fin |_| = _
    rw [abs_of_nonneg (by norm_num)]
  have f32_lt_89 : ¬ ((F32.fin (2831155 / 2097152) : F32) < F32.fin (13421773 / 134217728)) := by
    rw [F32.fin_lt_fin]
    norm_num
  have f32_fabs_47 : F32.fabs (F32.nan) = F32.nan := by
    rfl
  have f32_lt_48 : ¬ ((F32.nan : F32) < F32.fin (13421773 / 134217728)) := by
    decide
  have f32_lt_49 : ¬ ((F32.fin (27 / 2) : F32) < F32.fin 3) := by
    rw [F32.fin_lt_fin]
    norm_num
  have f32_lt_50 : ¬ ((F32.fin 125 : F32) < F32.fin (27 / 2)) := by
    rw [F32.fin_lt_fin]
    norm_num
  simp only [nextFrame, applyViscosity, List.map_cons, List.map_nil, forEachPair_single,
    forEachPair_two, forEachPair_three, resolveCollisions, COLLISION_ITERATIONS,
    Function.iterate_succ, Function.iterate_zero, Function.comp_apply, id_eq,
    collisionIteration, applyForces, updatePosition, viscosityPair, collidePair, dist,
    handleWallCollision, handleWallX, handleWallY, applyFrictionAndLimitSpeed,
    F32.cos_zero, F32.sin_zero, GRAVITY_FORCE_eq, VISCOSITY_eq, MAX_SPEED_eq, FRICTION_eq,
    minDist_f32, interactionRadiusSq_f32, radius_eq, right_wall_eq, floor_eq, zero_eq,
    lit_0_8, lit_0_5, lit_0_1, lit_0_0001, lit_2_0, lit_1_0, gt_iff_lt,
    and_true, true_and, and_false, false_and, if_true, if_false, not_true_eq_false,
    not_false_eq_true,
    f32_mul_0, f32_add_1, f32_mul_2, f32_add_3, f32_add_4, f32_add_62, f32_mul_5, f32_mul_6,
    f32_mul_7, f32_sub_8, f32_sub_9, f32_mul_10, f32_mul_11, f32_add_12, f32_lt_13, f32_lt_14,
    f32_sub_15, f32_sub_16, f32_mul_17, f32_add_18, f32_mul_19, f32_add_20, f32_sub_21,
    f32_sub_22, f32_add_63, f32_sub_64, f32_mul_65, f32_add_66, f32_sub_67, f32_sub_68,
    f32_mul_69, f32_add_70, f32_lt_71, f32_lt_72, f32_sub_73, f32_add_74, f32_sub_75,
    f32_add_23, f32_add_76, f32_add_25, f32_add_77, f32_sub_27, f32_sub_78, f32_mul_57,
    f32_add_79, f32_sqrt_59, f32_lt_80, f32_sub_81, f32_add_58, f32_sub_82, f32_lt_33,
    f32_lt_34, f32_lt_83, f32_lt_84, f32_mul_38, f32_add_85, f32_lt_86, f32_mul_87, f32_mul_44,
    f32_fabs_88, f32_lt_89, f32_fabs_47, f32_lt_48, f32_lt_49, f32_lt_50,]

/-- C1, counterexample. On the finite input of `nextFrame_overflow_triple` the frame ends
with `y = NaN` on every particle: neither `PARTICLE_RADIUS <= y` nor
`y <= HEIGHT - PARTICLE_RADIUS` holds. -/
theorem nextFrame_containment_nan :
    (nextFrame ⟨[⟨F32.fin 10, F32.fin 10, F32.fin 0, F32.fin (2 ^ 127)⟩,
        ⟨F32.fin 12, F32.fin 10, F32.fin 0, F32.fin (-(2 ^ 127))⟩,
        ⟨F32.fin 10, F32.fin 12, F32.fin 0, F32.fin 0⟩], F32.fin 0⟩).particles
      = [⟨F32.fin (23 / 2), F32.nan, F32.fin (2831155 / 2097152), F32.nan⟩,
        ⟨F32.fin (27 / 2), F32.nan, F32.fin (2831155 / 2097152), F32.nan⟩,
        ⟨F32.fin (23 / 2), F32.nan, F32.fin (2831155 / 2097152), F32.nan⟩] ∧
    ∀ p ∈ (nextFrame ⟨[⟨F32.fin 10, F32.fin 10, F32.fin 0, F32.fin (2 ^ 127)⟩,
        ⟨F32.fin 12, F32.fin 10, F32.fin 0, F32.fin (-(2 ^ 127))⟩,
        ⟨F32.fin 10, F32.fin 12, F32.fin 0, F32.fin 0⟩], F32.fin 0⟩).particles,
      p.y = F32.nan ∧ ¬ (((PARTICLE_RADIUS : Int) : F32) ≤ p.y) ∧
        ¬ (p.y ≤ ((HEIGHT - PARTICLE_RADIUS : Int) : F32)) := by
  have f32_le_90 : ¬ ((F32.fin 3 : F32) ≤ F32.nan) := by
    decide
  have f32_le_91 : ¬ ((F32.nan : F32) ≤ F32.fin 61) := by
    decide
  rw [nextFrame_overflow_triple]
  refine ⟨rfl, ?_⟩
  intro p hp
  simp only [List.mem_cons, List.mem_singleton, List.not_mem_nil, or_false] at hp
  rcases hp with rfl | rfl | rfl <;>
    simp only [radius_eq, floor_eq,
    f32_le_90, f32_le_91,
      not_false_eq_true, and_self]

/-- A frame on one particle at `(64, 32)` with velocity `(6.5, 15)`, direction 0: the force
gives the velocity `(8, 15)` of speed 17, the rescale multiplies by `fl(3 / 17)` and the
friction by `0.9f`. -/
theorem nextFrame_eight_fifteen :
    nextFrame ⟨[⟨F32.fin 64, F32.fin 32, F32.fin (13 / 2), F32.fin 15⟩], F32.fin 0⟩
      = ⟨[⟨F32.fin 72, F32.fin 47, F32.fin (10658467 / 8388608), F32.fin (9992313 / 4194304)⟩], F32.fin 0⟩ := by
  have f32_mul_0 : (F32.fin (3 / 2) : F32) * (F32.fin 1) = F32.fin (3 / 2) := by
    rw [F32.fin_mul_fin]
    apply rnd32_pos _ 0 12582912 <;> norm_num [abs_lt]
  have f32_add_92 : (F32.fin (13 / 2) : F32) + (F32.fin (3 / 2)) = F32.fin 8 := by
    rw [F32.fin_add_fin]
    apply rnd32_pos _ 3 8388608 <;> norm_num [abs_lt]
  have f32_mul_2 : (F32.fin (3 / 2) : F32) * (F32.fin 0) = F32.fin 0 := by
    rw [F32.fin_mul_fin]
    rw [show ((3 / 2) * 0 : ℚ) = 0 from by norm_num]
    exact rnd32_zero
  have f32_add_93 : (F32.fin 15 : F32) + (F32.fin 0) = F32.fin 15 := by
    rw [F32.fin_add_fin]
    apply rnd32_pos _ 3 15728640 <;> norm_num [abs_lt]
  have f32_mul_5 : (F32.fin 2 : F32) * (F32.fin 3) = F32.fin 6 := by
    rw [F32.fin_mul_fin]
    apply rnd32_pos _ 2 12582912 <;> norm_num [abs_lt]
  have f32_mul_6 : (F32.fin 6 : F32) * (F32.fin (3 / 2)) = F32.fin 9 := by
    rw [F32.fin_mul_fin]
    apply rnd32_pos _ 3 9437184 <;> norm_num [abs_lt]
  have f32_mul_7 : (F32.fin 9 : F32) * (F32.fin 9) = F32.fin 81 := by
    rw [F32.fin_mul_fin]
    apply rnd32_pos _ 6 10616832 <;> norm_num [abs_lt]
  have f32_add_94 : (F32.fin 64 : F32) + (F32.fin 8) = F32.fin 72 := by
    rw [F32.fin_add_fin]
    apply rnd32_pos _ 6 9437184 <;> norm_num [abs_lt]
  have f32_add_95 : (F32.fin 32 : F32) + (F32.fin 15) = F32.fin 47 := by
    rw [F32.fin_add_fin]
    apply rnd32_pos _ 5 12320768 <;> norm_num [abs_lt]
  have f32_lt_96 : ¬ ((F32.fin 72 : F32) < F32.fin 3) := by
    rw [F32.fin_lt_fin]
    norm_num
  have f32_lt_97 : ¬ ((F32.fin 125 : F32) < F32.fin 72) := by
    rw [F32.fin_lt_fin]
    norm_num
  have f32_lt_98 : ¬ ((F32.fin 47 : F32) < F32.fin 3) := by
    rw [F32.fin_lt_fin]
    norm_num
  have f32_lt_99 : ¬ ((F32.fin 61 : F32) < F32.fin 47) := by
    rw [F32.fin_lt_fin]
    norm_num
  have f32_mul_100 : (F32.fin 8 : F32) * (F32.fin 8) = F32.fin 64 := by
    rw [F32.fin_mul_fin]
    apply rnd32_pos _ 6 8388608 <;> norm_num [abs_lt]
  have f32_mul_101 : (F32.fin 15 : F32) * (F32.fin 15) = F32.fin 225 := by
    rw [F32.fin_mul_fin]
    apply rnd32_pos _ 7 14745600 <;> norm_num [abs_lt]
  have f32_add_102 : (F32.fin 64 : F32) + (F32.fin 225) = F32.fin 289 := by
    rw [F32.fin_add_fin]
    apply rnd32_pos _ 8 9469952 <;> norm_num [abs_lt]
  have f32_sqrt_103 : CMath.sqrt (F32.fin 289 : F32) = F32.fin 17 := by
    apply F32.sqrt_eval _ 4 8912896 <;> norm_num [abs_lt]
  have f32_lt_104 : (F32.fin 3 : F32) < F32.fin 17 := by
    rw [F32.fin_lt_fin]
    norm_num
  have f32_div_105 : (F32.fin 3 : F32) / (F32.fin 17) = F32.fin (11842741 / 67108864) := by
    rw [F32.fin_div_fin _ _ (by norm_num)]
    apply rnd32_pos _ (-3) 11842741 <;> norm_num [abs_lt]
  have f32_mul_106 :
      (F32.fin 8 : F32) * (F32.fin (11842741 / 67108864))
        = F32.fin (11842741 / 8388608) := by
    rw [F32.fin_mul_fin]
    apply rnd32_pos _ 0 11842741 <;> norm_num [abs_lt]
  have f32_mul_107 :
      (F32.fin 15 : F32) * (F32.fin (11842741 / 67108864))
        = F32.fin (5551285 / 2097152) := by
    rw [F32.fin_mul_fin]
    apply rnd32_pos _ 1 11102570 <;> norm_num [abs_lt]
  have f32_mul_108 :
      (F32.fin (11842741 / 8388608) : F32) * (F32.fin (7549747 / 8388608))
        = F32.fin (10658467 / 8388608) := by
    rw [F32.fin_mul_fin]
    apply rnd32_pos _ 0 10658467 <;> norm_num [abs_lt]
  have f32_mul_109 :
      (F32.fin (5551285 / 2097152) : F32) * (F32.fin (7549747 / 8388608))
        = F32.fin (9992313 / 4194304) := by
    rw [F32.fin_mul_fin]
    apply rnd32_pos _ 1 9992313 <;> norm_num [abs_lt]
  have f32_fabs_110 : F32.fabs (F32.fin (10658467 / 8388608)) = F32.fin (10658467 / 8388608) := by
    show F32.fin |_| = _
    rw [abs_of_nonneg (by norm_num)]
  have f32_lt_111 : ¬ ((F32.fin (10658467 / 8388608) : F32) < F32.fin (13421773 / 134217728)) := by
    rw [F32.fin_lt_fin]
    norm_num
  have f32_fabs_112 : F32.fabs (F32.fin (9992313 / 4194304)) = F32.fin (9992313 / 4194304) := by
    show F32.fin |_| = _
    rw [abs_of_nonneg (by norm_num)]
  have f32_lt_113 : ¬ ((F32.fin (9992313 / 4194304) : F32) < F32.fin (13421773 / 134217728)) := by
    rw [F32.fin_lt_fin]
    norm_num
  simp only [nextFrame, applyViscosity, List.map_cons, List.map_nil, forEachPair_single,
    forEachPair_two, forEachPair_three, resolveCollisions, COLLISION_ITERATIONS,
    Function.iterate_succ, Function.iterate_zero, Function.comp_apply, id_eq,
    collisionIteration, applyForces, updatePosition, viscosityPair, collidePair, dist,
    handleWallCollision, handleWallX, handleWallY, applyFrictionAndLimitSpeed,
    F32.cos_zero, F32.sin_zero, GRAVITY_FORCE_eq, VISCOSITY_eq, MAX_SPEED_eq, FRICTION_eq,
    minDist_f32, interactionRadiusSq_f32, radius_eq, right_wall_eq, floor_eq, zero_eq,
    lit_0_8, lit_0_5, lit_0_1, lit_0_0001, lit_2_0, lit_1_0, gt_iff_lt,
    and_true, true_and, and_false, false_and, if_true, if_false, not_true_eq_false,
    not_false_eq_true,
    f32_mul_0, f32_add_92, f32_mul_2, f32_add_93, f32_mul_5, f32_mul_6, f32_mul_7, f32_add_94,
    f32_add_95, f32_lt_96, f32_lt_97, f32_lt_98, f32_lt_99, f32_mul_100, f32_mul_101,
    f32_add_102, f32_sqrt_103, f32_lt_104, f32_div_105, f32_mul_106, f32_mul_107, f32_mul_108,
    f32_mul_109, f32_fabs_110, f32_lt_111, f32_fabs_112, f32_lt_113,]

/-- C20, counterexample. After the frame of `nextFrame_eight_fifteen` the velocity is
`(1.27058828, 2.38235307)`: its exact squared length exceeds `2.7²`, the speed computed by
the program, `sqrt(vx * vx + vy * vy) = 2.70000029`, exceeds `2.7`, and it is not
`<= FRICTION * MAX_SPEED`, which is `2.69999981` on `float`. -/
theorem nextFrame_speed_above :
    (nextFrame ⟨[⟨F32.fin 64, F32.fin 32, F32.fin (13 / 2), F32.fin 15⟩], F32.fin 0⟩).particles
      = [⟨F32.fin 72, F32.fin 47, F32.fin (10658467 / 8388608), F32.fin (9992313 / 4194304)⟩] ∧
    ((27 / 10 : ℚ)) ^ 2 < (10658467 / 8388608) ^ 2 + (9992313 / 4194304) ^ 2 ∧
    CMath.sqrt ((F32.fin (10658467 / 8388608) : F32) * (F32.fin (10658467 / 8388608)) + (F32.fin (9992313 / 4194304)) * (F32.fin (9992313 / 4194304))) = F32.fin (5662311 / 2097152) ∧
    (27 / 10 : ℚ) < (5662311 / 2097152) ∧
    FRICTION * MAX_SPEED = F32.fin (2831155 / 1048576) ∧
    ¬ (CMath.sqrt ((F32.fin (10658467 / 8388608) : F32) * (F32.fin (10658467 / 8388608)) + (F32.fin (9992313 / 4194304)) * (F32.fin (9992313 / 4194304))) ≤ FRICTION * MAX_SPEED) := by
  have f32_mul_114 :
      (F32.fin (10658467 / 8388608) : F32) * (F32.fin (10658467 / 8388608))
        = F32.fin (13542523 / 8388608) := by
    rw [F32.fin_mul_fin]
    apply rnd32_pos _ 0 13542523 <;> norm_num [abs_lt]
  have f32_mul_115 :
      (F32.fin (9992313 / 4194304) : F32) * (F32.fin (9992313 / 4194304))
        = F32.fin (11902609 / 2097152) := by
    rw [F32.fin_mul_fin]
    apply rnd32_pos _ 2 11902609 <;> norm_num [abs_lt]
  have f32_add_116 :
      (F32.fin (13542523 / 8388608) : F32) + (F32.fin (11902609 / 2097152))
        = F32.fin (955515 / 131072) := by
    rw [F32.fin_add_fin]
    apply rnd32_pos _ 2 15288240 <;> norm_num [abs_lt]
  have f32_sqrt_117 :
      CMath.sqrt (F32.fin (955515 / 131072) : F32)
        = F32.fin (5662311 / 2097152) := by
    apply F32.sqrt_eval _ 1 11324622 <;> norm_num [abs_lt]
  have f32_mul_118 :
      (F32.fin (7549747 / 8388608) : F32) * (F32.fin 3)
        = F32.fin (2831155 / 1048576) := by
    rw [F32.fin_mul_fin]
    apply rnd32_pos_tie_down _ 1 11324620 <;> norm_num [abs_lt]
  have f32_le_119 : ¬ ((F32.fin (5662311 / 2097152) : F32) ≤ F32.fin (2831155 / 1048576)) := by
    rw [F32.fin_le_fin]
    norm_num
  rw [nextFrame_eight_fifteen]
  refine ⟨rfl, by norm_num, ?_, by norm_num, ?_, ?_⟩ <;>
    simp only [MAX_SPEED_eq, FRICTION_eq,
    f32_mul_114, f32_mul_115, f32_add_116, f32_sqrt_117, f32_mul_118, f32_le_119,
      not_false_eq_true]

/-- The collision body on the pair `(10, 10)`, `(12, 10)` with velocities `(1, 0)` and
`(-1, 0)`: `1.0f + 0.8f` is a tie that rounds to `1.79999995`, so each velocity changes by
that amount. -/
theorem collidePair_head_on :
    collidePair ⟨F32.fin 10, F32.fin 10, F32.fin 1, F32.fin 0⟩ ⟨F32.fin 12, F32.fin 10, F32.fin (-1), F32.fin 0⟩
      = (⟨F32.fin 8, F32.fin 10, F32.fin (-(3355443 / 4194304)), F32.fin 0⟩, ⟨F32.fin 14, F32.fin 10, F32.fin (3355443 / 4194304), F32.fin 0⟩) := by
  have f32_sub_8 : (F32.fin 12 : F32) - (F32.fin 10) = F32.fin 2 := by
    rw [F32.fin_sub_fin]
    apply rnd32_pos _ 1 8388608 <;> norm_num [abs_lt]
  have f32_sub_9 : (F32.fin 10 : F32) - (F32.fin 10) = F32.fin 0 := by
    rw [F32.fin_sub_fin]
    rw [show (10 + -10 : ℚ) = 0 from by norm_num]
    exact rnd32_zero
  have f32_mul_10 : (F32.fin 2 : F32) * (F32.fin 2) = F32.fin 4 := by
    rw [F32.fin_mul_fin]
    apply rnd32_pos _ 2 8388608 <;> norm_num [abs_lt]
  have f32_mul_11 : (F32.fin 0 : F32) * (F32.fin 0) = F32.fin 0 := by
    rw [F32.fin_mul_fin]
    rw [show (0 * 0 : ℚ) = 0 from by norm_num]
    exact rnd32_zero
  have f32_add_12 : (F32.fin 4 : F32) + (F32.fin 0) = F32.fin 4 := by
    rw [F32.fin_add_fin]
    apply rnd32_pos _ 2 8388608 <;> norm_num [abs_lt]
  have f32_sqrt_120 : CMath.sqrt (F32.fin 4 : F32) = F32.fin 2 := by
    apply F32.sqrt_eval _ 1 8388608 <;> norm_num [abs_lt]
  have f32_mul_5 : (F32.fin 2 : F32) * (F32.fin 3) = F32.fin 6 := by
    rw [F32.fin_mul_fin]
    apply rnd32_pos _ 2 12582912 <;> norm_num [abs_lt]
  have f32_lt_121 : (F32.fin 2 : F32) < F32.fin 6 := by
    rw [F32.fin_lt_fin]
    norm_num
  have f32_lt_122 : (F32.fin 0 : F32) < F32.fin 2 := by
    rw [F32.fin_lt_fin]
    norm_num
  have f32_sub_123 : (F32.fin 6 : F32) - (F32.fin 2) = F32.fin 4 := by
    rw [F32.fin_sub_fin]
    apply rnd32_pos _ 2 8388608 <;> norm_num [abs_lt]
  have f32_div_124 : (F32.fin 2 : F32) / (F32.fin 2) = F32.fin 1 := by
    rw [F32.fin_div_fin _ _ (by norm_num)]
    apply rnd32_pos _ 0 8388608 <;> norm_num [abs_lt]
  have f32_div_125 : (F32.fin 0 : F32) / (F32.fin 2) = F32.fin 0 := by
    rw [F32.fin_div_fin _ _ (by norm_num)]
    rw [show (0 / 2 : ℚ) = 0 from by norm_num]
    exact rnd32_zero
  have f32_div_126 : (F32.fin 4 : F32) / (F32.fin 2) = F32.fin 2 := by
    rw [F32.fin_div_fin _ _ (by norm_num)]
    apply rnd32_pos _ 1 8388608 <;> norm_num [abs_lt]
  have f32_mul_127 : (F32.fin 2 : F32) * (F32.fin 1) = F32.fin 2 := by
    rw [F32.fin_mul_fin]
    apply rnd32_pos _ 1 8388608 <;> norm_num [abs_lt]
  have f32_sub_128 : (F32.fin 10 : F32) - (F32.fin 2) = F32.fin 8 := by
    rw [F32.fin_sub_fin]
    apply rnd32_pos _ 3 8388608 <;> norm_num [abs_lt]
  have f32_mul_129 : (F32.fin 2 : F32) * (F32.fin 0) = F32.fin 0 := by
    rw [F32.fin_mul_fin]
    rw [show (2 * 0 : ℚ) = 0 from by norm_num]
    exact rnd32_zero
  have f32_sub_130 : (F32.fin 10 : F32) - (F32.fin 0) = F32.fin 10 := by
    rw [F32.fin_sub_fin]
    apply rnd32_pos _ 3 10485760 <;> norm_num [abs_lt]
  have f32_add_131 : (F32.fin 12 : F32) + (F32.fin 2) = F32.fin 14 := by
    rw [F32.fin_add_fin]
    apply rnd32_pos _ 3 14680064 <;> norm_num [abs_lt]
  have f32_add_132 : (F32.fin 10 : F32) + (F32.fin 0) = F32.fin 10 := by
    rw [F32.fin_add_fin]
    apply rnd32_pos _ 3 10485760 <;> norm_num [abs_lt]
  have f32_sub_133 : (F32.fin (-1) : F32) - (F32.fin 1) = F32.fin (-2) := by
    rw [F32.fin_sub_fin]
    apply rnd32_neg _ 1 (-8388608) <;> norm_num [abs_lt]
  have f32_sub_134 : (F32.fin 0 : F32) - (F32.fin 0) = F32.fin 0 := by
    rw [F32.fin_sub_fin]
    rw [show (0 + -0 : ℚ) = 0 from by norm_num]
    exact rnd32_zero
  have f32_mul_135 : (F32.fin (-2) : F32) * (F32.fin 1) = F32.fin (-2) := by
    rw [F32.fin_mul_fin]
    apply rnd32_neg _ 1 (-8388608) <;> norm_num [abs_lt]
  have f32_add_136 : (F32.fin (-2) : F32) + (F32.fin 0) = F32.fin (-2) := by
    rw [F32.fin_add_fin]
    apply rnd32_neg _ 1 (-8388608) <;> norm_num [abs_lt]
  have f32_lt_137 : (F32.fin (-2) : F32) < F32.fin 0 := by
    rw [F32.fin_lt_fin]
    norm_num
  have f32_add_138 :
      (F32.fin 1 : F32) + (F32.fin (13421773 / 16777216))
        = F32.fin (7549747 / 4194304) := by
    rw [F32.fin_add_fin]
    apply rnd32_pos_tie_down _ 0 15099494 <;> norm_num [abs_lt]
  have f32_neg_139 : -(F32.fin (7549747 / 4194304) : F32) = F32.fin (-(7549747 / 4194304)) := by
    exact F32.neg_fin _
  have f32_mul_140 :
      (F32.fin (-(7549747 / 4194304)) : F32) * (F32.fin (-2))
        = F32.fin (7549747 / 2097152) := by
    rw [F32.fin_mul_fin]
    apply rnd32_pos _ 1 15099494 <;> norm_num [abs_lt]
  have f32_div_141 :
      (F32.fin (7549747 / 2097152) : F32) / (F32.fin 2)
        = F32.fin (7549747 / 4194304) := by
    rw [F32.fin_div_fin _ _ (by norm_num)]
    apply rnd32_pos _ 0 15099494 <;> norm_num [abs_lt]
  have f32_mul_142 :
      (F32.fin (7549747 / 4194304) : F32) * (F32.fin 1)
        = F32.fin (7549747 / 4194304) := by
    rw [F32.fin_mul_fin]
    apply rnd32_pos _ 0 15099494 <;> norm_num [abs_lt]
  have f32_mul_143 : (F32.fin (7549747 / 4194304) : F32) * (F32.fin 0) = F32.fin 0 := by
    rw [F32.fin_mul_fin]
    rw [show ((7549747 / 4194304) * 0 : ℚ) = 0 from by norm_num]
    exact rnd32_zero
  have f32_sub_144 :
      (F32.fin 1 : F32) - (F32.fin (7549747 / 4194304))
        = F32.fin (-(3355443 / 4194304)) := by
    rw [F32.fin_sub_fin]
    apply rnd32_neg _ (-1) (-13421772) <;> norm_num [abs_lt]
  have f32_add_145 :
      (F32.fin (-1) : F32) + (F32.fin (7549747 / 4194304))
        = F32.fin (3355443 / 4194304) := by
    rw [F32.fin_add_fin]
    apply rnd32_pos _ (-1) 13421772 <;> norm_num [abs_lt]
  have f32_add_62 : (F32.fin 0 : F32) + (F32.fin 0) = F32.fin 0 := by
    rw [F32.fin_add_fin]
    rw [show (0 + 0 : ℚ) = 0 from by norm_num]
    exact rnd32_zero
  simp only [nextFrame, applyViscosity, List.map_cons, List.map_nil, forEachPair_single,
    forEachPair_two, forEachPair_three, resolveCollisions, COLLISION_ITERATIONS,
    Function.iterate_succ, Function.iterate_zero, Function.comp_apply, id_eq,
    collisionIteration, applyForces, updatePosition, viscosityPair, collidePair, dist,
    handleWallCollision, handleWallX, handleWallY, applyFrictionAndLimitSpeed,
    F32.cos_zero, F32.sin_zero, GRAVITY_FORCE_eq, VISCOSITY_eq, MAX_SPEED_eq, FRICTION_eq,
    minDist_f32, interactionRadiusSq_f32, radius_eq, right_wall_eq, floor_eq, zero_eq,
    lit_0_8, lit_0_5, lit_0_1, lit_0_0001, lit_2_0, lit_1_0, gt_iff_lt,
    and_true, true_and, and_false, false_and, if_true, if_false, not_true_eq_false,
    not_false_eq_true,
    f32_sub_8, f32_sub_9, f32_mul_10, f32_mul_11, f32_add_12, f32_sqrt_120, f32_mul_5,
    f32_lt_121, f32_lt_122, f32_sub_123, f32_div_124, f32_div_125, f32_div_126, f32_mul_127,
    f32_sub_128, f32_mul_129, f32_sub_130, f32_add_131, f32_add_132, f32_sub_133, f32_sub_134,
    f32_mul_135, f32_add_136, f32_lt_137, f32_add_138, f32_neg_139, f32_mul_140, f32_div_141,
    f32_mul_142, f32_mul_143, f32_sub_144, f32_add_145, f32_add_62,]

/-- C13, counterexample. For the head-on pair of `collidePair_head_on` the normal is
`(1, 0)` and `v_n = -2`; after the pair is resolved the relative velocity along the normal
is `1.5999999`, which is neither the number `-0.8 * v_n = 1.6` nor the `float` product
`-0.8f * v_n = 1.60000002`. -/
theorem collidePair_impulse_rounded :
    collidePair ⟨F32.fin 10, F32.fin 10, F32.fin 1, F32.fin 0⟩ ⟨F32.fin 12, F32.fin 10, F32.fin (-1), F32.fin 0⟩
      = (⟨F32.fin 8, F32.fin 10, F32.fin (-(3355443 / 4194304)), F32.fin 0⟩, ⟨F32.fin 14, F32.fin 10, F32.fin (3355443 / 4194304), F32.fin 0⟩) ∧
    dist ⟨F32.fin 10, F32.fin 10, F32.fin 1, F32.fin 0⟩ ⟨F32.fin 12, F32.fin 10, F32.fin (-1), F32.fin 0⟩ = F32.fin 2 ∧
    (F32.fin 2 : F32) / (F32.fin 2) = F32.fin 1 ∧ (F32.fin 0 : F32) / (F32.fin 2) = F32.fin 0 ∧
    ((F32.fin (-1) : F32) - (F32.fin 1)) * (F32.fin 1) + ((F32.fin 0 : F32) - (F32.fin 0)) * (F32.fin 0) = F32.fin (-2) ∧
    ((F32.fin (3355443 / 4194304) : F32) - (F32.fin (-(3355443 / 4194304)))) * (F32.fin 1) + ((F32.fin 0 : F32) - (F32.fin 0)) * (F32.fin 0) = F32.fin (3355443 / 2097152) ∧
    -(0.8 : F32) * (F32.fin (-2)) = F32.fin (13421773 / 8388608) ∧
    ((3355443 / 2097152) : ℚ) ≠ -(8 / 10 : ℚ) * (-2) ∧ ((3355443 / 2097152) : ℚ) ≠ (13421773 / 8388608) := by
  have f32_sub_8 : (F32.fin 12 : F32) - (F32.fin 10) = F32.fin 2 := by
    rw [F32.fin_sub_fin]
    apply rnd32_pos _ 1 8388608 <;> norm_num [abs_lt]
  have f32_sub_9 : (F32.fin 10 : F32) - (F32.fin 10) = F32.fin 0 := by
    rw [F32.fin_sub_fin]
    rw [show (10 + -10 : ℚ) = 0 from by norm_num]
    exact rnd32_zero
  have f32_mul_10 : (F32.fin 2 : F32) * (F32.fin 2) = F32.fin 4 := by
    rw [F32.fin_mul_fin]
    apply rnd32_pos _ 2 8388608 <;> norm_num [abs_lt]
  have f32_mul_11 : (F32.fin 0 : F32) * (F32.fin 0) = F32.fin 0 := by
    rw [F32.fin_mul_fin]
    rw [show (0 * 0 : ℚ) = 0 from by norm_num]
    exact rnd32_zero
  have f32_add_12 : (F32.fin 4 : F32) + (F32.fin 0) = F32.fin 4 := by
    rw [F32.fin_add_fin]
    apply rnd32_pos _ 2 8388608 <;> norm_num [abs_lt]
  have f32_sqrt_120 : CMath.sqrt (F32.fin 4 : F32) = F32.fin 2 := by
    apply F32.sqrt_eval _ 1 8388608 <;> norm_num [abs_lt]
  have f32_div_124 : (F32.fin 2 : F32) / (F32.fin 2) = F32.fin 1 := by
    rw [F32.fin_div_fin _ _ (by norm_num)]
    apply rnd32_pos _ 0 8388608 <;> norm_num [abs_lt]
  have f32_div_125 : (F32.fin 0 : F32) / (F32.fin 2) = F32.fin 0 := by
    rw [F32.fin_div_fin _ _ (by norm_num)]
    rw [show (0 / 2 : ℚ) = 0 from by norm_num]
    exact rnd32_zero
  have f32_sub_133 : (F32.fin (-1) : F32) - (F32.fin 1) = F32.fin (-2) := by
    rw [F32.fin_sub_fin]
    apply rnd32_neg _ 1 (-8388608) <;> norm_num [abs_lt]
  have f32_mul_135 : (F32.fin (-2) : F32) * (F32.fin 1) = F32.fin (-2) := by
    rw [F32.fin_mul_fin]
    apply rnd32_neg _ 1 (-8388608) <;> norm_num [abs_lt]
  have f32_sub_134 : (F32.fin 0 : F32) - (F32.fin 0) = F32.fin 0 := by
    rw [F32.fin_sub_fin]
    rw [show (0 + -0 : ℚ) = 0 from by norm_num]
    exact rnd32_zero
  have f32_add_136 : (F32.fin (-2) : F32) + (F32.fin 0) = F32.fin (-2) := by
    rw [F32.fin_add_fin]
    apply rnd32_neg _ 1 (-8388608) <;> norm_num [abs_lt]
  have f32_sub_146 :
      (F32.fin (3355443 / 4194304) : F32) - (F32.fin (-(3355443 / 4194304)))
        = F32.fin (3355443 / 2097152) := by
    rw [F32.fin_sub_fin]
    apply rnd32_pos _ 0 13421772 <;> norm_num [abs_lt]
  have f32_mul_147 :
      (F32.fin (3355443 / 2097152) : F32) * (F32.fin 1)
        = F32.fin (3355443 / 2097152) := by
    rw [F32.fin_mul_fin]
    apply rnd32_pos _ 0 13421772 <;> norm_num [abs_lt]
  have f32_add_148 :
      (F32.fin (3355443 / 2097152) : F32) + (F32.fin 0)
        = F32.fin (3355443 / 2097152) := by
    rw [F32.fin_add_fin]
    apply rnd32_pos _ 0 13421772 <;> norm_num [abs_lt]
  have f32_neg_149 : -(F32.fin (13421773 / 16777216) : F32) = F32.fin (-(13421773 / 16777216)) := by
    exact F32.neg_fin _
  have f32_mul_150 :
      (F32.fin (-(13421773 / 16777216)) : F32) * (F32.fin (-2))
        = F32.fin (13421773 / 8388608) := by
    rw [F32.fin_mul_fin]
    apply rnd32_pos _ 0 13421773 <;> norm_num [abs_lt]
  refine ⟨collidePair_head_on, ?_, ?_, ?_, ?_, ?_, ?_, by norm_num, by norm_num⟩ <;>
    simp only [dist, lit_0_8,
    f32_sub_8, f32_sub_9, f32_mul_10, f32_mul_11, f32_add_12, f32_sqrt_120, f32_div_124,
    f32_div_125, f32_sub_133, f32_mul_135, f32_sub_134, f32_add_136, f32_sub_146, f32_mul_147,
    f32_add_148, f32_neg_149, f32_mul_150,]

/-- C18, counterexample. The viscosity pass on two particles at `(10, 10)` and `(12, 10)`
with `vx = 1.99999952` and `vx = 2.00000119`: the first `vx` is rounded up to `1.99999964`,
the second one, in the binade with the coarser spacing, is rounded back to itself, and the
sum of `vx² + vy²` over the two particles is larger after the pass than before it. -/
theorem applyViscosity_energy_rounded :
    applyViscosity ⟨[⟨F32.fin 10, F32.fin 10, F32.fin (4194303 / 2097152), F32.fin 0⟩,
        ⟨F32.fin 12, F32.fin 10, F32.fin (8388613 / 4194304), F32.fin 0⟩], F32.fin 0⟩
      = ⟨[⟨F32.fin 10, F32.fin 10, F32.fin (16777213 / 8388608), F32.fin 0⟩,
        ⟨F32.fin 12, F32.fin 10, F32.fin (8388613 / 4194304), F32.fin 0⟩], F32.fin 0⟩ ∧
    ((((4194303 / 2097152) ^ 2 + 0 ^ 2) + ((8388613 / 4194304) ^ 2 + 0 ^ 2) : ℚ)) < ((16777213 / 8388608) ^ 2 + 0 ^ 2) + ((8388613 / 4194304) ^ 2 + 0 ^ 2) := by
  have f32_mul_5 : (F32.fin 2 : F32) * (F32.fin 3) = F32.fin 6 := by
    rw [F32.fin_mul_fin]
    apply rnd32_pos _ 2 12582912 <;> norm_num [abs_lt]
  have f32_mul_6 : (F32.fin 6 : F32) * (F32.fin (3 / 2)) = F32.fin 9 := by
    rw [F32.fin_mul_fin]
    apply rnd32_pos _ 3 9437184 <;> norm_num [abs_lt]
  have f32_mul_7 : (F32.fin 9 : F32) * (F32.fin 9) = F32.fin 81 := by
    rw [F32.fin_mul_fin]
    apply rnd32_pos _ 6 10616832 <;> norm_num [abs_lt]
  have f32_sub_8 : (F32.fin 12 : F32) - (F32.fin 10) = F32.fin 2 := by
    rw [F32.fin_sub_fin]
    apply rnd32_pos _ 1 8388608 <;> norm_num [abs_lt]
  have f32_sub_9 : (F32.fin 10 : F32) - (F32.fin 10) = F32.fin 0 := by
    rw [F32.fin_sub_fin]
    rw [show (10 + -10 : ℚ) = 0 from by norm_num]
    exact rnd32_zero
  have f32_mul_10 : (F32.fin 2 : F32) * (F32.fin 2) = F32.fin 4 := by
    rw [F32.fin_mul_fin]
    apply rnd32_pos _ 2 8388608 <;> norm_num [abs_lt]
  have f32_mul_11 : (F32.fin 0 : F32) * (F32.fin 0) = F32.fin 0 := by
    rw [F32.fin_mul_fin]
    rw [show (0 * 0 : ℚ) = 0 from by norm_num]
    exact rnd32_zero
  have f32_add_12 : (F32.fin 4 : F32) + (F32.fin 0) = F32.fin 4 := by
    rw [F32.fin_add_fin]
    apply rnd32_pos _ 2 8388608 <;> norm_num [abs_lt]
  have f32_lt_13 : (F32.fin 4 : F32) < F32.fin 81 := by
    rw [F32.fin_lt_fin]
    norm_num
  have f32_lt_14 : (F32.fin (13743895 / 137438953472) : F32) < F32.fin 4 := by
    rw [F32.fin_lt_fin]
    norm_num
  have f32_sub_151 :
      (F32.fin (8388613 / 4194304) : F32) - (F32.fin (4194303 / 2097152))
        = F32.fin (7 / 4194304) := by
    rw [F32.fin_sub_fin]
    apply rnd32_pos _ (-20) 14680064 <;> norm_num [abs_lt]
  have f32_sub_134 : (F32.fin 0 : F32) - (F32.fin 0) = F32.fin 0 := by
    rw [F32.fin_sub_fin]
    rw [show (0 + -0 : ℚ) = 0 from by norm_num]
    exact rnd32_zero
  have f32_mul_152 :
      (F32.fin (13421773 / 268435456) : F32) * (F32.fin (7 / 4194304))
        = F32.fin (11744051 / 140737488355328) := by
    rw [F32.fin_mul_fin]
    apply rnd32_pos _ (-24) 11744051 <;> norm_num [abs_lt]
  have f32_add_153 :
      (F32.fin (4194303 / 2097152) : F32) + (F32.fin (11744051 / 140737488355328))
        = F32.fin (16777213 / 8388608) := by
    rw [F32.fin_add_fin]
    apply rnd32_pos _ 0 16777213 <;> norm_num [abs_lt]
  have f32_mul_17 : (F32.fin (13421773 / 268435456) : F32) * (F32.fin 0) = F32.fin 0 := by
    rw [F32.fin_mul_fin]
    rw [show ((13421773 / 268435456) * 0 : ℚ) = 0 from by norm_num]
    exact rnd32_zero
  have f32_add_62 : (F32.fin 0 : F32) + (F32.fin 0) = F32.fin 0 := by
    rw [F32.fin_add_fin]
    rw [show (0 + 0 : ℚ) = 0 from by norm_num]
    exact rnd32_zero
  have f32_sub_154 :
      (F32.fin (8388613 / 4194304) : F32) - (F32.fin (11744051 / 140737488355328))
        = F32.fin (8388613 / 4194304) := by
    rw [F32.fin_sub_fin]
    apply rnd32_pos _ 1 8388613 <;> norm_num [abs_lt]
  refine ⟨?_, by norm_num⟩
  simp only [nextFrame, applyViscosity, List.map_cons, List.map_nil, forEachPair_single,
    forEachPair_two, forEachPair_three, resolveCollisions, COLLISION_ITERATIONS,
    Function.iterate_succ, Function.iterate_zero, Function.comp_apply, id_eq,
    collisionIteration, applyForces, updatePosition, viscosityPair, collidePair, dist,
    handleWallCollision, handleWallX, handleWallY, applyFrictionAndLimitSpeed,
    F32.cos_zero, F32.sin_zero, GRAVITY_FORCE_eq, VISCOSITY_eq, MAX_SPEED_eq, FRICTION_eq,
    minDist_f32, interactionRadiusSq_f32, radius_eq, right_wall_eq, floor_eq, zero_eq,
    lit_0_8, lit_0_5, lit_0_1, lit_0_0001, lit_2_0, lit_1_0, gt_iff_lt,
    and_true, true_and, and_false, false_and, if_true, if_false, not_true_eq_false,
    not_false_eq_true,
    f32_mul_5, f32_mul_6, f32_mul_7, f32_sub_8, f32_sub_9, f32_mul_10, f32_mul_11, f32_add_12,
    f32_lt_13, f32_lt_14, f32_sub_151, f32_sub_134, f32_mul_152, f32_add_153, f32_mul_17,
    f32_add_62, f32_sub_154,]

/-- One iteration of the collision loop on `float`, on two particles at rest at `(10, 10)`
and `(11, 11)`: the distance `1.41421354` is below `minDist = 6`, and the corrected
positions are at distance `6.00000095`, above `minDist`. -/
theorem collisionIteration_diagonal :
    collisionIteration [⟨F32.fin 10, F32.fin 10, F32.fin 0, F32.fin 0⟩,
        ⟨F32.fin 11, F32.fin 11, F32.fin 0, F32.fin 0⟩]
      = [⟨F32.fin (4392841 / 524288), F32.fin (4392841 / 524288), F32.fin 0, F32.fin 0⟩,
        ⟨F32.fin (6617207 / 524288), F32.fin (6617207 / 524288), F32.fin 0, F32.fin 0⟩] ∧
    dist ⟨F32.fin 10, F32.fin 10, F32.fin 0, F32.fin 0⟩ ⟨F32.fin 11, F32.fin 11, F32.fin 0, F32.fin 0⟩ = F32.fin (11863283 / 8388608) ∧
    dist ⟨F32.fin (4392841 / 524288), F32.fin (4392841 / 524288), F32.fin 0, F32.fin 0⟩ ⟨F32.fin (6617207 / 524288), F32.fin (6617207 / 524288), F32.fin 0, F32.fin 0⟩ = F32.fin (6291457 / 1048576) ∧
    dist ⟨F32.fin 10, F32.fin 10, F32.fin 0, F32.fin 0⟩ ⟨F32.fin 11, F32.fin 11, F32.fin 0, F32.fin 0⟩ < minDist ∧
    ¬ (dist ⟨F32.fin (4392841 / 524288), F32.fin (4392841 / 524288), F32.fin 0, F32.fin 0⟩ ⟨F32.fin (6617207 / 524288), F32.fin (6617207 / 524288), F32.fin 0, F32.fin 0⟩ ≤ minDist) := by
  have f32_sub_155 : (F32.fin 11 : F32) - (F32.fin 10) = F32.fin 1 := by
    rw [F32.fin_sub_fin]
    apply rnd32_pos _ 0 8388608 <;> norm_num [abs_lt]
  have f32_mul_156 : (F32.fin 1 : F32) * (F32.fin 1) = F32.fin 1 := by
    rw [F32.fin_mul_fin]
    apply rnd32_pos _ 0 8388608 <;> norm_num [abs_lt]
  have f32_add_157 : (F32.fin 1 : F32) + (F32.fin 1) = F32.fin 2 := by
    rw [F32.fin_add_fin]
    apply rnd32_pos _ 1 8388608 <;> norm_num [abs_lt]
  have f32_sqrt_158 : CMath.sqrt (F32.fin 2 : F32) = F32.fin (11863283 / 8388608) := by
    apply F32.sqrt_eval _ 0 11863283 <;> norm_num [abs_lt]
  have f32_mul_5 : (F32.fin 2 : F32) * (F32.fin 3) = F32.fin 6 := by
    rw [F32.fin_mul_fin]
    apply rnd32_pos _ 2 12582912 <;> norm_num [abs_lt]
  have f32_lt_159 : (F32.fin (11863283 / 8388608) : F32) < F32.fin 6 := by
    rw [F32.fin_lt_fin]
    norm_num
  have f32_lt_160 : (F32.fin 0 : F32) < F32.fin (11863283 / 8388608) := by
    rw [F32.fin_lt_fin]
    norm_num
  have f32_sub_161 :
      (F32.fin 6 : F32) - (F32.fin (11863283 / 8388608))
        = F32.fin (9617091 / 2097152) := by
    rw [F32.fin_sub_fin]
    apply rnd32_pos _ 2 9617091 <;> norm_num [abs_lt]
  have f32_div_162 :
      (F32.fin 1 : F32) / (F32.fin (11863283 / 8388608))
        = F32.fin (11863283 / 16777216) := by
    rw [F32.fin_div_fin _ _ (by norm_num)]
    apply rnd32_pos _ (-1) 11863283 <;> norm_num [abs_lt]
  have f32_div_163 :
      (F32.fin (9617091 / 2097152) : F32) / (F32.fin 2)
        = F32.fin (9617091 / 4194304) := by
    rw [F32.fin_div_fin _ _ (by norm_num)]
    apply rnd32_pos _ 1 9617091 <;> norm_num [abs_lt]
  have f32_mul_164 :
      (F32.fin (9617091 / 4194304) : F32) * (F32.fin (11863283 / 16777216))
        = F32.fin (3400155 / 2097152) := by
    rw [F32.fin_mul_fin]
    apply rnd32_pos _ 0 13600620 <;> norm_num [abs_lt]
  have f32_sub_165 :
      (F32.fin 10 : F32) - (F32.fin (3400155 / 2097152))
        = F32.fin (4392841 / 524288) := by
    rw [F32.fin_sub_fin]
    apply rnd32_pos_tie_down _ 3 8785682 <;> norm_num [abs_lt]
  have f32_add_166 :
      (F32.fin 11 : F32) + (F32.fin (3400155 / 2097152))
        = F32.fin (6617207 / 524288) := by
    rw [F32.fin_add_fin]
    apply rnd32_pos_tie_up _ 3 13234414 <;> norm_num [abs_lt]
  have f32_sub_134 : (F32.fin 0 : F32) - (F32.fin 0) = F32.fin 0 := by
    rw [F32.fin_sub_fin]
    rw [show (0 + -0 : ℚ) = 0 from by norm_num]
    exact rnd32_zero
  have f32_mul_167 : (F32.fin 0 : F32) * (F32.fin (11863283 / 16777216)) = F32.fin 0 := by
    rw [F32.fin_mul_fin]
    rw [show (0 * (11863283 / 16777216) : ℚ) = 0 from by norm_num]
    exact rnd32_zero
  have f32_add_62 : (F32.fin 0 : F32) + (F32.fin 0) = F32.fin 0 := by
    rw [F32.fin_add_fin]
    rw [show (0 + 0 : ℚ) = 0 from by norm_num]
    exact rnd32_zero
  have f32_lt_168 : ¬ ((F32.fin 0 : F32) < F32.fin 0) := by
    rw [F32.fin_lt_fin]
    norm_num
  have f32_sub_169 :
      (F32.fin (6617207 / 524288) : F32) - (F32.fin (4392841 / 524288))
        = F32.fin (1112183 / 262144) := by
    rw [F32.fin_sub_fin]
    apply rnd32_pos _ 2 8897464 <;> norm_num [abs_lt]
  have f32_mul_170 :
      (F32.fin (1112183 / 262144) : F32) * (F32.fin (1112183 / 262144))
        = F32.fin (9437187 / 524288) := by
    rw [F32.fin_mul_fin]
    apply rnd32_pos _ 4 9437187 <;> norm_num [abs_lt]
  have f32_add_171 :
      (F32.fin (9437187 / 524288) : F32) + (F32.fin (9437187 / 524288))
        = F32.fin (9437187 / 262144) := by
    rw [F32.fin_add_fin]
    apply rnd32_pos _ 5 9437187 <;> norm_num [abs_lt]
  have f32_sqrt_172 :
      CMath.sqrt (F32.fin (9437187 / 262144) : F32)
        = F32.fin (6291457 / 1048576) := by
    apply F32.sqrt_eval _ 2 12582914 <;> norm_num [abs_lt]
  have f32_le_173 : ¬ ((F32.fin (6291457 / 1048576) : F32) ≤ F32.fin 6) := by
    rw [F32.fin_le_fin]
    norm_num
  refine ⟨?_, ?_, ?_, ?_, ?_⟩
  · simp only [nextFrame, applyViscosity, List.map_cons, List.map_nil, forEachPair_single,
    forEachPair_two, forEachPair_three, resolveCollisions, COLLISION_ITERATIONS,
    Function.iterate_succ, Function.iterate_zero, Function.comp_apply, id_eq,
    collisionIteration, applyForces, updatePosition, viscosityPair, collidePair, dist,
    handleWallCollision, handleWallX, handleWallY, applyFrictionAndLimitSpeed,
    F32.cos_zero, F32.sin_zero, GRAVITY_FORCE_eq, VISCOSITY_eq, MAX_SPEED_eq, FRICTION_eq,
    minDist_f32, interactionRadiusSq_f32, radius_eq, right_wall_eq, floor_eq, zero_eq,
    lit_0_8, lit_0_5, lit_0_1, lit_0_0001, lit_2_0, lit_1_0, gt_iff_lt,
    and_true, true_and, and_false, false_and, if_true, if_false, not_true_eq_false,
    not_false_eq_true,
    f32_sub_155, f32_mul_156, f32_add_157, f32_sqrt_158, f32_mul_5, f32_lt_159, f32_lt_160,
    f32_sub_161, f32_div_162, f32_div_163, f32_mul_164, f32_sub_165, f32_add_166, f32_sub_134,
    f32_mul_167, f32_add_62, f32_lt_168,]
  all_goals
    simp only [dist, minDist_f32,
    f32_sub_155, f32_mul_156, f32_add_157, f32_sqrt_158, f32_sub_169, f32_mul_170, f32_add_171,
    f32_sqrt_172, f32_mul_5, f32_lt_159, f32_le_173,
      not_false_eq_true]

end Float32

namespace Float32

/-! ## Containment and deadzone on `float` -/

/-- Every particle of the list returned by a frame on `float` comes out of the last stage:
wall handling followed by friction. -/
theorem mem_nextFrame_float (s : Simulation F32) (p : Particle F32)
    (hp : p ∈ (nextFrame s).particles) :
    ∃ q : Particle F32, p = applyFrictionAndLimitSpeed (handleWallCollision q) := by
  unfold nextFrame at hp
  simp only [List.mem_map] at hp
  obtain ⟨q, -, hq⟩ := hp
  exact ⟨q, hq.symm⟩

/-- The function `applyFrictionAndLimitSpeed` on `float` is its three stages in turn. -/
theorem applyFrictionAndLimitSpeed_stages_float (p : Particle F32) :
    applyFrictionAndLimitSpeed p = applyDeadzone (applyFriction (limitSpeed p)) := by
  unfold applyFrictionAndLimitSpeed applyDeadzone applyFriction limitSpeed
  simp only
  split_ifs <;> rfl

theorem applyFrictionAndLimitSpeed_x_float (p : Particle F32) :
    (applyFrictionAndLimitSpeed p).x = p.x := by
  unfold applyFrictionAndLimitSpeed
  simp only
  split_ifs <;> rfl

theorem applyFrictionAndLimitSpeed_y_float (p : Particle F32) :
    (applyFrictionAndLimitSpeed p).y = p.y := by
  unfold applyFrictionAndLimitSpeed
  simp only
  split_ifs <;> rfl

/-- The clamp of one coordinate between two finite walls `lo <= hi`: a NaN stays NaN (both
tests are false on it), every other value, the infinities included, ends in `[lo, hi]`. -/
theorem clamp_float (lo hi : ℚ) (h : lo ≤ hi) (x : F32) :
    (if x < F32.fin lo then F32.fin lo else if x > F32.fin hi then F32.fin hi else x) = F32.nan ∨
    (F32.fin lo ≤ (if x < F32.fin lo then F32.fin lo else if x > F32.fin hi then F32.fin hi else x)
      ∧ (if x < F32.fin lo then F32.fin lo else if x > F32.fin hi then F32.fin hi else x)
        ≤ F32.fin hi) := by
  cases x with
  | nan => left; rfl
  | pinf =>
    right
    have h1 : ¬ ((F32.pinf : F32) < F32.fin lo) := Bool.false_ne_true
    have h2 : (F32.pinf : F32) > F32.fin hi := rfl
    rw [if_neg h1, if_pos h2, F32.fin_le_fin, F32.fin_le_fin]
    exact ⟨h, le_refl _⟩
  | ninf =>
    right
    have h1 : (F32.ninf : F32) < F32.fin lo := rfl
    rw [if_pos h1, F32.fin_le_fin, F32.fin_le_fin]
    exact ⟨le_refl _, h⟩
  | fin q =>
    right
    by_cases h1 : q < lo
    · rw [if_pos ((F32.fin_lt_fin _ _).mpr h1), F32.fin_le_fin, F32.fin_le_fin]
      exact ⟨le_refl _, h⟩
    · rw [if_neg (fun hc => h1 ((F32.fin_lt_fin _ _).mp hc))]
      by_cases h2 : hi < q
      · rw [if_pos ((F32.fin_lt_fin _ _).mpr h2), F32.fin_le_fin, F32.fin_le_fin]
        exact ⟨h, le_refl _⟩
      · rw [if_neg (fun hc => h2 ((F32.fin_lt_fin _ _).mp hc)), F32.fin_le_fin, F32.fin_le_fin]
        exact ⟨not_lt.mp h1, not_lt.mp h2⟩

theorem handleWallX_x_float (p : Particle F32) :
    (handleWallX p).x
      = if p.x < F32.fin 3 then F32.fin 3 else if p.x > F32.fin 125 then F32.fin 125 else p.x := by
  unfold handleWallX
  simp only [radius_eq, right_wall_eq]
  split_ifs <;> rfl

theorem handleWallY_y_float (p : Particle F32) :
    (handleWallY p).y
      = if p.y < F32.fin 3 then F32.fin 3 else if p.y > F32.fin 61 then F32.fin 61 else p.y := by
  unfold handleWallY
  simp only [radius_eq, floor_eq]
  split_ifs <;> rfl

theorem handleWallY_x_float (p : Particle F32) : (handleWallY p).x = p.x := by
  unfold handleWallY
  split_ifs <;> rfl

/-- C1, as amended. Containment on `float`: after one `nextFrame`, whatever the particle
list and the gravity direction, every particle whose `x` is not NaN has `3 <= x <= 125`
and every particle whose `y` is not NaN has `3 <= y <= 61`; the bounds are the `float`
values of `PARTICLE_RADIUS`, `WIDTH - PARTICLE_RADIUS` and `HEIGHT - PARTICLE_RADIUS`. -/
theorem nextFrame_contained_or_nan (s : Simulation F32) (p : Particle F32)
    (hp : p ∈ (nextFrame s).particles) :
    ((p.x = F32.nan ∨ (F32.fin 3 ≤ p.x ∧ p.x ≤ F32.fin 125)) ∧
      (p.y = F32.nan ∨ (F32.fin 3 ≤ p.y ∧ p.y ≤ F32.fin 61))) ∧
    (((PARTICLE_RADIUS : Int) : F32) = F32.fin 3 ∧
      ((WIDTH - PARTICLE_RADIUS : Int) : F32) = F32.fin 125 ∧
      ((HEIGHT - PARTICLE_RADIUS : Int) : F32) = F32.fin 61) := by
  obtain ⟨q, rfl⟩ := mem_nextFrame_float s p hp
  refine ⟨⟨?_, ?_⟩, radius_eq, right_wall_eq, floor_eq⟩
  · rw [applyFrictionAndLimitSpeed_x_float, handleWallCollision, handleWallY_x_float,
      handleWallX_x_float]
    exact clamp_float 3 125 (by norm_num) _
  · rw [applyFrictionAndLimitSpeed_y_float, handleWallCollision, handleWallY_y_float]
    exact clamp_float 3 61 (by norm_num) _

/-- Witness of C1 as amended: the frame of `nextFrame_eight_fifteen`, which ends at
`(72, 47)`. -/
theorem nextFrame_contained_or_nan_witness :
    (⟨F32.fin 72, F32.fin 47, F32.fin (10658467 / 8388608), F32.fin (9992313 / 4194304)⟩ :
        Particle F32)
      ∈ (nextFrame ⟨[⟨F32.fin 64, F32.fin 32, F32.fin (13 / 2), F32.fin 15⟩],
          F32.fin 0⟩).particles ∧
    ((((F32.fin 72 : F32) = F32.nan ∨ (F32.fin 3 ≤ (F32.fin 72 : F32) ∧
          (F32.fin 72 : F32) ≤ F32.fin 125)) ∧
      ((F32.fin 47 : F32) = F32.nan ∨ (F32.fin 3 ≤ (F32.fin 47 : F32) ∧
          (F32.fin 47 : F32) ≤ F32.fin 61))) ∧
    (((PARTICLE_RADIUS : Int) : F32) = F32.fin 3 ∧
      ((WIDTH - PARTICLE_RADIUS : Int) : F32) = F32.fin 125 ∧
      ((HEIGHT - PARTICLE_RADIUS : Int) : F32) = F32.fin 61)) :=
  have hmem : (⟨F32.fin 72, F32.fin 47, F32.fin (10658467 / 8388608),
        F32.fin (9992313 / 4194304)⟩ : Particle F32)
      ∈ (nextFrame ⟨[⟨F32.fin 64, F32.fin 32, F32.fin (13 / 2), F32.fin 15⟩],
          F32.fin 0⟩).particles := by
    rw [nextFrame_eight_fifteen]
    exact List.mem_singleton.mpr rfl
  ⟨hmem, nextFrame_contained_or_nan _ _ hmem⟩

/-- A component that went through the deadzone on `float` is 0, NaN, or at least `0.1f`
in absolute value. -/
theorem deadzone_trichotomy_float (w : F32) :
    (if F32.fabs w < 0.1 then 0 else w) = 0 ∨ (if F32.fabs w < 0.1 then 0 else w) = F32.nan ∨
      (0.1 : F32) ≤ F32.fabs (if F32.fabs w < 0.1 then 0 else w) := by
  by_cases h : F32.fabs w < 0.1
  · rw [if_pos h]
    exact Or.inl rfl
  · rw [if_neg h]
    rw [lit_0_1] at h ⊢
    cases w with
    | nan => exact Or.inr (Or.inl rfl)
    | pinf => exact Or.inr (Or.inr rfl)
    | ninf => exact Or.inr (Or.inr rfl)
    | fin q =>
      refine Or.inr (Or.inr ?_)
      show (F32.fin (13421773 / 134217728) : F32) ≤ F32.fin |q|
      rw [F32.fin_le_fin]
      have h2 : ¬ ((F32.fin |q| : F32) < F32.fin (13421773 / 134217728)) := h
      rw [F32.fin_lt_fin] at h2
      exact not_lt.mp h2

/-- The deadzone on `float` gives 0 exactly when the absolute value is below `0.1f`. -/
theorem deadzone_eq_zero_iff_float (w : F32) :
    (if F32.fabs w < 0.1 then 0 else w) = 0 ↔ F32.fabs w < 0.1 := by
  by_cases h : F32.fabs w < 0.1
  · rw [if_pos h]
    exact ⟨fun _ => h, fun _ => rfl⟩
  · rw [if_neg h]
    constructor
    · intro hw
      rw [hw, zero_eq, lit_0_1] at h
      exact absurd ((F32.fin_lt_fin _ _).mpr (by norm_num)) h
    · intro hw
      exact absurd hw h

/-- C15, as amended. Velocity deadzone on `float`: after `nextFrame` each velocity
component of each particle is exactly 0, or NaN, or has absolute value at least `0.1f`;
and `applyFrictionAndLimitSpeed` zeroes a component exactly when its value after the speed
limit and the friction has absolute value below `0.1f`, and keeps that value otherwise. -/
theorem nextFrame_deadzone_or_nan (s : Simulation F32) (p : Particle F32)
    (hp : p ∈ (nextFrame s).particles) :
    ((p.vx = 0 ∨ p.vx = F32.nan ∨ (0.1 : F32) ≤ F32.fabs p.vx) ∧
      (p.vy = 0 ∨ p.vy = F32.nan ∨ (0.1 : F32) ≤ F32.fabs p.vy)) ∧
    ∀ q : Particle F32,
      ((applyFrictionAndLimitSpeed q).vx = 0 ↔
        F32.fabs (applyFriction (limitSpeed q)).vx < 0.1) ∧
      ((applyFrictionAndLimitSpeed q).vy = 0 ↔
        F32.fabs (applyFriction (limitSpeed q)).vy < 0.1) ∧
      (¬ F32.fabs (applyFriction (limitSpeed q)).vx < 0.1 →
        (applyFrictionAndLimitSpeed q).vx = (applyFriction (limitSpeed q)).vx) ∧
      (¬ F32.fabs (applyFriction (limitSpeed q)).vy < 0.1 →
        (applyFrictionAndLimitSpeed q).vy = (applyFriction (limitSpeed q)).vy) := by
  constructor
  · obtain ⟨r, rfl⟩ := mem_nextFrame_float s p hp
    rw [applyFrictionAndLimitSpeed_stages_float]
    exact ⟨deadzone_trichotomy_float _, deadzone_trichotomy_float _⟩
  · intro q
    rw [applyFrictionAndLimitSpeed_stages_float]
    refine ⟨deadzone_eq_zero_iff_float _, deadzone_eq_zero_iff_float _, ?_, ?_⟩
    · intro h
      exact if_neg h
    · intro h
      exact if_neg h

/-- Witness of C15 as amended: the frame of `nextFrame_eight_fifteen`, which ends with the
velocity `(1.27058828, 2.38235307)`. -/
theorem nextFrame_deadzone_or_nan_witness :
    (⟨F32.fin 72, F32.fin 47, F32.fin (10658467 / 8388608), F32.fin (9992313 / 4194304)⟩ :
        Particle F32)
      ∈ (nextFrame ⟨[⟨F32.fin 64, F32.fin 32, F32.fin (13 / 2), F32.fin 15⟩],
          F32.fin 0⟩).particles ∧
    ((((F32.fin (10658467 / 8388608) : F32) = 0 ∨
        (F32.fin (10658467 / 8388608) : F32) = F32.nan ∨
        (0.1 : F32) ≤ F32.fabs (F32.fin (10658467 / 8388608))) ∧
      ((F32.fin (9992313 / 4194304) : F32) = 0 ∨
        (F32.fin (9992313 / 4194304) : F32) = F32.nan ∨
        (0.1 : F32) ≤ F32.fabs (F32.fin (9992313 / 4194304)))) ∧
    ∀ q : Particle F32,
      ((applyFrictionAndLimitSpeed q).vx = 0 ↔
        F32.fabs (applyFriction (limitSpeed q)).vx < 0.1) ∧
      ((applyFrictionAndLimitSpeed q).vy = 0 ↔
        F32.fabs (applyFriction (limitSpeed q)).vy < 0.1) ∧
      (¬ F32.fabs (applyFriction (limitSpeed q)).vx < 0.1 →
        (applyFrictionAndLimitSpeed q).vx = (applyFriction (limitSpeed q)).vx) ∧
      (¬ F32.fabs (applyFriction (limitSpeed q)).vy < 0.1 →
        (applyFrictionAndLimitSpeed q).vy = (applyFriction (limitSpeed q)).vy)) :=
  have hmem : (⟨F32.fin 72, F32.fin 47, F32.fin (10658467 / 8388608),
        F32.fin (9992313 / 4194304)⟩ : Particle F32)
      ∈ (nextFrame ⟨[⟨F32.fin 64, F32.fin 32, F32.fin (13 / 2), F32.fin 15⟩],
          F32.fin 0⟩).particles := by
    rw [nextFrame_eight_fifteen]
    exact List.mem_singleton.mpr rfl
  ⟨hmem, nextFrame_deadzone_or_nan _ _ hmem⟩

end Float32

/-! ## The speed bound on `float`: the inequalities on the real numbers -/

section SpeedReal

/-- The computed speed of a velocity whose squared length is at most 8 is at most 3. -/
theorem speed_real_bound (x y a2 b2 s t : ℝ)
    (hxy : x * x + y * y ≤ 8)
    (ha : |a2 - x * x| ≤ x * x / 2 ^ 24 + 1 / 2 ^ 150)
    (hb : |b2 - y * y| ≤ y * y / 2 ^ 24 + 1 / 2 ^ 150)
    (hs : |s - (a2 + b2)| ≤ (a2 + b2) / 2 ^ 24 + 1 / 2 ^ 150)
    (ht : |t - Real.sqrt s| ≤ Real.sqrt s / 2 ^ 24 + 1 / 2 ^ 150) : t ≤ 3 := by
  have hxx : 0 ≤ x * x := mul_self_nonneg x
  have hyy : 0 ≤ y * y := mul_self_nonneg y
  have ha2 := (abs_le.mp ha).2
  have hb2 := (abs_le.mp hb).2
  have hs2 := (abs_le.mp hs).2
  have ht2 := (abs_le.mp ht).2
  have hs8 : s ≤ 841 / 100 := by
    norm_num at ha2 hb2 hs2 ⊢
    linarith
  have hrt : Real.sqrt s ≤ 29 / 10 := by
    rw [Real.sqrt_le_iff]
    constructor
    · norm_num
    · norm_num
      linarith
  norm_num at ht2 ⊢
  linarith

/-- The squared length of a velocity against its computed speed `σ <= M`. -/
theorem sq_sum_le_of_speed (a b a2 b2 s σ M : ℝ)
    (ha : |a2 - a * a| ≤ a * a / 2 ^ 24 + 1 / 2 ^ 150)
    (hb : |b2 - b * b| ≤ b * b / 2 ^ 24 + 1 / 2 ^ 150)
    (hs : |s - (a2 + b2)| ≤ (a2 + b2) / 2 ^ 24 + 1 / 2 ^ 150) (hs0 : 0 ≤ s)
    (hσ : |σ - Real.sqrt s| ≤ Real.sqrt s / 2 ^ 24 + 1 / 2 ^ 150)
    (hM : σ ≤ M) (hM3 : 3 ≤ M) :
    a * a + b * b ≤ 1001 / 1000 * (M * M) := by
  have hrt0 : 0 ≤ Real.sqrt s := Real.sqrt_nonneg s
  have hrt2 : Real.sqrt s * Real.sqrt s = s := Real.mul_self_sqrt hs0
  have ha1 := (abs_le.mp ha).1
  have hb1 := (abs_le.mp hb).1
  have hs1 := (abs_le.mp hs).1
  have hσ1 := (abs_le.mp hσ).1
  generalize Real.sqrt s = rt at hrt0 hrt2 hσ1
  have hrtM : rt ≤ 10001 / 10000 * M := by
    norm_num at hσ1 ⊢
    linarith
  have hQ : 9 ≤ M * M := by nlinarith
  have hsM : s ≤ (10001 / 10000 * M) * (10001 / 10000 * M) := by
    rw [← hrt2]
    exact mul_le_mul hrtM hrtM hrt0 (by linarith)
  have hsM2 : s ≤ 100020001 / 100000000 * (M * M) := by
    have : (10001 / 10000 * M) * (10001 / 10000 * M) = 100020001 / 100000000 * (M * M) := by
      ring
    linarith
  generalize M * M = Q at hQ hsM2 ⊢
  generalize a * a = aa at ha1 ⊢
  generalize b * b = bb at hb1 ⊢
  norm_num at ha1 hb1 hs1 ⊢
  linarith

/-- The size of the rounded scale `κ` of `3 / σ`. -/
theorem scale_abs (σ κ : ℝ) (hσ0 : 0 < σ)
    (hκ : |κ - 3 / σ| ≤ |3 / σ| / 2 ^ 24 + 1 / 2 ^ 150) :
    |κ| ≤ 3 / σ * (1 + 1 / 2 ^ 24) + 1 / 2 ^ 150 := by
  have h3σ0 : 0 < 3 / σ := div_pos (by norm_num) hσ0
  rw [abs_of_pos h3σ0] at hκ
  have h := abs_le.mp hκ
  generalize (3 : ℝ) / σ = g at h h3σ0 ⊢
  rw [abs_le]
  constructor
  · norm_num at h ⊢
    linarith [h.1]
  · norm_num at h ⊢
    linarith [h.2]

/-- A finite speed times `2^-150` is small. -/
theorem speed_eta (σ : ℝ) (hσ : σ < 2 ^ 128) : σ * (1 / 2 ^ 150) ≤ 1 / 2 ^ 22 := by
  have h1 : σ * (1 / 2 ^ 150) ≤ 2 ^ 128 * (1 / 2 ^ 150) :=
    mul_le_mul_of_nonneg_right hσ.le (by positivity)
  have h2 : (2 : ℝ) ^ 128 * (1 / 2 ^ 150) = 1 / 2 ^ 22 := by norm_num
  rw [h2] at h1
  exact h1

/-- The exact product of a component `c` of size `w * σ` and the rounded scale `κ`. -/
theorem scaled_product (σ κ w c : ℝ) (hσ0 : 0 < σ)
    (hκabs : |κ| ≤ 3 / σ * (1 + 1 / 2 ^ 24) + 1 / 2 ^ 150)
    (hση : σ * (1 / 2 ^ 150) ≤ 1 / 2 ^ 22)
    (hw0 : 0 ≤ w) (hw1 : w ≤ 11 / 10) (hc : |c| = w * σ) :
    |c * κ| ≤ 3 * w * (1 + 1 / 2 ^ 24) + 11 / 10 * (1 / 2 ^ 22) := by
  have hσσ : σ * (3 / σ) = 3 := by
    field_simp
  rw [abs_mul, hc]
  have h2 : w * σ * |κ| ≤ w * σ * (3 / σ * (1 + 1 / 2 ^ 24) + 1 / 2 ^ 150) :=
    mul_le_mul_of_nonneg_left hκabs (mul_nonneg hw0 hσ0.le)
  have h3 : w * σ * (3 / σ * (1 + 1 / 2 ^ 24) + 1 / 2 ^ 150)
      = (σ * (3 / σ)) * w * (1 + 1 / 2 ^ 24) + w * (σ * (1 / 2 ^ 150)) := by
    generalize (3 : ℝ) / σ = g
    generalize (1 : ℝ) + 1 / 2 ^ 24 = e1
    generalize (1 : ℝ) / 2 ^ 150 = e2
    ring
  rw [hσσ] at h3
  have h4 : w * (σ * (1 / 2 ^ 150)) ≤ 11 / 10 * (1 / 2 ^ 22) :=
    mul_le_mul hw1 hση (mul_nonneg hσ0.le (by positivity)) (by norm_num)
  linarith

/-- A component `c` against the speed `σ`: `|c| = w * σ` with `0 <= w <= 1.1`. -/
theorem component_ratio (c σ : ℝ) (hσ0 : 0 < σ) (hc : c * c ≤ 1001 / 1000 * (σ * σ)) :
    ∃ w : ℝ, 0 ≤ w ∧ w ≤ 11 / 10 ∧ |c| = w * σ ∧ c * c = w * w * (σ * σ) := by
  refine ⟨|c| / σ, div_nonneg (abs_nonneg c) hσ0.le, ?_, by field_simp, ?_⟩
  · rw [div_le_iff₀ hσ0]
    have h0 : 0 ≤ 11 / 10 * σ := by linarith
    have h1 : |c| * |c| ≤ (11 / 10 * σ) * (11 / 10 * σ) := by
      rw [abs_mul_abs_self]
      nlinarith [mul_pos hσ0 hσ0]
    exact (mul_self_le_mul_self_iff (abs_nonneg c) h0).mpr h1
  · have h1 : |c| / σ * (|c| / σ) * (σ * σ) = |c| * |c| := by
      field_simp
    rw [h1, abs_mul_abs_self]

/-- The exact product of a component and the rounded scale is at most 4 in size. -/
theorem scaled_abs_bound (c σ κ : ℝ) (hσ3 : 3 < σ) (hσ : σ < 2 ^ 128)
    (hc : c * c ≤ 1001 / 1000 * (σ * σ))
    (hκ : |κ - 3 / σ| ≤ |3 / σ| / 2 ^ 24 + 1 / 2 ^ 150) :
    |c * κ| ≤ 4 := by
  have hσ0 : 0 < σ := by linarith
  obtain ⟨w, hw0, hw1, hcw, -⟩ := component_ratio c σ hσ0 hc
  have h := scaled_product σ κ w c hσ0 (scale_abs σ κ hσ0 hκ) (speed_eta σ hσ) hw0 hw1 hcw
  norm_num at h ⊢
  linarith

/-- One component after the rescale: `c` of size `w * σ`, times the rounded scale `κ`,
rounded to `z`. -/
theorem scaled_component (σ κ w c z : ℝ) (hσ0 : 0 < σ)
    (hκabs : |κ| ≤ 3 / σ * (1 + 1 / 2 ^ 24) + 1 / 2 ^ 150)
    (hση : σ * (1 / 2 ^ 150) ≤ 1 / 2 ^ 22)
    (hw0 : 0 ≤ w) (hw1 : w ≤ 11 / 10) (hc : |c| = w * σ)
    (hz : |z - c * κ| ≤ |c * κ| / 2 ^ 24 + 1 / 2 ^ 150) :
    |z| ≤ 3001 / 1000 * w + 1 / 2 ^ 20 := by
  have h1 := scaled_product σ κ w c hσ0 hκabs hση hw0 hw1 hc
  have h5 : |z| ≤ |c * κ| + |z - c * κ| := by
    have := abs_add (c * κ) (z - c * κ)
    simpa using this
  have h6 := abs_nonneg (c * κ)
  generalize |c * κ| = m at h1 hz h5 h6
  generalize |z - c * κ| = d at hz h5
  norm_num at h1 hz ⊢
  linarith

/-- The velocity after the rescale by the rounded `MAX_SPEED / speed`. -/
theorem scaled_sq_bound (a b σ κ x1 y1 : ℝ)
    (hσ3 : 3 < σ) (hσ : σ < 2 ^ 128) (hab : a * a + b * b ≤ 1001 / 1000 * (σ * σ))
    (hκ : |κ - 3 / σ| ≤ |3 / σ| / 2 ^ 24 + 1 / 2 ^ 150)
    (hx : |x1 - a * κ| ≤ |a * κ| / 2 ^ 24 + 1 / 2 ^ 150)
    (hy : |y1 - b * κ| ≤ |b * κ| / 2 ^ 24 + 1 / 2 ^ 150) :
    x1 * x1 + y1 * y1 ≤ 91 / 10 := by
  have hσ0 : 0 < σ := by linarith
  have hκabs := scale_abs σ κ hσ0 hκ
  have hση := speed_eta σ hσ
  have haa : a * a ≤ 1001 / 1000 * (σ * σ) := by linarith [mul_self_nonneg b]
  have hbb : b * b ≤ 1001 / 1000 * (σ * σ) := by linarith [mul_self_nonneg a]
  obtain ⟨u, hu0, hu1, hau, hau2⟩ := component_ratio a σ hσ0 haa
  obtain ⟨v, hv0, hv1, hbv, hbv2⟩ := component_ratio b σ hσ0 hbb
  have huv : u * u + v * v ≤ 1001 / 1000 := by
    rw [hau2, hbv2] at hab
    have h3 : (u * u + v * v) * (σ * σ) ≤ 1001 / 1000 * (σ * σ) := by
      have : (u * u + v * v) * (σ * σ) = u * u * (σ * σ) + v * v * (σ * σ) := by ring
      rw [this]
      exact hab
    exact le_of_mul_le_mul_right h3 (mul_pos hσ0 hσ0)
  have hx1 := scaled_component σ κ u a x1 hσ0 hκabs hση hu0 hu1 hau hx
  have hy1 := scaled_component σ κ v b y1 hσ0 hκabs hση hv0 hv1 hbv hy
  have hxx : x1 * x1 ≤ (3001 / 1000 * u + 1 / 2 ^ 20) * (3001 / 1000 * u + 1 / 2 ^ 20) := by
    rw [← abs_mul_abs_self x1]
    exact mul_le_mul hx1 hx1 (abs_nonneg _) (by linarith)
  have hyy : y1 * y1 ≤ (3001 / 1000 * v + 1 / 2 ^ 20) * (3001 / 1000 * v + 1 / 2 ^ 20) := by
    rw [← abs_mul_abs_self y1]
    exact mul_le_mul hy1 hy1 (abs_nonneg _) (by linarith)
  generalize x1 * x1 = X at hxx ⊢
  generalize y1 * y1 = Y at hyy ⊢
  norm_num at hxx hyy ⊢
  nlinarith

/-- The velocity after the friction. -/
theorem friction_sq_bound (x1 y1 x2 y2 : ℝ) (h : x1 * x1 + y1 * y1 ≤ 91 / 10)
    (hx : |x2 - x1 * (7549747 / 8388608)| ≤ |x1 * (7549747 / 8388608)| / 2 ^ 24 + 1 / 2 ^ 150)
    (hy : |y2 - y1 * (7549747 / 8388608)| ≤ |y1 * (7549747 / 8388608)| / 2 ^ 24 + 1 / 2 ^ 150) :
    x2 * x2 + y2 * y2 ≤ 8 := by
  have hx1 : |x1| ≤ 4 := by
    rw [abs_le]
    constructor <;> nlinarith [mul_self_nonneg y1, mul_self_nonneg (x1 + 4), mul_self_nonneg (x1 - 4)]
  have hy1 : |y1| ≤ 4 := by
    rw [abs_le]
    constructor <;> nlinarith [mul_self_nonneg x1, mul_self_nonneg (y1 + 4), mul_self_nonneg (y1 - 4)]
  have hone (z1 z2 : ℝ) (hz1 : |z1| ≤ 4)
      (hz : |z2 - z1 * (7549747 / 8388608)| ≤ |z1 * (7549747 / 8388608)| / 2 ^ 24 + 1 / 2 ^ 150) :
      |z2| ≤ 901 / 1000 * |z1| + 1 / 2 ^ 100 := by
    have h5 : |z2| ≤ |z1 * (7549747 / 8388608)| + |z2 - z1 * (7549747 / 8388608)| := by
      have := abs_add (z1 * (7549747 / 8388608)) (z2 - z1 * (7549747 / 8388608))
      simpa using this
    have h6 : |z1 * (7549747 / 8388608)| = |z1| * (7549747 / 8388608) := by
      rw [abs_mul, abs_of_pos (by norm_num : (0 : ℝ) < 7549747 / 8388608)]
    rw [h6] at h5 hz
    have h0 := abs_nonneg z1
    norm_num at hz ⊢
    linarith
  have hx2 := hone x1 x2 hx1 hx
  have hy2 := hone y1 y2 hy1 hy
  have hxx : x2 * x2 ≤ (901 / 1000 * |x1| + 1 / 2 ^ 100) * (901 / 1000 * |x1| + 1 / 2 ^ 100) := by
    rw [← abs_mul_abs_self x2]
    exact mul_le_mul hx2 hx2 (abs_nonneg _) (by positivity)
  have hyy : y2 * y2 ≤ (901 / 1000 * |y1| + 1 / 2 ^ 100) * (901 / 1000 * |y1| + 1 / 2 ^ 100) := by
    rw [← abs_mul_abs_self y2]
    exact mul_le_mul hy2 hy2 (abs_nonneg _) (by positivity)
  have hsq : |x1| * |x1| + |y1| * |y1| ≤ 91 / 10 := by
    rw [abs_mul_abs_self, abs_mul_abs_self]
    exact h
  have hax := abs_nonneg x1
  have hay := abs_nonneg y1
  generalize |x1| = p at hx1 hxx hsq hax
  generalize |y1| = q at hy1 hyy hsq hay
  nlinarith

end SpeedReal

/-! ## The speed bound on `float` -/

namespace Float32

/-- The computed speed of a finite velocity whose squared length is at most 8 is at
most 3. -/
theorem speed_le_of_sq_le (x y : ℚ) (h : (x : ℝ) * x + (y : ℝ) * y ≤ 8) :
    CMath.sqrt ((F32.fin x : F32) * F32.fin x + F32.fin y * F32.fin y) ≤ F32.fin 3 := by
  have hxx : (0 : ℝ) ≤ (x : ℝ) * x := mul_self_nonneg _
  have hyy : (0 : ℝ) ≤ (y : ℝ) * y := mul_self_nonneg _
  have hbig : (8 : ℝ) ≤ 2 ^ 100 := by norm_num
  obtain ⟨a2, hA, ha, ha0⟩ := F32.mul_moderate x x (by rw [abs_of_nonneg hxx]; linarith)
  obtain ⟨b2, hB, hb, hb0⟩ := F32.mul_moderate y y (by rw [abs_of_nonneg hyy]; linarith)
  rw [abs_of_nonneg hxx] at ha
  rw [abs_of_nonneg hyy] at hb
  have ha0R : (0 : ℝ) ≤ a2 := by exact_mod_cast ha0 (mul_self_nonneg x)
  have hb0R : (0 : ℝ) ≤ b2 := by exact_mod_cast hb0 (mul_self_nonneg y)
  have ha2 := (abs_le.mp ha).2
  have hb2 := (abs_le.mp hb).2
  have hsum : (a2 : ℝ) + b2 ≤ 9 := by
    norm_num at ha2 hb2 ⊢
    linarith
  have hbig9 : (9 : ℝ) ≤ 2 ^ 100 := by norm_num
  obtain ⟨s, hS, hs, hs0⟩ := F32.add_moderate a2 b2
    (by rw [abs_of_nonneg (add_nonneg ha0R hb0R)]; linarith)
  rw [abs_of_nonneg (add_nonneg ha0R hb0R)] at hs
  have hs0Q : 0 ≤ s := hs0 (add_nonneg (ha0 (mul_self_nonneg x)) (hb0 (mul_self_nonneg y)))
  have hs0R : (0 : ℝ) ≤ s := by exact_mod_cast hs0Q
  have hs2 := (abs_le.mp hs).2
  have hs10 : (s : ℝ) ≤ 10 := by
    norm_num at hs2 ⊢
    linarith
  have hsqrt : Real.sqrt s ≤ 2 ^ 100 := by
    rw [Real.sqrt_le_iff]
    constructor
    · positivity
    · have : (10 : ℝ) ≤ (2 ^ 100) ^ 2 := by norm_num
      linarith
  obtain ⟨t, hT, ht⟩ := F32.sqrt_moderate s hs0Q hsqrt
  rw [hA, hB, hS, hT, F32.fin_le_fin]
  have := speed_real_bound x y a2 b2 s t h ha hb hs ht
  exact_mod_cast this

/-- The speed computed from a finite velocity: `+inf` on overflow, otherwise a finite
`σ < 2^128` such that the squared length of the velocity is at most `1.001 * M²` for every
`M >= max(σ, 3)`. -/
theorem speed_cases (a b : ℚ) :
    CMath.sqrt ((F32.fin a : F32) * F32.fin a + F32.fin b * F32.fin b) = F32.pinf ∨
    ∃ σ : ℚ, σ < 2 ^ 128 ∧
      CMath.sqrt ((F32.fin a : F32) * F32.fin a + F32.fin b * F32.fin b) = F32.fin σ ∧
      ∀ M : ℝ, (σ : ℝ) ≤ M → 3 ≤ M →
        (a : ℝ) * a + (b : ℝ) * b ≤ 1001 / 1000 * (M * M) := by
  rcases F32.sq_cases a with hA | ⟨a2, ha0, hA, ha⟩
  · left
    rw [hA]
    rcases F32.sq_cases b with hB | ⟨b2, -, hB, -⟩ <;> rw [hB] <;> rfl
  · rcases F32.sq_cases b with hB | ⟨b2, hb0, hB, hb⟩
    · left
      rw [hA, hB]
      rfl
    · rw [hA, hB]
      rcases F32.add_nonneg_cases a2 b2 ha0 hb0 with hS | ⟨s, hs0, hS, hs⟩
      · left
        rw [hS]
        rfl
      · rw [hS]
        rcases F32.sqrt_cases s hs0 with hT | ⟨σ, -, hσ, hT, ht⟩
        · exact Or.inl hT
        · refine Or.inr ⟨σ, hσ, hT, ?_⟩
          intro M hM hM3
          have hs0R : (0 : ℝ) ≤ s := by exact_mod_cast hs0
          exact sq_sum_le_of_speed a b a2 b2 s σ M ha hb hs hs0R ht hM hM3

theorem limitSpeed_vx (q : Particle F32) :
    (limitSpeed q).vx
      = if CMath.sqrt (q.vx * q.vx + q.vy * q.vy) > MAX_SPEED
        then q.vx * (MAX_SPEED / CMath.sqrt (q.vx * q.vx + q.vy * q.vy)) else q.vx := by
  unfold limitSpeed
  simp only
  split_ifs <;> rfl

theorem limitSpeed_vy (q : Particle F32) :
    (limitSpeed q).vy
      = if CMath.sqrt (q.vx * q.vx + q.vy * q.vy) > MAX_SPEED
        then q.vy * (MAX_SPEED / CMath.sqrt (q.vx * q.vx + q.vy * q.vy)) else q.vy := by
  unfold limitSpeed
  simp only
  split_ifs <;> rfl

/-- The speed limit on a finite velocity returns a finite velocity of squared length at
most `9.1`; when the computed speed overflows to `+inf` the scale is 0 and so is the
velocity. -/
theorem limitSpeed_fin (x y : F32) (a b : ℚ) :
    ∃ a1 b1 : ℚ,
      (limitSpeed ⟨x, y, F32.fin a, F32.fin b⟩).vx = F32.fin a1 ∧
      (limitSpeed ⟨x, y, F32.fin a, F32.fin b⟩).vy = F32.fin b1 ∧
      (a1 : ℝ) * a1 + (b1 : ℝ) * b1 ≤ 91 / 10 := by
  rw [limitSpeed_vx, limitSpeed_vy]
  simp only [MAX_SPEED_eq]
  rcases speed_cases a b with h | ⟨σ, hσ, hsp, hchain⟩
  · rw [h]
    have hgt : (F32.pinf : F32) > F32.fin 3 := rfl
    have hscale : (F32.fin 3 : F32) / F32.pinf = F32.fin 0 := rfl
    have h0 (c : ℚ) : (F32.fin c : F32) * F32.fin 0 = F32.fin 0 := by
      rw [F32.fin_mul_fin, mul_zero]
      exact rnd32_zero
    rw [if_pos hgt, if_pos hgt, hscale, h0, h0]
    exact ⟨0, 0, rfl, rfl, by norm_num⟩
  · rw [hsp]
    by_cases h3 : (3 : ℚ) < σ
    · have hgt : (F32.fin σ : F32) > F32.fin 3 := (F32.fin_lt_fin _ _).mpr h3
      rw [if_pos hgt, if_pos hgt]
      have h3R : (3 : ℝ) < σ := by exact_mod_cast h3
      have hσR : (σ : ℝ) < 2 ^ 128 := by exact_mod_cast hσ
      have hσ0 : (0 : ℝ) < σ := by linarith
      have hab := hchain σ (le_refl _) h3R.le
      have hσne : σ ≠ 0 := by
        intro h
        rw [h] at h3
        norm_num at h3
      have h3σ : |((3 : ℚ) : ℝ) / σ| ≤ 2 ^ 100 := by
        rw [Rat.cast_ofNat, abs_of_pos (div_pos (by norm_num) hσ0)]
        have h1 : (3 : ℝ) / σ ≤ 1 := by
          rw [div_le_one hσ0]
          exact h3R.le
        have h2 : (1 : ℝ) ≤ 2 ^ 100 := by norm_num
        linarith
      obtain ⟨κ, hK, hκ⟩ := F32.div_moderate 3 σ hσne h3σ
      rw [Rat.cast_ofNat] at hκ
      rw [hK]
      have haa : (a : ℝ) * a ≤ 1001 / 1000 * ((σ : ℝ) * σ) := by
        linarith [mul_self_nonneg (b : ℝ)]
      have hbb : (b : ℝ) * b ≤ 1001 / 1000 * ((σ : ℝ) * σ) := by
        linarith [mul_self_nonneg (a : ℝ)]
      have h4 : (4 : ℝ) ≤ 2 ^ 100 := by norm_num
      obtain ⟨a1, hA1, ha1, -⟩ := F32.mul_moderate a κ
        (le_trans (scaled_abs_bound a σ κ h3R hσR haa hκ) h4)
      obtain ⟨b1, hB1, hb1, -⟩ := F32.mul_moderate b κ
        (le_trans (scaled_abs_bound b σ κ h3R hσR hbb hκ) h4)
      rw [hA1, hB1]
      exact ⟨a1, b1, rfl, rfl, scaled_sq_bound a b σ κ a1 b1 h3R hσR hab hκ ha1 hb1⟩
    · have hngt : ¬ ((F32.fin σ : F32) > F32.fin 3) := fun hc => h3 ((F32.fin_lt_fin _ _).mp hc)
      rw [if_neg hngt, if_neg hngt]
      refine ⟨a, b, rfl, rfl, ?_⟩
      have hσ3 : (σ : ℝ) ≤ 3 := by exact_mod_cast not_lt.mp h3
      exact le_trans (hchain 3 hσ3 (le_refl _)) (by norm_num)

theorem nan_mul_friction : (F32.nan : F32) * FRICTION = F32.nan := F32.nan_mul _

/-- The deadzone keeps a NaN: the test `fabs(v) < 0.1f` is false on it. -/
theorem deadzone_nan :
    (if F32.fabs (F32.nan : F32) < 0.1 then (0 : F32) else F32.nan) = F32.nan :=
  if_neg (F32.not_nan_lt _)

theorem applyFrictionAndLimitSpeed_vx_of_nan (q : Particle F32)
    (h : (limitSpeed q).vx = F32.nan) : (applyFrictionAndLimitSpeed q).vx = F32.nan := by
  rw [applyFrictionAndLimitSpeed_stages_float]
  show (if F32.fabs ((limitSpeed q).vx * FRICTION) < 0.1 then (0 : F32)
    else (limitSpeed q).vx * FRICTION) = F32.nan
  rw [h, nan_mul_friction]
  exact deadzone_nan

theorem applyFrictionAndLimitSpeed_vy_of_nan (q : Particle F32)
    (h : (limitSpeed q).vy = F32.nan) : (applyFrictionAndLimitSpeed q).vy = F32.nan := by
  rw [applyFrictionAndLimitSpeed_stages_float]
  show (if F32.fabs ((limitSpeed q).vy * FRICTION) < 0.1 then (0 : F32)
    else (limitSpeed q).vy * FRICTION) = F32.nan
  rw [h, nan_mul_friction]
  exact deadzone_nan

/-- The speed limit keeps a NaN component. -/
theorem limitSpeed_vx_nan (x y vy : F32) : (limitSpeed ⟨x, y, F32.nan, vy⟩).vx = F32.nan := by
  rw [limitSpeed_vx]
  split_ifs
  · exact F32.nan_mul _
  · rfl

theorem limitSpeed_vy_nan (x y vx : F32) : (limitSpeed ⟨x, y, vx, F32.nan⟩).vy = F32.nan := by
  rw [limitSpeed_vy]
  split_ifs
  · exact F32.nan_mul _
  · rfl

/-- An infinite component and a component that is not NaN give the speed `+inf`. -/
theorem speed_of_inf_left (vx vy : F32) (hx : vx = F32.pinf ∨ vx = F32.ninf)
    (hy : vy ≠ F32.nan) : CMath.sqrt (vx * vx + vy * vy) = F32.pinf := by
  have hxx : vx * vx = F32.pinf := by
    rcases hx with h | h <;> rw [h] <;> rfl
  rw [hxx]
  cases vy with
  | nan => exact absurd rfl hy
  | pinf => rfl
  | ninf => rfl
  | fin b =>
    rcases F32.sq_cases b with hB | ⟨b2, -, hB, -⟩ <;> rw [hB] <;> rfl

theorem speed_of_inf_right (a : ℚ) (vy : F32) (hy : vy = F32.pinf ∨ vy = F32.ninf) :
    CMath.sqrt ((F32.fin a : F32) * F32.fin a + vy * vy) = F32.pinf := by
  have hyy : vy * vy = F32.pinf := by
    rcases hy with h | h <;> rw [h] <;> rfl
  rw [hyy]
  rcases F32.sq_cases a with hA | ⟨a2, -, hA, -⟩ <;> rw [hA] <;> rfl

/-- With the speed `+inf` the scale `MAX_SPEED / speed` is 0, and an infinite component
times 0 is NaN. -/
theorem limitSpeed_vx_inf (x y vx vy : F32) (hx : vx = F32.pinf ∨ vx = F32.ninf)
    (hy : vy ≠ F32.nan) : (limitSpeed ⟨x, y, vx, vy⟩).vx = F32.nan := by
  rw [limitSpeed_vx]
  simp only [speed_of_inf_left vx vy hx hy, MAX_SPEED_eq]
  have hgt : (F32.pinf : F32) > F32.fin 3 := rfl
  have hscale : (F32.fin 3 : F32) / F32.pinf = F32.fin 0 := rfl
  rw [if_pos hgt, hscale]
  rcases hx with h | h <;> rw [h]
  · exact F32.pinf_mul_zero
  · exact F32.ninf_mul_zero

theorem limitSpeed_vy_inf (x y : F32) (a : ℚ) (vy : F32)
    (hy : vy = F32.pinf ∨ vy = F32.ninf) :
    (limitSpeed ⟨x, y, F32.fin a, vy⟩).vy = F32.nan := by
  rw [limitSpeed_vy]
  simp only [speed_of_inf_right a vy hy, MAX_SPEED_eq]
  have hgt : (F32.pinf : F32) > F32.fin 3 := rfl
  have hscale : (F32.fin 3 : F32) / F32.pinf = F32.fin 0 := rfl
  rw [if_pos hgt, hscale]
  rcases hy with h | h <;> rw [h]
  · exact F32.pinf_mul_zero
  · exact F32.ninf_mul_zero

/-- The function `applyFrictionAndLimitSpeed` on a finite velocity returns a finite
velocity of squared length at most 8. -/
theorem applyFrictionAndLimitSpeed_fin (x y : F32) (a b : ℚ) :
    ∃ a3 b3 : ℚ,
      (applyFrictionAndLimitSpeed ⟨x, y, F32.fin a, F32.fin b⟩).vx = F32.fin a3 ∧
      (applyFrictionAndLimitSpeed ⟨x, y, F32.fin a, F32.fin b⟩).vy = F32.fin b3 ∧
      (a3 : ℝ) * a3 + (b3 : ℝ) * b3 ≤ 8 := by
  obtain ⟨a1, b1, hA1, hB1, h1⟩ := limitSpeed_fin x y a b
  have ha1 : |(a1 : ℝ)| ≤ 4 := by
    rw [abs_le]
    constructor <;>
      nlinarith [mul_self_nonneg (b1 : ℝ), mul_self_nonneg ((a1 : ℝ) + 4),
        mul_self_nonneg ((a1 : ℝ) - 4)]
  have hb1 : |(b1 : ℝ)| ≤ 4 := by
    rw [abs_le]
    constructor <;>
      nlinarith [mul_self_nonneg (a1 : ℝ), mul_self_nonneg ((b1 : ℝ) + 4),
        mul_self_nonneg ((b1 : ℝ) - 4)]
  have hmod (c : ℚ) (hc : |(c : ℝ)| ≤ 4) :
      |(c : ℝ) * ((7549747 / 8388608 : ℚ) : ℝ)| ≤ 2 ^ 100 := by
    rw [abs_mul]
    have h2 : |(((7549747 / 8388608 : ℚ)) : ℝ)| ≤ 1 := by
      rw [abs_le]
      constructor <;> norm_num
    have h3 : |(c : ℝ)| * |(((7549747 / 8388608 : ℚ)) : ℝ)| ≤ 4 * 1 :=
      mul_le_mul hc h2 (abs_nonneg _) (by norm_num)
    have h4 : (4 : ℝ) * 1 ≤ 2 ^ 100 := by norm_num
    linarith
  obtain ⟨a2, hA2, ha2, -⟩ := F32.mul_moderate a1 (7549747 / 8388608) (hmod a1 ha1)
  obtain ⟨b2, hB2, hb2, -⟩ := F32.mul_moderate b1 (7549747 / 8388608) (hmod b1 hb1)
  have hcast : (((7549747 / 8388608 : ℚ)) : ℝ) = 7549747 / 8388608 := by norm_num
  rw [hcast] at ha2 hb2
  have h2 := friction_sq_bound a1 b1 a2 b2 h1 ha2 hb2
  have hdz (c : ℚ) :
      (if F32.fabs (F32.fin c) < (0.1 : F32) then (0 : F32) else F32.fin c)
        = F32.fin (if |c| < 13421773 / 134217728 then 0 else c) := by
    rw [lit_0_1, zero_eq]
    show (if (F32.fin |c| : F32) < F32.fin (13421773 / 134217728) then F32.fin 0
      else F32.fin c) = _
    by_cases hc : |c| < 13421773 / 134217728
    · rw [if_pos ((F32.fin_lt_fin _ _).mpr hc), if_pos hc]
    · rw [if_neg (fun h => hc ((F32.fin_lt_fin _ _).mp h)), if_neg hc]
  have hsq (c : ℚ) :
      (((if |c| < 13421773 / 134217728 then 0 else c : ℚ)) : ℝ) *
        (((if |c| < 13421773 / 134217728 then 0 else c : ℚ)) : ℝ) ≤ (c : ℝ) * c := by
    split_ifs
    · simpa using mul_self_nonneg (c : ℝ)
    · exact le_refl _
  refine ⟨if |a2| < 13421773 / 134217728 then 0 else a2,
    if |b2| < 13421773 / 134217728 then 0 else b2, ?_, ?_, ?_⟩
  · rw [applyFrictionAndLimitSpeed_stages_float]
    show (if F32.fabs ((limitSpeed ⟨x, y, F32.fin a, F32.fin b⟩).vx * FRICTION) < 0.1
      then (0 : F32) else (limitSpeed ⟨x, y, F32.fin a, F32.fin b⟩).vx * FRICTION) = _
    rw [hA1, FRICTION_eq, hA2]
    exact hdz a2
  · rw [applyFrictionAndLimitSpeed_stages_float]
    show (if F32.fabs ((limitSpeed ⟨x, y, F32.fin a, F32.fin b⟩).vy * FRICTION) < 0.1
      then (0 : F32) else (limitSpeed ⟨x, y, F32.fin a, F32.fin b⟩).vy * FRICTION) = _
    rw [hB1, FRICTION_eq, hB2]
    exact hdz b2
  · have := hsq a2
    have := hsq b2
    linarith

/-- After `applyFrictionAndLimitSpeed` on `float`, whatever the velocity before it, a
velocity component is NaN, or the velocity is finite, of exact squared length at most 8,
and the computed speed is at most `MAX_SPEED`. -/
theorem applyFrictionAndLimitSpeed_speed_float (q : Particle F32) :
    (applyFrictionAndLimitSpeed q).vx = F32.nan ∨ (applyFrictionAndLimitSpeed q).vy = F32.nan ∨
      ((∃ a b : ℚ, (applyFrictionAndLimitSpeed q).vx = F32.fin a ∧
          (applyFrictionAndLimitSpeed q).vy = F32.fin b ∧ a * a + b * b ≤ 8) ∧
        CMath.sqrt ((applyFrictionAndLimitSpeed q).vx * (applyFrictionAndLimitSpeed q).vx +
          (applyFrictionAndLimitSpeed q).vy * (applyFrictionAndLimitSpeed q).vy)
          ≤ MAX_SPEED) := by
  obtain ⟨x, y, vx, vy⟩ := q
  by_cases hy : vy = F32.nan
  · right; left
    rw [hy]
    exact applyFrictionAndLimitSpeed_vy_of_nan _ (limitSpeed_vy_nan x y vx)
  · cases vx with
    | nan => exact Or.inl (applyFrictionAndLimitSpeed_vx_of_nan _ (limitSpeed_vx_nan x y vy))
    | pinf =>
      exact Or.inl (applyFrictionAndLimitSpeed_vx_of_nan _
        (limitSpeed_vx_inf x y _ vy (Or.inl rfl) hy))
    | ninf =>
      exact Or.inl (applyFrictionAndLimitSpeed_vx_of_nan _
        (limitSpeed_vx_inf x y _ vy (Or.inr rfl) hy))
    | fin a =>
      cases vy with
      | nan => exact absurd rfl hy
      | pinf =>
        exact Or.inr (Or.inl (applyFrictionAndLimitSpeed_vy_of_nan _
          (limitSpeed_vy_inf x y a _ (Or.inl rfl))))
      | ninf =>
        exact Or.inr (Or.inl (applyFrictionAndLimitSpeed_vy_of_nan _
          (limitSpeed_vy_inf x y a _ (Or.inr rfl))))
      | fin b =>
        obtain ⟨a3, b3, hA, hB, h⟩ := applyFrictionAndLimitSpeed_fin x y a b
        right; right
        refine ⟨⟨a3, b3, hA, hB, ?_⟩, ?_⟩
        · have h8 : (((a3 * a3 + b3 * b3 : ℚ)) : ℝ) ≤ ((8 : ℚ) : ℝ) := by
            push_cast
            exact h
          exact Rat.cast_le.mp h8
        · rw [hA, hB, MAX_SPEED_eq]
          exact speed_le_of_sq_le a3 b3 h

/-- C2, as amended. Speed bound invariant on `float`: after one `nextFrame`, whatever the
particle list and the gravity direction, every particle has a velocity component that is
NaN, or has a finite velocity with `sqrt(vx * vx + vy * vy) <= MAX_SPEED = 3`, the speed
being computed as the program computes it; the exact squared length `vx² + vy²` of such a
velocity is at most 8, below `MAX_SPEED² = 9`. -/
theorem nextFrame_speed_or_nan (s : Simulation F32) (p : Particle F32)
    (hp : p ∈ (nextFrame s).particles) :
    (p.vx = F32.nan ∨ p.vy = F32.nan ∨
      ((∃ a b : ℚ, p.vx = F32.fin a ∧ p.vy = F32.fin b ∧ a * a + b * b ≤ 8) ∧
        CMath.sqrt (p.vx * p.vx + p.vy * p.vy) ≤ MAX_SPEED)) ∧
    MAX_SPEED = F32.fin 3 := by
  obtain ⟨q, rfl⟩ := mem_nextFrame_float s p hp
  exact ⟨applyFrictionAndLimitSpeed_speed_float _, MAX_SPEED_eq⟩

/-- Witness of C2 as amended: the frame of `nextFrame_eight_fifteen`, which ends with the
velocity `(1.27058828, 2.38235307)`. -/
theorem nextFrame_speed_or_nan_witness :
    (⟨F32.fin 72, F32.fin 47, F32.fin (10658467 / 8388608), F32.fin (9992313 / 4194304)⟩ :
        Particle F32)
      ∈ (nextFrame ⟨[⟨F32.fin 64, F32.fin 32, F32.fin (13 / 2), F32.fin 15⟩],
          F32.fin 0⟩).particles ∧
    (((F32.fin (10658467 / 8388608) : F32) = F32.nan ∨
        (F32.fin (9992313 / 4194304) : F32) = F32.nan ∨
        ((∃ a b : ℚ, (F32.fin (10658467 / 8388608) : F32) = F32.fin a ∧
            (F32.fin (9992313 / 4194304) : F32) = F32.fin b ∧ a * a + b * b ≤ 8) ∧
          CMath.sqrt ((F32.fin (10658467 / 8388608) : F32) * F32.fin (10658467 / 8388608) +
            F32.fin (9992313 / 4194304) * F32.fin (9992313 / 4194304)) ≤ MAX_SPEED)) ∧
      MAX_SPEED = F32.fin 3) :=
  have hmem : (⟨F32.fin 72, F32.fin 47, F32.fin (10658467 / 8388608),
        F32.fin (9992313 / 4194304)⟩ : Particle F32)
      ∈ (nextFrame ⟨[⟨F32.fin 64, F32.fin 32, F32.fin (13 / 2), F32.fin 15⟩],
          F32.fin 0⟩).particles := by
    rw [nextFrame_eight_fifteen]
    exact List.mem_singleton.mpr rfl
  ⟨hmem, nextFrame_speed_or_nan _ _ hmem⟩

end Float32

/-! ## The no-overlap tendency, where it fails -/

/-- C4, counterexample. Three ways in which a pair at distance `d < minDist` with zero
velocity is not separated as claimed.  In exact arithmetic, two particles at the same point
`(10, 10)`, at distance 0, are left where they are by one iteration of the
collision-resolution loop.  In exact arithmetic, in the world of three particles at
`(10, 10)`, `(12, 10)`, `(14, 10)`, one iteration takes the second and the third particle
from distance 2 to distance 0.  On `float`, the two particles at `(10, 10)` and `(11, 11)`,
at distance `1.41421354`, end one iteration at distance `6.00000095`, above `minDist`. -/
theorem collisionIteration_not_separating :
    (¬ ∀ p1 p2 : Particle ℝ, p1.vx = 0 ∧ p1.vy = 0 → p2.vx = 0 ∧ p2.vy = 0 →
      dist p1 p2 < minDist →
      ∃ q1 q2 : Particle ℝ, collisionIteration [p1, p2] = [q1, q2] ∧
        dist p1 p2 < dist q1 q2 ∧ dist q1 q2 ≤ minDist) ∧
    (collisionIteration [(⟨10, 10, 0, 0⟩ : Particle ℝ), ⟨12, 10, 0, 0⟩, ⟨14, 10, 0, 0⟩]
        = [⟨8, 10, 0, 0⟩, ⟨14, 10, 0, 0⟩, ⟨14, 10, 0, 0⟩] ∧
      dist (⟨12, 10, 0, 0⟩ : Particle ℝ) ⟨14, 10, 0, 0⟩ = 2 ∧
      dist (⟨14, 10, 0, 0⟩ : Particle ℝ) ⟨14, 10, 0, 0⟩ = 0) ∧
    (Float32.collisionIteration
        [⟨F32.fin 10, F32.fin 10, F32.fin 0, F32.fin 0⟩,
          ⟨F32.fin 11, F32.fin 11, F32.fin 0, F32.fin 0⟩]
      = [⟨F32.fin (4392841 / 524288), F32.fin (4392841 / 524288), F32.fin 0, F32.fin 0⟩,
          ⟨F32.fin (6617207 / 524288), F32.fin (6617207 / 524288), F32.fin 0, F32.fin 0⟩] ∧
      Float32.dist ⟨F32.fin 10, F32.fin 10, F32.fin 0, F32.fin 0⟩
          ⟨F32.fin 11, F32.fin 11, F32.fin 0, F32.fin 0⟩ < Float32.minDist ∧
      Float32.dist ⟨F32.fin (4392841 / 524288), F32.fin (4392841 / 524288), F32.fin 0, F32.fin 0⟩
          ⟨F32.fin (6617207 / 524288), F32.fin (6617207 / 524288), F32.fin 0, F32.fin 0⟩
        = F32.fin (6291457 / 1048576) ∧
      ¬ (Float32.dist
          ⟨F32.fin (4392841 / 524288), F32.fin (4392841 / 524288), F32.fin 0, F32.fin 0⟩
          ⟨F32.fin (6617207 / 524288), F32.fin (6617207 / 524288), F32.fin 0, F32.fin 0⟩
        ≤ Float32.minDist)) :=
  ⟨collisionIteration_skips_coincident, collisionIteration_line,
    Float32.collisionIteration_diagonal.1, Float32.collisionIteration_diagonal.2.2.2.1,
    Float32.collisionIteration_diagonal.2.2.1, Float32.collisionIteration_diagonal.2.2.2.2⟩

end FluidSim
